import Mathlib

/-!
The kBerry kdriveExpress samples: the datapoint sample.

A shallow embedding of `samples/c/kdrive_express_dpt.c` and of the datapoint
codec it calls.

* The sample functions `send_telegrams` and `on_telegram_callback` are
  translated statement by statement.  They run against the kdriveExpress
  library, whose implementation is not part of the sources: the library calls
  are parameters of the embedding (`EncodeLib`, `DecodeLib`, `TelegramLib`), so
  that what is proved about the samples holds for every behaviour of the
  library.  Calls and log output are collected in a trace of `Event`s.
* The codec functions `kdrive_dpt_encode_dptN` / `kdrive_dpt_decode_dptN`
  themselves are modelled from the specification's table of encoding rules.

Machine integers are `Nat` / `Int` with explicit reduction modulo `2 ^ w`; a
byte buffer is a `List Nat`.
-/

namespace KBerry

/-! ## Constants -/

/-- Modelled from the spec: `KDRIVE_MAX_GROUP_VALUE_LEN` is declared in
`kdrive_express.h`, which is not part of the sources; the specification gives
the maximum group-value payload length as 14 bytes. -/
def KDRIVE_MAX_GROUP_VALUE_LEN : Nat := 14

/-- Modelled from the spec: `KDRIVE_DPT16_LENGTH` is declared in
`kdrive_express.h`, which is not part of the sources; the specification gives
the DPT-16 fixed string length as 14. -/
def KDRIVE_DPT16_LENGTH : Nat := 14

/-- The logger levels the samples name.  Their numeric values are declared in
`kdrive_express.h`, which is not part of the sources; they play no role and the
levels are kept symbolic. -/
inductive LoggerLevel
  | KDRIVE_LOGGER_FATAL
  | KDRIVE_LOGGER_ERROR
  | KDRIVE_LOGGER_INFORMATION
  deriving DecidableEq, Repr

def ADDR_DPT_1 : Nat := 0x0901
def ADDR_DPT_2 : Nat := 0x090A
def ADDR_DPT_3 : Nat := ADDR_DPT_2 + 1
def ADDR_DPT_4 : Nat := ADDR_DPT_3 + 1
def ADDR_DPT_5 : Nat := ADDR_DPT_4 + 1
def ADDR_DPT_6 : Nat := ADDR_DPT_5 + 1
def ADDR_DPT_7 : Nat := ADDR_DPT_6 + 1
def ADDR_DPT_8 : Nat := ADDR_DPT_7 + 1
def ADDR_DPT_9 : Nat := ADDR_DPT_8 + 1
def ADDR_DPT_10_LOCAL : Nat := ADDR_DPT_9 + 1
def ADDR_DPT_10_UTC : Nat := ADDR_DPT_10_LOCAL + 1
def ADDR_DPT_10 : Nat := ADDR_DPT_10_UTC + 1
def ADDR_DPT_11_LOCAL : Nat := ADDR_DPT_10 + 1
def ADDR_DPT_11_UTC : Nat := ADDR_DPT_11_LOCAL + 1
def ADDR_DPT_11 : Nat := ADDR_DPT_11_UTC + 1
def ADDR_DPT_12 : Nat := ADDR_DPT_11 + 1
def ADDR_DPT_13 : Nat := ADDR_DPT_12 + 1
def ADDR_DPT_14 : Nat := ADDR_DPT_13 + 1
def ADDR_DPT_15 : Nat := ADDR_DPT_14 + 1
def ADDR_DPT_16 : Nat := ADDR_DPT_15 + 1

/-! ## Errors -/

/-- Modelled from the spec: `error_t` and its codes are declared in
`kdrive_express.h`, which is not part of the sources.  `KDRIVE_ERROR_NONE` and
`KDRIVE_TIMEOUT_ERROR` are the two codes the samples name; the other
constructors are the error kinds of the specification's taxonomy. -/
inductive error_t
  | KDRIVE_ERROR_NONE
  | KDRIVE_TIMEOUT_ERROR
  | InvalidBufferLength
  | MalformedTelegram
  | OutOfRangeValue
  | NotApplicable
  deriving DecidableEq, Repr

deriving instance DecidableEq for Except

/-- The `error_t` a library call returns: `KDRIVE_ERROR_NONE` on success. -/
def error_code {α : Type} : Except error_t α → error_t
  | .ok _ => .KDRIVE_ERROR_NONE
  | .error e => e

/-! ## The datapoint codec, DPT 1 to 8 -/

/-- The value of a `bool_t` as a bit. -/
def bit (b : Bool) : Nat := if b then 1 else 0

/-- Modelled from the spec: `kdrive_dpt_encode_dpt1` belongs to the closed
kdriveExpress library.  DPT 1, one byte: bit 0 holds the boolean, bits 1 to 7
are zero.  Fails with `InvalidBufferLength` when the destination is too small. -/
def kdrive_dpt_encode_dpt1 (capacity : Nat) (value : Bool) : Except error_t (List Nat) :=
  if capacity < 1 then .error .InvalidBufferLength else .ok [bit value]

/-- Modelled from the spec: `kdrive_dpt_decode_dpt1` belongs to the closed
kdriveExpress library.  Fails with `InvalidBufferLength` unless the input has
the fixed size of 1 byte. -/
def kdrive_dpt_decode_dpt1 (data : List Nat) : Except error_t Bool :=
  match data with
  | [b] => .ok (b % 2 == 1)
  | _ => .error .InvalidBufferLength

/-- Modelled from the spec: `kdrive_dpt_encode_dpt2` belongs to the closed
kdriveExpress library.  DPT 2, one byte: bit 0 = value, bit 1 = control flag. -/
def kdrive_dpt_encode_dpt2 (capacity : Nat) (control value : Bool) :
    Except error_t (List Nat) :=
  if capacity < 1 then .error .InvalidBufferLength else .ok [2 * bit control + bit value]

/-- Modelled from the spec: `kdrive_dpt_decode_dpt2` belongs to the closed
kdriveExpress library.  Returns `(control, value)`. -/
def kdrive_dpt_decode_dpt2 (data : List Nat) : Except error_t (Bool × Bool) :=
  match data with
  | [b] => .ok (b / 2 % 2 == 1, b % 2 == 1)
  | _ => .error .InvalidBufferLength

/-- Modelled from the spec: `kdrive_dpt_encode_dpt3` belongs to the closed
kdriveExpress library.  DPT 3, one byte: bits 0 to 2 = magnitude (0 to 7),
bit 3 = control flag; a magnitude above 7 is an `OutOfRangeValue`. -/
def kdrive_dpt_encode_dpt3 (capacity : Nat) (control : Bool) (value : Nat) :
    Except error_t (List Nat) :=
  if capacity < 1 then .error .InvalidBufferLength
  else if 7 < value then .error .OutOfRangeValue
  else .ok [8 * bit control + value]

/-- Modelled from the spec: `kdrive_dpt_decode_dpt3` belongs to the closed
kdriveExpress library.  Returns `(control, value)`. -/
def kdrive_dpt_decode_dpt3 (data : List Nat) : Except error_t (Bool × Nat) :=
  match data with
  | [b] => .ok (b / 8 % 2 == 1, b % 8)
  | _ => .error .InvalidBufferLength

/-- Modelled from the spec: `kdrive_dpt_encode_dpt4` belongs to the closed
kdriveExpress library.  DPT 4, one byte: the raw 8-bit character code (the
`uint8_t` argument, hence reduced modulo 256). -/
def kdrive_dpt_encode_dpt4 (capacity : Nat) (character : Nat) : Except error_t (List Nat) :=
  if capacity < 1 then .error .InvalidBufferLength else .ok [character % 256]

/-- Modelled from the spec: `kdrive_dpt_decode_dpt4` belongs to the closed
kdriveExpress library. -/
def kdrive_dpt_decode_dpt4 (data : List Nat) : Except error_t Nat :=
  match data with
  | [b] => .ok (b % 256)
  | _ => .error .InvalidBufferLength

/-- Modelled from the spec: `kdrive_dpt_encode_dpt5` belongs to the closed
kdriveExpress library.  DPT 5, one byte: direct unsigned byte, range 0 to 255
(the `uint8_t` argument, hence reduced modulo 256). -/
def kdrive_dpt_encode_dpt5 (capacity : Nat) (value : Nat) : Except error_t (List Nat) :=
  if capacity < 1 then .error .InvalidBufferLength else .ok [value % 256]

/-- Modelled from the spec: `kdrive_dpt_decode_dpt5` belongs to the closed
kdriveExpress library. -/
def kdrive_dpt_decode_dpt5 (data : List Nat) : Except error_t Nat :=
  match data with
  | [b] => .ok (b % 256)
  | _ => .error .InvalidBufferLength

/-- The signed reading of a `w`-bit two's-complement pattern. -/
def to_signed (w : Nat) (u : Nat) : Int :=
  if u % 2 ^ w < 2 ^ (w - 1) then ((u % 2 ^ w : Nat) : Int)
  else ((u % 2 ^ w : Nat) : Int) - 2 ^ w

/-- The `w`-bit two's-complement pattern of a signed value. -/
def to_unsigned (w : Nat) (v : Int) : Nat := (v % 2 ^ w).toNat

/-- Modelled from the spec: `kdrive_dpt_encode_dpt6` belongs to the closed
kdriveExpress library.  DPT 6, one byte: two's-complement byte, range -128 to
127. -/
def kdrive_dpt_encode_dpt6 (capacity : Nat) (value : Int) : Except error_t (List Nat) :=
  if capacity < 1 then .error .InvalidBufferLength else .ok [to_unsigned 8 value]

/-- Modelled from the spec: `kdrive_dpt_decode_dpt6` belongs to the closed
kdriveExpress library. -/
def kdrive_dpt_decode_dpt6 (data : List Nat) : Except error_t Int :=
  match data with
  | [b] => .ok (to_signed 8 b)
  | _ => .error .InvalidBufferLength

/-- Big-endian bytes of a 16-bit pattern. -/
def be16 (u : Nat) : List Nat := [u / 256 % 256, u % 256]

/-- The 16-bit pattern of two big-endian bytes. -/
def of_be16 (b0 b1 : Nat) : Nat := b0 % 256 * 256 + b1 % 256

/-- Modelled from the spec: `kdrive_dpt_encode_dpt7` belongs to the closed
kdriveExpress library.  DPT 7, two bytes: big-endian unsigned, range 0 to
65535. -/
def kdrive_dpt_encode_dpt7 (capacity : Nat) (value : Nat) : Except error_t (List Nat) :=
  if capacity < 2 then .error .InvalidBufferLength else .ok (be16 value)

/-- Modelled from the spec: `kdrive_dpt_decode_dpt7` belongs to the closed
kdriveExpress library. -/
def kdrive_dpt_decode_dpt7 (data : List Nat) : Except error_t Nat :=
  match data with
  | [b0, b1] => .ok (of_be16 b0 b1)
  | _ => .error .InvalidBufferLength

/-- Modelled from the spec: `kdrive_dpt_encode_dpt8` belongs to the closed
kdriveExpress library.  DPT 8, two bytes: big-endian two's-complement. -/
def kdrive_dpt_encode_dpt8 (capacity : Nat) (value : Int) : Except error_t (List Nat) :=
  if capacity < 2 then .error .InvalidBufferLength else .ok (be16 (to_unsigned 16 value))

/-- Modelled from the spec: `kdrive_dpt_decode_dpt8` belongs to the closed
kdriveExpress library. -/
def kdrive_dpt_decode_dpt8 (data : List Nat) : Except error_t Int :=
  match data with
  | [b0, b1] => .ok (to_signed 16 (of_be16 b0 b1))
  | _ => .error .InvalidBufferLength

/-! ## The datapoint codec, DPT 9 -/

/-- Rounding to the nearest integer (halves go up). -/
def round_nearest (x : ℚ) : Int := ⌊x + 1 / 2⌋

/-- Whether a mantissa fits the sign bit plus 11 mantissa bits of DPT 9, read
together as one two's-complement number. -/
def dpt9_mantissa_ok (m : Int) : Bool := decide (-2048 ≤ m) && decide (m ≤ 2047)

/-- The smallest exponent `e ≥ start`, among `fuel` candidates, at which the
value in hundredths `c`, divided by `2 ^ e` and rounded, fits the mantissa. -/
def dpt9_exponent (c : ℚ) : Nat → Nat → Option Nat
  | 0, _ => none
  | fuel + 1, e =>
    if dpt9_mantissa_ok (round_nearest (c / 2 ^ e)) then some e
    else dpt9_exponent c fuel (e + 1)

/-- Modelled from the spec: `kdrive_dpt_encode_dpt9` belongs to the closed
kdriveExpress library.  DPT 9, two bytes, KNX floating form: sign (1 bit),
4-bit exponent, 11-bit mantissa, value = 0.01 × mantissa × 2^exponent with the
mantissa in two's complement (the sign bit is its top bit).  Encoding chooses
the smallest exponent that represents the value within the signed mantissa,
rounding to the nearest representable step; a value no exponent can hold is an
`OutOfRangeValue`.  The `float32_t` argument is modelled by the rational number
it denotes. -/
def kdrive_dpt_encode_dpt9 (capacity : Nat) (value : ℚ) : Except error_t (List Nat) :=
  if capacity < 2 then .error .InvalidBufferLength
  else
    match dpt9_exponent (value * 100) 16 0 with
    | none => .error .OutOfRangeValue
    | some e =>
      let m := to_unsigned 12 (round_nearest (value * 100 / 2 ^ e))
      .ok [m / 2048 * 128 + e * 8 + m % 2048 / 256, m % 256]

/-- Modelled from the spec: `kdrive_dpt_decode_dpt9` belongs to the closed
kdriveExpress library.  Inverts the KNX floating form exactly:
value = 0.01 × mantissa × 2^exponent. -/
def kdrive_dpt_decode_dpt9 (data : List Nat) : Except error_t ℚ :=
  match data with
  | [b0, b1] =>
    let e := b0 / 8 % 16
    let m := to_signed 12 (b0 / 128 % 2 * 2048 + b0 % 8 * 256 + b1 % 256)
    .ok ((m : ℚ) * 2 ^ e / 100)
  | _ => .error .InvalidBufferLength

/-! ## The datapoint codec, DPT 10 to 16 -/

/-- Modelled from the spec: `kdrive_dpt_encode_dpt10` belongs to the closed
kdriveExpress library.  DPT 10, three bytes: day of week (3 bits, 0 = none)
and hour (5 bits, 0 to 23); minute (6 bits, 0 to 59); second (6 bits, 0 to
59); the two reserved bits of the minute and second bytes are zero.  A field
outside its range is an `OutOfRangeValue`. -/
def kdrive_dpt_encode_dpt10 (capacity : Nat) (day hour minute second : Int) :
    Except error_t (List Nat) :=
  if capacity < 3 then .error .InvalidBufferLength
  else if day < 0 ∨ 7 < day ∨ hour < 0 ∨ 23 < hour ∨ minute < 0 ∨ 59 < minute ∨
      second < 0 ∨ 59 < second then .error .OutOfRangeValue
  else .ok [day.toNat * 32 + hour.toNat, minute.toNat, second.toNat]

/-- Modelled from the spec: `kdrive_dpt_decode_dpt10` belongs to the closed
kdriveExpress library.  Returns `(day, hour, minute, second)`. -/
def kdrive_dpt_decode_dpt10 (data : List Nat) : Except error_t (Int × Int × Int × Int) :=
  match data with
  | [b0, b1, b2] => .ok ((b0 / 32 % 8 : Nat), (b0 % 32 : Nat), (b1 % 64 : Nat), (b2 % 64 : Nat))
  | _ => .error .InvalidBufferLength

/-- A reading of the clock of the machine the library runs on, already broken
down to the fields of DPT 10 and DPT 11. -/
structure BrokenDownTime where
  weekday : Int
  hour : Int
  minute : Int
  second : Int
  year : Int
  month : Int
  day : Int
  deriving DecidableEq, Repr

/-- The state of the machine's clock at the moment of a library call: the
local-time reading and the UTC reading. -/
structure Clock where
  localtime : BrokenDownTime
  utc : BrokenDownTime
  deriving DecidableEq, Repr

/-- Modelled from the spec: `kdrive_dpt_encode_dpt10_local` belongs to the
closed kdriveExpress library.  The DPT 10 payload populated from the local
time.  The sample calls it as `kdrive_dpt_encode_dpt10_local(buffer, &length)`:
the caller passes no time, so `clock` is not an argument of the C call but the
state of the machine's clock when the call is made. -/
def kdrive_dpt_encode_dpt10_local (clock : Clock) (capacity : Nat) :
    Except error_t (List Nat) :=
  kdrive_dpt_encode_dpt10 capacity clock.localtime.weekday clock.localtime.hour
    clock.localtime.minute clock.localtime.second

/-- Modelled from the spec: `kdrive_dpt_encode_dpt10_utc` belongs to the closed
kdriveExpress library.  The DPT 10 payload populated from the UTC time; as for
the local variant, `clock` is the state of the machine's clock, not an argument
of the C call `kdrive_dpt_encode_dpt10_utc(buffer, &length)`. -/
def kdrive_dpt_encode_dpt10_utc (clock : Clock) (capacity : Nat) :
    Except error_t (List Nat) :=
  kdrive_dpt_encode_dpt10 capacity clock.utc.weekday clock.utc.hour
    clock.utc.minute clock.utc.second

/-- Modelled from the spec: `kdrive_dpt_encode_dpt11` belongs to the closed
kdriveExpress library.  DPT 11, three bytes: day (5 bits, 1 to 31); month
(4 bits, 1 to 12); year (7 bits, 0 to 99, the year modulo 100).  With the
fixed pivot at 90 the years that can be told apart are 1990 to 2089; a field
outside its range is an `OutOfRangeValue`. -/
def kdrive_dpt_encode_dpt11 (capacity : Nat) (year month day : Int) :
    Except error_t (List Nat) :=
  if capacity < 3 then .error .InvalidBufferLength
  else if year < 1990 ∨ 2089 < year ∨ month < 1 ∨ 12 < month ∨ day < 1 ∨ 31 < day then
    .error .OutOfRangeValue
  else .ok [day.toNat, month.toNat, (year % 100).toNat]

/-- Modelled from the spec: `kdrive_dpt_decode_dpt11` belongs to the closed
kdriveExpress library.  Returns `(year, month, day)`; the year byte 0 to 99
maps to 1990 to 1999 from the pivot 90 on and to 2000 to 2089 below it.  The
specification asks that day and month ranges be validated and leaves the way
to the implementer; here a day or month outside its range is an
`OutOfRangeValue`. -/
def kdrive_dpt_decode_dpt11 (data : List Nat) : Except error_t (Int × Int × Int) :=
  match data with
  | [b0, b1, b2] =>
    let y := b2 % 128
    if b0 % 32 < 1 ∨ b1 % 16 < 1 ∨ 12 < b1 % 16 then .error .OutOfRangeValue
    else .ok ((if 90 ≤ y then 1900 + y else 2000 + y : Nat), (b1 % 16 : Nat), (b0 % 32 : Nat))
  | _ => .error .InvalidBufferLength

/-- Modelled from the spec: `kdrive_dpt_encode_dpt11_local` belongs to the
closed kdriveExpress library.  The DPT 11 payload populated from the local
date; `clock` is the state of the machine's clock, not an argument of the C
call `kdrive_dpt_encode_dpt11_local(buffer, &length)`. -/
def kdrive_dpt_encode_dpt11_local (clock : Clock) (capacity : Nat) :
    Except error_t (List Nat) :=
  kdrive_dpt_encode_dpt11 capacity clock.localtime.year clock.localtime.month
    clock.localtime.day

/-- Modelled from the spec: `kdrive_dpt_encode_dpt11_utc` belongs to the closed
kdriveExpress library.  The DPT 11 payload populated from the UTC date. -/
def kdrive_dpt_encode_dpt11_utc (clock : Clock) (capacity : Nat) :
    Except error_t (List Nat) :=
  kdrive_dpt_encode_dpt11 capacity clock.utc.year clock.utc.month clock.utc.day

/-- Big-endian bytes of a 32-bit pattern. -/
def be32 (u : Nat) : List Nat :=
  [u / 16777216 % 256, u / 65536 % 256, u / 256 % 256, u % 256]

/-- The 32-bit pattern of four big-endian bytes. -/
def of_be32 (b0 b1 b2 b3 : Nat) : Nat :=
  b0 % 256 * 16777216 + b1 % 256 * 65536 + b2 % 256 * 256 + b3 % 256

/-- Modelled from the spec: `kdrive_dpt_encode_dpt12` belongs to the closed
kdriveExpress library.  DPT 12, four bytes: big-endian unsigned. -/
def kdrive_dpt_encode_dpt12 (capacity : Nat) (value : Nat) : Except error_t (List Nat) :=
  if capacity < 4 then .error .InvalidBufferLength else .ok (be32 value)

/-- Modelled from the spec: `kdrive_dpt_decode_dpt12` belongs to the closed
kdriveExpress library. -/
def kdrive_dpt_decode_dpt12 (data : List Nat) : Except error_t Nat :=
  match data with
  | [b0, b1, b2, b3] => .ok (of_be32 b0 b1 b2 b3)
  | _ => .error .InvalidBufferLength

/-- Modelled from the spec: `kdrive_dpt_encode_dpt13` belongs to the closed
kdriveExpress library.  DPT 13, four bytes: big-endian two's-complement. -/
def kdrive_dpt_encode_dpt13 (capacity : Nat) (value : Int) : Except error_t (List Nat) :=
  if capacity < 4 then .error .InvalidBufferLength else .ok (be32 (to_unsigned 32 value))

/-- Modelled from the spec: `kdrive_dpt_decode_dpt13` belongs to the closed
kdriveExpress library.  The decoded value is the signed reading of the four
bytes. -/
def kdrive_dpt_decode_dpt13 (data : List Nat) : Except error_t Int :=
  match data with
  | [b0, b1, b2, b3] => .ok (to_signed 32 (of_be32 b0 b1 b2 b3))
  | _ => .error .InvalidBufferLength

/-- Modelled from the spec: `kdrive_dpt_encode_dpt14` belongs to the closed
kdriveExpress library.  DPT 14, four bytes: IEEE-754 single precision in
big-endian byte order.  The codec moves the bits of the `float32_t` without
arithmetic, so the argument is modelled by its IEEE-754 bit pattern. -/
def kdrive_dpt_encode_dpt14 (capacity : Nat) (value_bits : Nat) : Except error_t (List Nat) :=
  if capacity < 4 then .error .InvalidBufferLength else .ok (be32 value_bits)

/-- Modelled from the spec: `kdrive_dpt_decode_dpt14` belongs to the closed
kdriveExpress library.  Returns the IEEE-754 bit pattern of the value. -/
def kdrive_dpt_decode_dpt14 (data : List Nat) : Except error_t Nat :=
  match data with
  | [b0, b1, b2, b3] => .ok (of_be32 b0 b1 b2 b3)
  | _ => .error .InvalidBufferLength

/-- The fields of a DPT 15 entrance-access value. -/
structure EntranceAccess where
  accessCode : Int
  error : Bool
  permission : Bool
  direction : Bool
  encrypted : Bool
  index : Int
  deriving DecidableEq, Repr

/-- Modelled from the spec: `kdrive_dpt_encode_dpt15` belongs to the closed
kdriveExpress library.  DPT 15, four bytes: 24-bit access code, then in the
last byte the 1-bit error, permission, direction and encrypted flags and the
4-bit index, in this order from the top bit down.  The access code is stored
big-endian like the other multi-byte values.  A field outside its width is an
`OutOfRangeValue`. -/
def kdrive_dpt_encode_dpt15 (capacity : Nat) (a : EntranceAccess) : Except error_t (List Nat) :=
  if capacity < 4 then .error .InvalidBufferLength
  else if a.accessCode < 0 ∨ 16777215 < a.accessCode ∨ a.index < 0 ∨ 15 < a.index then
    .error .OutOfRangeValue
  else
    let c := a.accessCode.toNat
    .ok [c / 65536 % 256, c / 256 % 256, c % 256,
      bit a.error * 128 + bit a.permission * 64 + bit a.direction * 32 +
        bit a.encrypted * 16 + a.index.toNat]

/-- Modelled from the spec: `kdrive_dpt_decode_dpt15` belongs to the closed
kdriveExpress library. -/
def kdrive_dpt_decode_dpt15 (data : List Nat) : Except error_t EntranceAccess :=
  match data with
  | [b0, b1, b2, b3] =>
    .ok { accessCode := (b0 % 256 * 65536 + b1 % 256 * 256 + b2 % 256 : Nat)
          error := b3 / 128 % 2 == 1
          permission := b3 / 64 % 2 == 1
          direction := b3 / 32 % 2 == 1
          encrypted := b3 / 16 % 2 == 1
          index := (b3 % 16 : Nat) }
  | _ => .error .InvalidBufferLength

/-- The characters of a C string literal, without the terminating NUL. -/
def c_literal (s : String) : List Nat := s.toList.map Char.toNat

/-- Modelled from the spec: `kdrive_dpt_encode_dpt16` belongs to the closed
kdriveExpress library.  DPT 16: a fixed 14-byte buffer of ISO-8859-1
characters, zero-padded and not terminated on the wire.  `str` holds the
characters of the C string up to its terminating NUL.  The specification
leaves the policy for a longer string open (error or truncation); here it is
an `OutOfRangeValue`. -/
def kdrive_dpt_encode_dpt16 (capacity : Nat) (str : List Nat) : Except error_t (List Nat) :=
  if capacity < KDRIVE_DPT16_LENGTH then .error .InvalidBufferLength
  else if KDRIVE_DPT16_LENGTH < str.length then .error .OutOfRangeValue
  else .ok (str.map (· % 256) ++ List.replicate (KDRIVE_DPT16_LENGTH - str.length) 0)

/-- Modelled from the spec: `kdrive_dpt_decode_dpt16` belongs to the closed
kdriveExpress library.  Returns the 14 bytes of the payload as they are, with
no terminator added. -/
def kdrive_dpt_decode_dpt16 (data : List Nat) : Except error_t (List Nat) :=
  if data.length = KDRIVE_DPT16_LENGTH then .ok (data.map (· % 256))
  else .error .InvalidBufferLength

/-! ## The library as seen by the sample -/

/-- One `kdrive_dpt_encode_*` call: which function is called and with which
value arguments (the arguments after `buffer` and `&length`). -/
inductive EncodeCall
  | dpt1 (value : Bool)
  | dpt2 (control value : Bool)
  | dpt3 (control : Bool) (value : Nat)
  | dpt4 (character : Nat)
  | dpt5 (value : Nat)
  | dpt6 (value : Int)
  | dpt7 (value : Nat)
  | dpt8 (value : Int)
  | dpt9 (value : ℚ)
  | dpt10_local
  | dpt10_utc
  | dpt10 (day hour minute second : Int)
  | dpt11_local
  | dpt11_utc
  | dpt11 (year month day : Int)
  | dpt12 (value : Nat)
  | dpt13 (value : Int)
  | dpt14 (value_bits : Nat)
  | dpt15 (accessCode : Int) (error permission direction encrypted : Bool) (index : Int)
  | dpt16 (str : List Nat)
  deriving DecidableEq, Repr

/-- The number `N` of the datapoint type a `kdrive_dpt_encode_dptN*` call
belongs to. -/
def EncodeCall.kind : EncodeCall → Nat
  | .dpt1 _ => 1
  | .dpt2 _ _ => 2
  | .dpt3 _ _ => 3
  | .dpt4 _ => 4
  | .dpt5 _ => 5
  | .dpt6 _ => 6
  | .dpt7 _ => 7
  | .dpt8 _ => 8
  | .dpt9 _ => 9
  | .dpt10_local => 10
  | .dpt10_utc => 10
  | .dpt10 _ _ _ _ => 10
  | .dpt11_local => 11
  | .dpt11_utc => 11
  | .dpt11 _ _ _ => 11
  | .dpt12 _ => 12
  | .dpt13 _ => 13
  | .dpt14 _ => 14
  | .dpt15 _ _ _ _ _ _ => 15
  | .dpt16 _ => 16

/-- The encode half of the library: what a `kdrive_dpt_encode_*` call does when
`*length` holds `capacity` on entry.  On success it yields the bytes written to
the start of the buffer, whose count it stores in `*length`; on failure it
yields the error it returns and leaves buffer and `*length` alone. -/
abbrev EncodeLib := EncodeCall → Nat → Except error_t (List Nat)

/-- The decode half of the library: what `kdrive_dpt_decode_dptN (data,
data_len, out...)` does on the `data_len` bytes of `data`.  On success it
yields the values written through the out-parameters; on failure it yields the
error it returns and leaves the out-parameters alone. -/
structure DecodeLib where
  dpt1 : List Nat → Except error_t Bool
  dpt2 : List Nat → Except error_t (Bool × Bool)
  dpt3 : List Nat → Except error_t (Bool × Nat)
  dpt4 : List Nat → Except error_t Nat
  dpt5 : List Nat → Except error_t Nat
  dpt6 : List Nat → Except error_t Int
  dpt7 : List Nat → Except error_t Nat
  dpt8 : List Nat → Except error_t Int
  dpt9 : List Nat → Except error_t ℚ
  dpt10 : List Nat → Except error_t (Int × Int × Int × Int)
  dpt11 : List Nat → Except error_t (Int × Int × Int)
  dpt12 : List Nat → Except error_t Nat
  dpt13 : List Nat → Except error_t Int
  dpt14 : List Nat → Except error_t Nat
  dpt15 : List Nat → Except error_t EntranceAccess
  dpt16 : List Nat → Except error_t (List Nat)

/-- The telegram functions of the library that `on_telegram_callback` calls on
the received telegram: `kdrive_ap_get_dest` yields the destination address and
`kdrive_ap_get_group_data` the group data, given the capacity passed in
`data_len`. -/
structure TelegramLib where
  kdrive_ap_is_group_write : List Nat → Bool
  kdrive_ap_get_dest : List Nat → Except error_t Nat
  kdrive_ap_get_group_data : List Nat → Nat → Except error_t (List Nat)

/-- An argument passed to `kdrive_logger_ex` after the format string. -/
inductive LogArg
  /-- An integer argument, printed by `%d`. -/
  | d (v : Int)
  /-- An unsigned argument, printed by `%x`. -/
  | x (v : Nat)
  /-- A `float32_t` given by the number it denotes, printed by `%f`. -/
  | f (v : ℚ)
  /-- A `float32_t` given by its IEEE-754 bit pattern, printed by `%f`. -/
  | f_bits (v : Nat)
  /-- A `char` array printed by `%s`: the characters before its first NUL, or
  `none` when the array holds no NUL, so that printing reads past its end. -/
  | s (v : Option (List Nat))
  deriving DecidableEq, Repr

/-- What the sample does to the outside: calls of the library and log
output, in the order they happen. -/
inductive Event
  /-- A `kdrive_dpt_encode_*` call, the value `*length` had on entry and what
  the call did. -/
  | encode (call : EncodeCall) (capacity : Nat) (result : Except error_t (List Nat))
  /-- The call `kdrive_ap_group_write(ap, address, buffer, length)`. -/
  | group_write (ap : Int) (address : Nat) (buffer : List Nat) (length : Nat)
  /-- The call `kdrive_dpt_decode_dptN(data, data_len, ...)` for `N = kind` and the
  `error_t` it returned. -/
  | decode (kind : Nat) (data : List Nat) (result : error_t)
  /-- The call `kdrive_logger_ex(level, format, args...)`. -/
  | logger_ex (level : LoggerLevel) (format : String) (args : List LogArg)
  /-- The call `kdrive_logger_dump(level, text, data, data_len)`. -/
  | logger_dump (level : LoggerLevel) (text : String) (data : List Nat)
  deriving DecidableEq, Repr

/-- Writing `src` to the start of the array `dst`. -/
def store (dst src : List Nat) : List Nat := src ++ dst.drop src.length

/-- A variable after a library call that was given its address: the value the
call wrote on success, the value it had before otherwise. -/
def out_param {α : Type} (before : α) (r : Except error_t α) : α :=
  match r with
  | .ok v => v
  | .error _ => before

/-- Reading a `char` array as a C string: the characters before the first NUL,
or `none` when the array holds no NUL. -/
def c_string : List Nat → Option (List Nat)
  | [] => none
  | c :: rest => if c = 0 then some [] else (c_string rest).map (c :: ·)

/-! ## `send_telegrams` -/

/-- The three forms of statement the body of `send_telegrams` is made of. -/
inductive Statement
  /-- The statement `length = n;`. -/
  | set_length (n : Nat)
  /-- The statement `kdrive_dpt_encode_*(buffer, &length, args...);`. -/
  | encode (call : EncodeCall)
  /-- The statement `kdrive_ap_group_write(ap, address, buffer, length);`. -/
  | group_write (address : Nat)
  deriving DecidableEq, Repr

/-- The local variables of `send_telegrams`. -/
structure Locals where
  buffer : List Nat
  length : Nat
  deriving DecidableEq, Repr

/-- Running statements one after the other from the locals `s`; the result is
the trace of the library calls made.  An encode call is given the current
`length` as capacity; on success the bytes it yields are written to the start
of `buffer` and their count to `length`, on failure both stay as they are.  The
value an encode call returns is not used: the next statement runs in any case. -/
def run (lib : EncodeLib) (ap : Int) : List Statement → Locals → List Event
  | [], _ => []
  | .set_length n :: rest, s => run lib ap rest { s with length := n }
  | .encode call :: rest, s =>
    .encode call s.length (lib call s.length) ::
      run lib ap rest
        { buffer := store s.buffer (out_param [] (lib call s.length))
          length := out_param s.length ((lib call s.length).map List.length) }
  | .group_write address :: rest, s =>
    .group_write ap address s.buffer s.length :: run lib ap rest s

/-- The body of `send_telegrams` in `kdrive_express_dpt.c`, statement by
statement. -/
def send_telegrams_body : List Statement := [
  -- DPT-1 (1 bit)
  .set_length KDRIVE_MAX_GROUP_VALUE_LEN,
  .encode (.dpt1 true),
  .group_write ADDR_DPT_1,
  -- DPT-2: 1 bit controlled
  .set_length KDRIVE_MAX_GROUP_VALUE_LEN,
  .encode (.dpt2 true true),
  .group_write ADDR_DPT_2,
  -- DPT-3: 3 bit controlled
  .set_length KDRIVE_MAX_GROUP_VALUE_LEN,
  .encode (.dpt3 true 0x05),
  .group_write ADDR_DPT_3,
  -- DPT-4: Character
  .set_length KDRIVE_MAX_GROUP_VALUE_LEN,
  .encode (.dpt4 ('A').toNat),
  .group_write ADDR_DPT_4,
  -- DPT-5: 8 bit unsigned value
  .set_length KDRIVE_MAX_GROUP_VALUE_LEN,
  .encode (.dpt5 0x23),
  .group_write ADDR_DPT_5,
  -- DPT-6: 8 bit signed value
  .set_length KDRIVE_MAX_GROUP_VALUE_LEN,
  .encode (.dpt6 (-5)),
  .group_write ADDR_DPT_6,
  -- DPT-7: 2 byte unsigned value
  .set_length KDRIVE_MAX_GROUP_VALUE_LEN,
  .encode (.dpt7 0xAFFE),
  .group_write ADDR_DPT_7,
  -- DPT-8: 2 byte signed value
  .set_length KDRIVE_MAX_GROUP_VALUE_LEN,
  .encode (.dpt8 (-1024)),
  .group_write ADDR_DPT_8,
  -- DPT-9: 2 byte float value
  .set_length KDRIVE_MAX_GROUP_VALUE_LEN,
  .encode (.dpt9 12.25),
  .group_write ADDR_DPT_9,
  -- DPT-10: Local Time
  .set_length KDRIVE_MAX_GROUP_VALUE_LEN,
  .encode .dpt10_local,
  .group_write ADDR_DPT_10_LOCAL,
  -- DPT-10: UTC Time
  .set_length KDRIVE_MAX_GROUP_VALUE_LEN,
  .encode .dpt10_utc,
  .group_write ADDR_DPT_10_UTC,
  -- DPT-10: Time
  .set_length KDRIVE_MAX_GROUP_VALUE_LEN,
  .encode (.dpt10 1 11 11 11),
  .group_write ADDR_DPT_10,
  -- DPT-11: Local Date
  .set_length KDRIVE_MAX_GROUP_VALUE_LEN,
  .encode .dpt11_local,
  .group_write ADDR_DPT_11_LOCAL,
  -- DPT-11: UTC Date
  .set_length KDRIVE_MAX_GROUP_VALUE_LEN,
  .encode .dpt11_utc,
  .group_write ADDR_DPT_11_UTC,
  -- DPT-11: Date
  .set_length KDRIVE_MAX_GROUP_VALUE_LEN,
  .encode (.dpt11 2012 3 12),
  .group_write ADDR_DPT_11,
  -- DPT-12: 4 byte unsigned value
  .set_length KDRIVE_MAX_GROUP_VALUE_LEN,
  .encode (.dpt12 0xDEADBEEF),
  .group_write ADDR_DPT_12,
  -- DPT-13: 4 byte signed value
  .set_length KDRIVE_MAX_GROUP_VALUE_LEN,
  .encode (.dpt13 (-30000)),
  .group_write ADDR_DPT_13,
  -- DPT-14: 4 byte float value; 0x44FD23F3 is the IEEE-754 single 2025.12345f
  .set_length KDRIVE_MAX_GROUP_VALUE_LEN,
  .encode (.dpt14 0x44FD23F3),
  .group_write ADDR_DPT_14,
  -- DPT-15: Entrance access
  .set_length KDRIVE_MAX_GROUP_VALUE_LEN,
  .encode (.dpt15 1234 false true true false 10),
  .group_write ADDR_DPT_15,
  -- DPT-16: Character string, 14 bytes
  .set_length KDRIVE_MAX_GROUP_VALUE_LEN,
  .encode (.dpt16 (c_literal "Weinzierl Eng ")),
  .group_write ADDR_DPT_16]

/-- The function `send_telegrams` of `kdrive_express_dpt.c`.  `uninit_buffer`
and `uninit_length` are the contents of the locals `buffer` and `length` before
their first assignment.  The result is the trace of library calls. -/
def send_telegrams (lib : EncodeLib) (ap : Int) (uninit_buffer : List Nat)
    (uninit_length : Nat) : List Event :=
  run lib ap send_telegrams_body { buffer := uninit_buffer, length := uninit_length }

/-! ## `on_telegram_callback` -/

/-- The `switch (address)` statement of `on_telegram_callback` in
`kdrive_express_dpt.c`, with its `default` branch last; `data` holds the
`data_len` bytes of group data.  `uninit_value` is the content of the local
array `char value[KDRIVE_DPT16_LENGTH + 1]` of the DPT-16 case before anything
is written to it.  The values the decode calls return are not used; every local
that receives a decoded value starts at the value of its initialiser.  The
variable `level` holds `KDRIVE_LOGGER_INFORMATION` throughout.  A `uint32_t`
passed for `%d` is printed in its signed reading. -/
def on_telegram_switch (dpt : DecodeLib) (uninit_value : List Nat) (address : Nat)
    (data : List Nat) : List Event :=
  if address = ADDR_DPT_1 then
    let value := out_param false (dpt.dpt1 data)
    [.decode 1 data (error_code (dpt.dpt1 data)),
     .logger_ex .KDRIVE_LOGGER_INFORMATION "[1 Bit] %d" [.d (if value then 1 else 0)]]
  else if address = ADDR_DPT_2 then
    let r := out_param (false, false) (dpt.dpt2 data)
    [.decode 2 data (error_code (dpt.dpt2 data)),
     .logger_ex .KDRIVE_LOGGER_INFORMATION "[1 Bit controlled] %d %d" [.d (bit r.1), .d (bit r.2)]]
  else if address = ADDR_DPT_3 then
    let r := out_param (false, 0) (dpt.dpt3 data)
    [.decode 3 data (error_code (dpt.dpt3 data)),
     .logger_ex .KDRIVE_LOGGER_INFORMATION "[3 Bit controlled] %d %d" [.d (bit r.1), .d r.2]]
  else if address = ADDR_DPT_4 then
    let character := out_param 0 (dpt.dpt4 data)
    [.decode 4 data (error_code (dpt.dpt4 data)),
     .logger_ex .KDRIVE_LOGGER_INFORMATION "[Character] %d" [.d character]]
  else if address = ADDR_DPT_5 then
    let value := out_param 0 (dpt.dpt5 data)
    [.decode 5 data (error_code (dpt.dpt5 data)),
     .logger_ex .KDRIVE_LOGGER_INFORMATION "[8 bit unsigned] 0x%02x" [.x value]]
  else if address = ADDR_DPT_6 then
    let value := out_param 0 (dpt.dpt6 data)
    [.decode 6 data (error_code (dpt.dpt6 data)),
     .logger_ex .KDRIVE_LOGGER_INFORMATION "[8 bit signed] %d" [.d value]]
  else if address = ADDR_DPT_7 then
    let value := out_param 0 (dpt.dpt7 data)
    [.decode 7 data (error_code (dpt.dpt7 data)),
     .logger_ex .KDRIVE_LOGGER_INFORMATION "[2 byte unsigned] 0x%04x" [.x value]]
  else if address = ADDR_DPT_8 then
    let value := out_param 0 (dpt.dpt8 data)
    [.decode 8 data (error_code (dpt.dpt8 data)),
     .logger_ex .KDRIVE_LOGGER_INFORMATION "[2 byte signed] %d" [.d value]]
  else if address = ADDR_DPT_9 then
    let value := out_param 0 (dpt.dpt9 data)
    [.decode 9 data (error_code (dpt.dpt9 data)),
     .logger_ex .KDRIVE_LOGGER_INFORMATION "[2 byte float] %f" [.f value]]
  else if address = ADDR_DPT_10_LOCAL ∨ address = ADDR_DPT_10_UTC ∨
      address = ADDR_DPT_10 then
    let r := out_param (0, 0, 0, 0) (dpt.dpt10 data)
    [.decode 10 data (error_code (dpt.dpt10 data)),
     .logger_ex .KDRIVE_LOGGER_INFORMATION "[time] %d %d %d %d"
       [.d r.1, .d r.2.1, .d r.2.2.1, .d r.2.2.2]]
  else if address = ADDR_DPT_11_LOCAL ∨ address = ADDR_DPT_11_UTC ∨
      address = ADDR_DPT_11 then
    let r := out_param (0, 0, 0) (dpt.dpt11 data)
    [.decode 11 data (error_code (dpt.dpt11 data)),
     .logger_ex .KDRIVE_LOGGER_INFORMATION "[date] %d %d %d" [.d r.1, .d r.2.1, .d r.2.2]]
  else if address = ADDR_DPT_12 then
    let value := out_param 0 (dpt.dpt12 data)
    [.decode 12 data (error_code (dpt.dpt12 data)),
     .logger_ex .KDRIVE_LOGGER_INFORMATION "[4 byte unsigned] 0x%08x" [.x value]]
  else if address = ADDR_DPT_13 then
    -- the local is declared `uint32_t value = 0;`
    let value : Nat := out_param 0 ((dpt.dpt13 data).map (to_unsigned 32))
    [.decode 13 data (error_code (dpt.dpt13 data)),
     .logger_ex .KDRIVE_LOGGER_INFORMATION "[4 byte signed] %d" [.d (to_signed 32 value)]]
  else if address = ADDR_DPT_14 then
    let value := out_param 0 (dpt.dpt14 data)
    [.decode 14 data (error_code (dpt.dpt14 data)),
     .logger_ex .KDRIVE_LOGGER_INFORMATION "[4 byte float] %f" [.f_bits value]]
  else if address = ADDR_DPT_15 then
    let r := out_param
      { accessCode := 0, error := false, permission := false, direction := false,
        encrypted := false, index := 0 } (dpt.dpt15 data)
    [.decode 15 data (error_code (dpt.dpt15 data)),
     .logger_ex .KDRIVE_LOGGER_INFORMATION "[entrance access] %d %d %d %d %d"
       [.d r.accessCode, .d (bit r.error), .d (bit r.permission), .d (bit r.direction),
        .d (bit r.encrypted), .d r.index]]
  else if address = ADDR_DPT_16 then
    -- kdrive_dpt_decode_dpt16 is not null terminated, so we null terminate
    let value := out_param uninit_value ((dpt.dpt16 data).map (store uninit_value))
    let value := value.set KDRIVE_DPT16_LENGTH 0
    [.decode 16 data (error_code (dpt.dpt16 data)),
     .logger_ex .KDRIVE_LOGGER_INFORMATION "[character string] %s" [.s (c_string value)]]
  else
    [.logger_ex .KDRIVE_LOGGER_INFORMATION "A_GroupValue_Write: 0x%04x " [.x address],
     .logger_dump .KDRIVE_LOGGER_INFORMATION "A_GroupValue_Write Data :" data]

/-- The function `on_telegram_callback` of `kdrive_express_dpt.c`: the guard
around the switch.  `telegram` holds the `telegram_len` bytes received.  The
result is the trace of library calls and log output. -/
def on_telegram_callback (ap : TelegramLib) (dpt : DecodeLib) (uninit_value : List Nat)
    (telegram : List Nat) : List Event :=
  if ap.kdrive_ap_is_group_write telegram then
    match ap.kdrive_ap_get_dest telegram with
    | .error _ => []
    | .ok address =>
      match ap.kdrive_ap_get_group_data telegram KDRIVE_MAX_GROUP_VALUE_LEN with
      | .error _ => []
      | .ok data => on_telegram_switch dpt uninit_value address data
  else []

/-! ## The library of the specification -/

/-- The encode half of the library with every function as the specification
describes it; `clock` is the state of the machine's clock during the call. -/
def kdrive_dpt_encode (clock : Clock) : EncodeLib
  | .dpt1 value, capacity => kdrive_dpt_encode_dpt1 capacity value
  | .dpt2 control value, capacity => kdrive_dpt_encode_dpt2 capacity control value
  | .dpt3 control value, capacity => kdrive_dpt_encode_dpt3 capacity control value
  | .dpt4 character, capacity => kdrive_dpt_encode_dpt4 capacity character
  | .dpt5 value, capacity => kdrive_dpt_encode_dpt5 capacity value
  | .dpt6 value, capacity => kdrive_dpt_encode_dpt6 capacity value
  | .dpt7 value, capacity => kdrive_dpt_encode_dpt7 capacity value
  | .dpt8 value, capacity => kdrive_dpt_encode_dpt8 capacity value
  | .dpt9 value, capacity => kdrive_dpt_encode_dpt9 capacity value
  | .dpt10_local, capacity => kdrive_dpt_encode_dpt10_local clock capacity
  | .dpt10_utc, capacity => kdrive_dpt_encode_dpt10_utc clock capacity
  | .dpt10 day hour minute second, capacity =>
    kdrive_dpt_encode_dpt10 capacity day hour minute second
  | .dpt11_local, capacity => kdrive_dpt_encode_dpt11_local clock capacity
  | .dpt11_utc, capacity => kdrive_dpt_encode_dpt11_utc clock capacity
  | .dpt11 year month day, capacity => kdrive_dpt_encode_dpt11 capacity year month day
  | .dpt12 value, capacity => kdrive_dpt_encode_dpt12 capacity value
  | .dpt13 value, capacity => kdrive_dpt_encode_dpt13 capacity value
  | .dpt14 value_bits, capacity => kdrive_dpt_encode_dpt14 capacity value_bits
  | .dpt15 accessCode error permission direction encrypted index, capacity =>
    kdrive_dpt_encode_dpt15 capacity
      { accessCode := accessCode, error := error, permission := permission,
        direction := direction, encrypted := encrypted, index := index }
  | .dpt16 str, capacity => kdrive_dpt_encode_dpt16 capacity str

/-- The decode half of the library with every function as the specification
describes it. -/
def kdrive_dpt_decode : DecodeLib where
  dpt1 := kdrive_dpt_decode_dpt1
  dpt2 := kdrive_dpt_decode_dpt2
  dpt3 := kdrive_dpt_decode_dpt3
  dpt4 := kdrive_dpt_decode_dpt4
  dpt5 := kdrive_dpt_decode_dpt5
  dpt6 := kdrive_dpt_decode_dpt6
  dpt7 := kdrive_dpt_decode_dpt7
  dpt8 := kdrive_dpt_decode_dpt8
  dpt9 := kdrive_dpt_decode_dpt9
  dpt10 := kdrive_dpt_decode_dpt10
  dpt11 := kdrive_dpt_decode_dpt11
  dpt12 := kdrive_dpt_decode_dpt12
  dpt13 := kdrive_dpt_decode_dpt13
  dpt14 := kdrive_dpt_decode_dpt14
  dpt15 := kdrive_dpt_decode_dpt15
  dpt16 := kdrive_dpt_decode_dpt16

/-! ## Datapoint values by kind -/

/-- A datapoint value tagged with its kind, as a decode call yields it. -/
inductive DptValue
  | dpt1 (value : Bool)
  | dpt2 (control value : Bool)
  | dpt3 (control : Bool) (value : Nat)
  | dpt4 (character : Nat)
  | dpt5 (value : Nat)
  | dpt6 (value : Int)
  | dpt7 (value : Nat)
  | dpt8 (value : Int)
  | dpt9 (value : ℚ)
  | dpt10 (day hour minute second : Int)
  | dpt11 (year month day : Int)
  | dpt12 (value : Nat)
  | dpt13 (value : Int)
  | dpt14 (value_bits : Nat)
  | dpt15 (access : EntranceAccess)
  | dpt16 (characters : List Nat)
  deriving DecidableEq, Repr

/-- Modelled from the spec: the payload size in bytes of datapoint type `N`,
from the specification's table of the codec; 0 when `N` is not one of 1 to 16. -/
def payload_size : Nat → Nat
  | 1 => 1
  | 2 => 1
  | 3 => 1
  | 4 => 1
  | 5 => 1
  | 6 => 1
  | 7 => 2
  | 8 => 2
  | 9 => 2
  | 10 => 3
  | 11 => 3
  | 12 => 4
  | 13 => 4
  | 14 => 4
  | 15 => 4
  | 16 => 14
  | _ => 0

/-- The call `kdrive_dpt_decode_dptN (data, data_len, ...)` for a given `N`,
with its result tagged; `none` when `N` is not one of 1 to 16. -/
def DecodeLib.decode (dpt : DecodeLib) (kind : Nat) (data : List Nat) :
    Option (Except error_t DptValue) :=
  match kind with
  | 1 => some ((dpt.dpt1 data).map .dpt1)
  | 2 => some ((dpt.dpt2 data).map fun r => .dpt2 r.1 r.2)
  | 3 => some ((dpt.dpt3 data).map fun r => .dpt3 r.1 r.2)
  | 4 => some ((dpt.dpt4 data).map .dpt4)
  | 5 => some ((dpt.dpt5 data).map .dpt5)
  | 6 => some ((dpt.dpt6 data).map .dpt6)
  | 7 => some ((dpt.dpt7 data).map .dpt7)
  | 8 => some ((dpt.dpt8 data).map .dpt8)
  | 9 => some ((dpt.dpt9 data).map .dpt9)
  | 10 => some ((dpt.dpt10 data).map fun r => .dpt10 r.1 r.2.1 r.2.2.1 r.2.2.2)
  | 11 => some ((dpt.dpt11 data).map fun r => .dpt11 r.1 r.2.1 r.2.2)
  | 12 => some ((dpt.dpt12 data).map .dpt12)
  | 13 => some ((dpt.dpt13 data).map .dpt13)
  | 14 => some ((dpt.dpt14 data).map .dpt14)
  | 15 => some ((dpt.dpt15 data).map .dpt15)
  | 16 => some ((dpt.dpt16 data).map .dpt16)
  | _ => none

/-- Whether the time-of-day fields of a clock reading are in the ranges of
DPT 10: weekday 0 to 7, hour 0 to 23, minute and second 0 to 59. -/
def BrokenDownTime.time_in_range (t : BrokenDownTime) : Prop :=
  0 ≤ t.weekday ∧ t.weekday ≤ 7 ∧ 0 ≤ t.hour ∧ t.hour ≤ 23 ∧
  0 ≤ t.minute ∧ t.minute ≤ 59 ∧ 0 ≤ t.second ∧ t.second ≤ 59

/-- Whether the date fields of a clock reading are in the ranges of DPT 11:
year 1990 to 2089, month 1 to 12, day 1 to 31. -/
def BrokenDownTime.date_in_range (t : BrokenDownTime) : Prop :=
  1990 ≤ t.year ∧ t.year ≤ 2089 ∧ 1 ≤ t.month ∧ t.month ≤ 12 ∧ 1 ≤ t.day ∧ t.day ≤ 31

/-- Whether two clock readings show the same weekday and time of day. -/
def BrokenDownTime.same_time (t u : BrokenDownTime) : Prop :=
  t.weekday = u.weekday ∧ t.hour = u.hour ∧ t.minute = u.minute ∧ t.second = u.second

instance (t : BrokenDownTime) : Decidable t.time_in_range := by
  unfold BrokenDownTime.time_in_range
  infer_instance

instance (t : BrokenDownTime) : Decidable t.date_in_range := by
  unfold BrokenDownTime.date_in_range
  infer_instance

instance (t u : BrokenDownTime) : Decidable (t.same_time u) := by
  unfold BrokenDownTime.same_time
  infer_instance

/-- The value an encode call sends, tagged with its kind.  For the local and UTC
variants it is the reading of the clock; for DPT 16 it is the 14-character
field that holds the string, padded with NUL. -/
def EncodeCall.value (clock : Clock) : EncodeCall → DptValue
  | .dpt1 value => .dpt1 value
  | .dpt2 control value => .dpt2 control value
  | .dpt3 control value => .dpt3 control value
  | .dpt4 character => .dpt4 character
  | .dpt5 value => .dpt5 value
  | .dpt6 value => .dpt6 value
  | .dpt7 value => .dpt7 value
  | .dpt8 value => .dpt8 value
  | .dpt9 value => .dpt9 value
  | .dpt10_local =>
    .dpt10 clock.localtime.weekday clock.localtime.hour clock.localtime.minute
      clock.localtime.second
  | .dpt10_utc => .dpt10 clock.utc.weekday clock.utc.hour clock.utc.minute clock.utc.second
  | .dpt10 day hour minute second => .dpt10 day hour minute second
  | .dpt11_local => .dpt11 clock.localtime.year clock.localtime.month clock.localtime.day
  | .dpt11_utc => .dpt11 clock.utc.year clock.utc.month clock.utc.day
  | .dpt11 year month day => .dpt11 year month day
  | .dpt12 value => .dpt12 value
  | .dpt13 value => .dpt13 value
  | .dpt14 value_bits => .dpt14 value_bits
  | .dpt15 accessCode error permission direction encrypted index =>
    .dpt15 { accessCode := accessCode, error := error, permission := permission,
             direction := direction, encrypted := encrypted, index := index }
  | .dpt16 str => .dpt16 (str ++ List.replicate (KDRIVE_DPT16_LENGTH - str.length) 0)

/-- Whether the value of an encode call lies in the valid range of its kind.
For DPT 9 the value must moreover be one the KNX floating form represents
exactly: 0.01 × m × 2^e with a mantissa m of -2048 to 2047 and an exponent e
of 0 to 15.  A DPT 16 string has at most 14 characters, none of them NUL. -/
def EncodeCall.in_range (clock : Clock) : EncodeCall → Prop
  | .dpt1 _ => True
  | .dpt2 _ _ => True
  | .dpt3 _ value => value ≤ 7
  | .dpt4 character => character ≤ 255
  | .dpt5 value => value ≤ 255
  | .dpt6 value => -128 ≤ value ∧ value ≤ 127
  | .dpt7 value => value ≤ 65535
  | .dpt8 value => -32768 ≤ value ∧ value ≤ 32767
  | .dpt9 value =>
    ∃ (m : Int) (e : Nat), -2048 ≤ m ∧ m ≤ 2047 ∧ e ≤ 15 ∧ value = (m : ℚ) * 2 ^ e / 100
  | .dpt10_local => clock.localtime.time_in_range
  | .dpt10_utc => clock.utc.time_in_range
  | .dpt10 day hour minute second =>
    0 ≤ day ∧ day ≤ 7 ∧ 0 ≤ hour ∧ hour ≤ 23 ∧ 0 ≤ minute ∧ minute ≤ 59 ∧
    0 ≤ second ∧ second ≤ 59
  | .dpt11_local => clock.localtime.date_in_range
  | .dpt11_utc => clock.utc.date_in_range
  | .dpt11 year month day =>
    1990 ≤ year ∧ year ≤ 2089 ∧ 1 ≤ month ∧ month ≤ 12 ∧ 1 ≤ day ∧ day ≤ 31
  | .dpt12 value => value ≤ 4294967295
  | .dpt13 value => -2147483648 ≤ value ∧ value ≤ 2147483647
  | .dpt14 value_bits => value_bits ≤ 4294967295
  | .dpt15 accessCode _ _ _ _ index =>
    0 ≤ accessCode ∧ accessCode ≤ 16777215 ∧ 0 ≤ index ∧ index ≤ 15
  | .dpt16 str => str.length ≤ KDRIVE_DPT16_LENGTH ∧ ∀ c ∈ str, 0 < c ∧ c ≤ 255

/-- Example bytes of a received telegram: a cEMI `L_Data.ind` frame from the
individual address 1.1.1 that carries a group write of `data` to `address`.
The sample never looks into the bytes of a telegram; it hands them to the
telegram functions of the library. -/
def group_write_frame (address : Nat) (data : List Nat) : List Nat :=
  [0x29, 0x00, 0xBC, 0xE0, 0x11, 0x01, address / 256 % 256, address % 256,
    data.length + 1, 0x00, 0x80] ++ data

/-- The telegram functions of the library as they answer on a group-write
telegram whose destination is `address` and whose group data is `data`. -/
def received_group_write (address : Nat) (data : List Nat) : TelegramLib where
  kdrive_ap_is_group_write := fun _ => true
  kdrive_ap_get_dest := fun _ => .ok address
  kdrive_ap_get_group_data := fun _ capacity =>
    if data.length ≤ capacity then .ok data else .error .InvalidBufferLength

/-- The clock of a machine without a battery-backed clock right after boot:
Thursday, 1 January 1970, 00:00:00, local time and UTC alike. -/
def clock_1970 : Clock where
  localtime := { weekday := 4, hour := 0, minute := 0, second := 0,
                 year := 1970, month := 1, day := 1 }
  utc := { weekday := 4, hour := 0, minute := 0, second := 0,
           year := 1970, month := 1, day := 1 }

/-- The characters of the string `send_telegrams` sends as DPT 16. -/
def sample_string : List Nat := c_literal "Weinzierl Eng "

/-- The clock on Monday, 12 March 2012, at 11:11 and `second` seconds, local
time and UTC alike. -/
def clock_2012 (second : Int) : Clock where
  localtime := { weekday := 1, hour := 11, minute := 11, second := second,
                 year := 2012, month := 3, day := 12 }
  utc := { weekday := 1, hour := 11, minute := 11, second := second,
           year := 2012, month := 3, day := 12 }

/-! ## Reading a trace -/

/-- The capacity an encode call was given in `*length`; `none` for any other
event. -/
def Event.encode_capacity : Event → Option Nat
  | .encode _ capacity _ => some capacity
  | _ => none

/-- The address a group write goes to; `none` for any other event. -/
def Event.write_address : Event → Option Nat
  | .group_write _ address _ _ => some address
  | _ => none

/-! ## The access-port samples: `kdrive_express_ip.c` and `kdrive_express_usb.c` -/

/-- Modelled from the spec: `KDRIVE_CEMI_L_DATA_REQ` is declared in
`kdrive_express.h`, which is not part of the sources; the specification's
telegram model distinguishes request, confirmation and indication by a 1-byte
message code, and 0x11 is the code of `L_Data.req` in the cEMI frame format. -/
def KDRIVE_CEMI_L_DATA_REQ : Nat := 0x11

/-- Modelled from the spec: `KDRIVE_CEMI_L_DATA_CON` is declared in
`kdrive_express.h`, which is not part of the sources; 0x2E is the code of
`L_Data.con` in the cEMI frame format. -/
def KDRIVE_CEMI_L_DATA_CON : Nat := 0x2E

/-- Modelled from the spec: `KDRIVE_CEMI_L_DATA_IND` is declared in
`kdrive_express.h`, which is not part of the sources; 0x29 is the code of
`L_Data.ind` in the cEMI frame format. -/
def KDRIVE_CEMI_L_DATA_IND : Nat := 0x29

/-- Modelled from the spec: `KDRIVE_SN_LEN` is declared in `kdrive_express.h`,
which is not part of the sources; the specification gives the KNX
serial-number length as 6 bytes. -/
def KDRIVE_SN_LEN : Nat := 6

/-- Modelled from the spec: `KDRIVE_DA_LEN` is declared in `kdrive_express.h`,
which is not part of the sources; the specification gives the KNX
domain-address length as 6 bytes. -/
def KDRIVE_DA_LEN : Nat := 6

def TELEGRAM_TIMEOUT : Nat := 1000
def MAX_BUFFER_SIZE : Nat := 64
def ERROR_MESSAGE_LEN : Nat := 128

/-- The telegram functions of the library that the IP and USB samples call on a
telegram, on top of those of `TelegramLib`, and the group-object read of the
IP sample.  `kdrive_ap_read_group_object ap address capacity timeout` yields
the telegram it leaves in the buffer, whose length it returns: the empty list
when it returns 0. -/
structure AccessPortLib extends TelegramLib where
  kdrive_ap_get_message_code : List Nat → Except error_t Nat
  kdrive_ap_is_group_response : List Nat → Bool
  kdrive_ap_get_serial_number : List Nat → Except error_t (List Nat)
  kdrive_ap_read_group_object : Int → Nat → Nat → Nat → List Nat

/-- An entry of the array `usb_dev_t iface_items[]`: the fields of `usb_dev_t`
the USB sample reads. -/
structure UsbDev where
  ind_addr : Nat
  media_tytes : Nat
  internal_usb_index : Nat
  usb_vendor_id : Nat
  usb_product_id : Nat
  deriving DecidableEq, Repr

/-- An entry of the array `ip_tunn_dev_t items[]`: the fields of `ip_tunn_dev_t`
the enumeration sample reads; the three `char` arrays are given by their
content. -/
structure IpTunnDev where
  dev_name : List Nat
  ip_address : List Nat
  iface_address : List Nat
  ind_addr : Nat
  prog_mode_enabled : Bool
  deriving DecidableEq, Repr

/-- An entry of the array `domain_addr_prog_mode_read_t items[]`: the fields
the services sample reads. -/
structure DomainAddrItem where
  ind_addr : Nat
  serial_number : List Nat
  domain_address : List Nat
  deriving DecidableEq, Repr

/-- A call of the library (or of the C library) that acts on the outside or
whose answer depends on it, with the arguments the sample passes.  An array
passed with a length variable is given by the capacity that variable holds on
entry; out-parameters are left out. -/
inductive LibCall
  | kdrive_logger_set_level (level : LoggerLevel)
  | kdrive_logger_console
  | kdrive_register_error_callback
  | kdrive_set_event_callback (ap : Int)
  | kdrive_ap_create
  | kdrive_ap_release (ap : Int)
  | kdrive_ap_close (ap : Int)
  | kdrive_ap_enum_usb (ap : Int)
  | kdrive_ap_enum_usb_ex (capacity : Nat)
  | kdrive_ap_open_usb (ap : Int) (index : Nat)
  | kdrive_ap_packet_trace_connect (ap : Int)
  | kdrive_ap_register_telegram_callback (ap : Int)
  | kdrive_ap_set_rf_domain_addr (ap : Int) (da : List Nat)
  | kdrive_ap_group_write (ap : Int) (address : Nat) (data : List Nat) (length : Nat)
  | kdrive_ap_enable_queue (ap : Int) (enable : Bool)
  | kdrive_ap_receive (ap : Int) (capacity timeout : Nat)
  | kdrive_ap_read_group_object (ap : Int) (address capacity timeout : Nat)
  | kdrive_ap_get_serial_number (telegram : List Nat)
  | kdrive_ap_enum_ip_tunn (ap : Int) (capacity : Nat)
  | kdrive_ap_get_additional_ind_addr (ap : Int) (capacity : Nat)
  | kdrive_sp_create (ap : Int)
  | kdrive_sp_release (sp : Int)
  | kdrive_sp_set_co (sp : Int) (connection_oriented : Bool)
  | kdrive_sp_prop_value_read (sp : Int)
      (address object_index prop_id elems start_index capacity : Nat)
  | kdrive_sp_prop_value_write (sp : Int)
      (address object_index prop_id elems start_index : Nat) (data : List Nat) (length : Nat)
  | kdrive_sp_switch_prog_mode (sp : Int) (address : Nat) (enable : Bool)
  | kdrive_sp_read_prog_mode (sp : Int) (address : Nat)
  | kdrive_sp_memory_read (sp : Int) (address memory_address count capacity : Nat)
  | kdrive_sp_memory_write (sp : Int) (address memory_address : Nat) (data : List Nat)
      (length : Nat)
  | kdrive_sp_ind_addr_prog_mode_read (sp : Int) (timeout capacity : Nat)
  | kdrive_sp_ind_addr_prog_mode_write (sp : Int) (new_address : Nat)
  | kdrive_sp_ind_addr_sn_read (sp : Int) (sn : List Nat)
  | kdrive_sp_ind_addr_sn_write (sp : Int) (sn : List Nat) (new_address : Nat)
  | kdrive_sp_domain_addr_prog_mode_read (sp : Int) (timeout capacity : Nat)
  | kdrive_sp_domain_addr_prog_mode_write (sp : Int) (da : List Nat)
  | kdrive_sp_domain_addr_sn_read (sp : Int) (sn : List Nat)
  | kdrive_sp_domain_addr_sn_write (sp : Int) (sn : List Nat) (da : List Nat)
  | getchar
  deriving DecidableEq, Repr

/-- What the IP, USB, enumeration and services samples do to the outside, in
the order it happens: the library calls of `LibCall`, log output, and the reads
of entries of a local array.  The functions that only classify a telegram or
extract a field from it leave no entry. -/
inductive Effect
  /-- A call of the library. -/
  | call (c : LibCall)
  /-- The call `kdrive_logger(level, text)`. -/
  | logger (level : LoggerLevel) (text : String)
  /-- The call `kdrive_logger_ex(level, format, args...)`. -/
  | logger_ex (level : LoggerLevel) (format : String) (args : List LogArg)
  /-- The call `kdrive_logger_dump(level, text, data, data_len)`. -/
  | logger_dump (level : LoggerLevel) (text : String) (data : List Nat)
  /-- The call `printf(format, args...)`. -/
  | printf (format : String) (args : List LogArg)
  /-- A read of `array[index]`, where `array` is declared with `size` entries. -/
  | array_read (array : String) (size index : Nat)
  deriving DecidableEq, Repr

namespace Ip

/-- The function `on_telegram` of `kdrive_express_ip.c`.  The local
`message_code` starts at 0 and the value `kdrive_ap_get_message_code` returns
is not used. -/
def on_telegram (lib : AccessPortLib) (telegram : List Nat) : List Effect :=
  let message_code := out_param 0 (lib.kdrive_ap_get_message_code telegram)
  if message_code = KDRIVE_CEMI_L_DATA_IND ∧ lib.kdrive_ap_is_group_write telegram = true then
    match lib.kdrive_ap_get_dest telegram with
    | .error _ => []
    | .ok address =>
      match lib.kdrive_ap_get_group_data telegram KDRIVE_MAX_GROUP_VALUE_LEN with
      | .error _ => []
      | .ok data =>
        [.logger_ex .KDRIVE_LOGGER_INFORMATION "A_GroupValue_Write: 0x%04x " [.x address],
         .logger_dump .KDRIVE_LOGGER_INFORMATION "A_GroupValue_Write Data :" data]
  else []

/-- The function `read_group_object` of `kdrive_express_ip.c`.  The parameter
`address` is also the variable `kdrive_ap_get_dest` writes to, so the timeout
message shows the destination of the telegram when the destination was
extracted and the group data was not. -/
def read_group_object (lib : AccessPortLib) (ap : Int) (address : Nat) : List Effect :=
  let telegram := lib.kdrive_ap_read_group_object ap address MAX_BUFFER_SIZE 1000
  .call (.kdrive_ap_read_group_object ap address MAX_BUFFER_SIZE 1000) ::
  if 0 < telegram.length ∧ lib.kdrive_ap_is_group_response telegram = true then
    match lib.kdrive_ap_get_dest telegram with
    | .error _ => [.printf "A_GroupValue_Response: 0x%04x - timeout" [.x address]]
    | .ok address =>
      match lib.kdrive_ap_get_group_data telegram KDRIVE_MAX_GROUP_VALUE_LEN with
      | .error _ => [.printf "A_GroupValue_Response: 0x%04x - timeout" [.x address]]
      | .ok data =>
        [.logger_ex .KDRIVE_LOGGER_INFORMATION "A_GroupValue_Response: 0x%04x " [.x address],
         .logger_dump .KDRIVE_LOGGER_INFORMATION "A_GroupValue_Response Data :" data]
  else [.printf "A_GroupValue_Response: 0x%04x - timeout" [.x address]]

/-- The `while` loop of `send_group_value_write` from the `k`-th call of
`kdrive_ap_receive` on; `recv k` is the telegram the `k`-th call yields, empty
when it returns 0.  The loop is run for at most `fuel` calls: `none` when it
has not left the loop by then. -/
def receive_loop (ap : Int) (recv : Nat → List Nat) : Nat → Nat → Option (List Effect)
  | 0, _ => none
  | fuel + 1, k =>
    if (recv k).length ≠ 0 then
      (receive_loop ap recv fuel (k + 1)).map fun later =>
        .call (.kdrive_ap_receive ap MAX_BUFFER_SIZE TELEGRAM_TIMEOUT) ::
        .logger_dump .KDRIVE_LOGGER_INFORMATION "Received telegram from queue :" (recv k) ::
        later
    else some [.call (.kdrive_ap_receive ap MAX_BUFFER_SIZE TELEGRAM_TIMEOUT)]

/-- The function `send_group_value_write` of `kdrive_express_ip.c`; `none` when
the loop has not ended after `fuel` calls of `kdrive_ap_receive`. -/
def send_group_value_write (recv : Nat → List Nat) (fuel : Nat) (ap : Int) (address : Nat)
    (value : Nat) : Option (List Effect) :=
  (receive_loop ap recv fuel 0).map fun received =>
    [.call (.kdrive_ap_group_write ap address [value] 1),
     .call (.kdrive_ap_enable_queue ap true)] ++ received ++
      [.call (.kdrive_ap_enable_queue ap false)]

end Ip

namespace Usb

/-- The file-level variable `is_rf` of `kdrive_express_usb.c` as shipped: 0. -/
def is_rf : Bool := false

/-- The function `on_telegram_callback` of `kdrive_express_usb.c`.  `is_rf` is
the value of the file-level variable of that name and `sn` the content of the
static array `sn[KDRIVE_SN_LEN]` before the call. -/
def on_telegram_callback (is_rf : Bool) (lib : AccessPortLib) (sn : List Nat)
    (telegram : List Nat) : List Effect :=
  let message_code := out_param 0 (lib.kdrive_ap_get_message_code telegram)
  if message_code = KDRIVE_CEMI_L_DATA_IND then
    (if lib.kdrive_ap_is_group_write telegram = true then
      match lib.kdrive_ap_get_dest telegram with
      | .error _ => []
      | .ok address =>
        match lib.kdrive_ap_get_group_data telegram KDRIVE_MAX_GROUP_VALUE_LEN with
        | .error _ => []
        | .ok data =>
          [.logger_ex .KDRIVE_LOGGER_INFORMATION "A_GroupValue_Write: 0x%04x " [.x address],
           .logger_dump .KDRIVE_LOGGER_INFORMATION "A_GroupValue_Write Data :" data]
    else []) ++
    (if is_rf = true then
      .call (.kdrive_ap_get_serial_number telegram) ::
        match lib.kdrive_ap_get_serial_number telegram with
        | .error _ => []
        | .ok written =>
          [.logger_dump .KDRIVE_LOGGER_INFORMATION "Serial Number :"
            ((store sn written).take KDRIVE_SN_LEN)]
    else [])
  else []

end Usb

/-- The function `error_callback`, the same in every sample.
`kdrive_get_error_message e capacity` is what the library writes into
`error_message` for the error `e`, and `error_message` the content of the
static array before the call. -/
def error_callback (kdrive_get_error_message : error_t → Nat → List Nat)
    (error_message : List Nat) (e : error_t) : List Effect :=
  if e ≠ .KDRIVE_TIMEOUT_ERROR then
    let error_message := store error_message (kdrive_get_error_message e ERROR_MESSAGE_LEN)
    [.logger_ex .KDRIVE_LOGGER_ERROR "kdrive error: %s" [.s (c_string error_message)]]
  else []

/-- Whether an event of the datapoint sample is log output. -/
def Event.is_log : Event → Bool
  | .logger_ex _ _ _ => true
  | .logger_dump _ _ _ => true
  | _ => false

/-- An example of what `kdrive_get_error_message` writes: the text
"Timeout" for `KDRIVE_TIMEOUT_ERROR` and "Error" for any other code, each
with its terminating NUL. -/
def example_error_message (e : error_t) (_capacity : Nat) : List Nat :=
  if e = .KDRIVE_TIMEOUT_ERROR then c_literal "Timeout" ++ [0] else c_literal "Error" ++ [0]

/-- An example sequence of `kdrive_ap_receive` results: two telegrams arrive,
then the timeout elapses on every later call. -/
def example_receive (k : Nat) : List Nat :=
  if k < 2 then group_write_frame ADDR_DPT_1 [k] else []

/-! ## The library as a state machine -/

/-- What a call gives back that fills an array of the caller and stores the
number of entries in a length variable: the `error_t` it returns, the entries
it has written from the start of the array, and the value the length variable
holds after the call.  Nothing is assumed about the three: a failed call may
leave the length as it was or not. -/
structure Filled (α : Type) where
  code : error_t
  written : List α
  count : Nat
  deriving DecidableEq, Repr

/-- What a library call gives back: the value it returns, together with what it
writes through its out-parameters when it succeeds.  A call that reads bytes
into a buffer yields the bytes, whose number it stores in the length variable;
the five calls that enumerate into an array yield a `Filled`. -/
@[reducible] def LibCall.Result : LibCall → Type
  | .kdrive_logger_set_level _ => Unit
  | .kdrive_logger_console => Unit
  | .kdrive_register_error_callback => Unit
  | .kdrive_set_event_callback _ => Unit
  | .kdrive_ap_create => Int
  | .kdrive_ap_release _ => Unit
  | .kdrive_ap_close _ => Unit
  | .kdrive_ap_enum_usb _ => Nat
  | .kdrive_ap_enum_usb_ex _ => Filled UsbDev
  | .kdrive_ap_open_usb _ _ => error_t
  | .kdrive_ap_packet_trace_connect _ => Unit
  | .kdrive_ap_register_telegram_callback _ => Unit
  | .kdrive_ap_set_rf_domain_addr _ _ => error_t
  | .kdrive_ap_group_write _ _ _ _ => error_t
  | .kdrive_ap_enable_queue _ _ => Unit
  | .kdrive_ap_receive _ _ _ => List Nat
  | .kdrive_ap_read_group_object _ _ _ _ => List Nat
  | .kdrive_ap_get_serial_number _ => Except error_t (List Nat)
  | .kdrive_ap_enum_ip_tunn _ _ => Filled IpTunnDev
  | .kdrive_ap_get_additional_ind_addr _ _ => Filled Nat
  | .kdrive_sp_create _ => Int
  | .kdrive_sp_release _ => Unit
  | .kdrive_sp_set_co _ _ => Unit
  | .kdrive_sp_prop_value_read _ _ _ _ _ _ _ => Except error_t (List Nat)
  | .kdrive_sp_prop_value_write _ _ _ _ _ _ _ _ => error_t
  | .kdrive_sp_switch_prog_mode _ _ _ => error_t
  | .kdrive_sp_read_prog_mode _ _ => Except error_t Bool
  | .kdrive_sp_memory_read _ _ _ _ _ => Except error_t (List Nat)
  | .kdrive_sp_memory_write _ _ _ _ _ => error_t
  | .kdrive_sp_ind_addr_prog_mode_read _ _ _ => Filled Nat
  | .kdrive_sp_ind_addr_prog_mode_write _ _ => error_t
  | .kdrive_sp_ind_addr_sn_read _ _ => Except error_t Nat
  | .kdrive_sp_ind_addr_sn_write _ _ _ => error_t
  | .kdrive_sp_domain_addr_prog_mode_read _ _ _ => Filled DomainAddrItem
  | .kdrive_sp_domain_addr_prog_mode_write _ _ => error_t
  | .kdrive_sp_domain_addr_sn_read _ _ => Except error_t (Nat × List Nat)
  | .kdrive_sp_domain_addr_sn_write _ _ _ => error_t
  | .getchar => Unit

/-- The library, the interface and the devices on the bus, seen from the
sample: in a state of type `σ` a call gives its result and leaves a new state.
`KDRIVE_INVALID_DESCRIPTOR` is the constant of that name in
`kdrive_express.h`, which is not part of the sources. -/
structure World (σ : Type) where
  KDRIVE_INVALID_DESCRIPTOR : Int
  reply : σ → (c : LibCall) → c.Result × σ

/-- A piece of a sample run from a state of the world: the value it computes,
the effects it has had and the state it leaves. -/
structure Step (σ α : Type) where
  value : α
  trace : List Effect
  state : σ

/-- A piece of sample code run against a world with states `σ`. -/
def Run (σ α : Type) : Type := σ → Step σ α

instance {σ : Type} : Monad (Run σ) where
  pure a := fun s => { value := a, trace := [], state := s }
  bind x f := fun s =>
    { value := (f (x s).value (x s).state).value
      trace := (x s).trace ++ (f (x s).value (x s).state).trace
      state := (f (x s).value (x s).state).state }

/-- Effects that do not change the state of the world: log output and reads
of local arrays. -/
def emit {σ : Type} (effects : List Effect) : Run σ Unit :=
  fun s => { value := (), trace := effects, state := s }

/-- The call `kdrive_logger(level, text)`. -/
def logger {σ : Type} (level : LoggerLevel) (text : String) : Run σ Unit :=
  emit [.logger level text]

/-- A library call: it is recorded, and the world gives its result. -/
def call {σ : Type} (w : World σ) (c : LibCall) : Run σ c.Result :=
  fun s => { value := (w.reply s c).1, trace := [.call c], state := (w.reply s c).2 }

/-- The library call an effect is, when it is one. -/
def Effect.lib_call : Effect → Option LibCall
  | .call c => some c
  | _ => none

/-- The library calls a piece of sample code makes when run from the state `s`,
in order. -/
def calls {σ α : Type} (x : Run σ α) (s : σ) : List LibCall :=
  (x s).trace.filterMap Effect.lib_call

/-! ## Local arrays -/

/-- A local array declared with `size` entries; `uninit index` is the content
of entry `index` before anything is written to it. -/
def declare_array {α : Type} (size : Nat) (uninit : Nat → α) : List α :=
  (List.range size).map uninit

/-- The array after a library call has written the entries `written` from its
start: the array keeps its size, and entries written past its end are not
part of it. -/
def fill_array {α : Type} (array written : List α) : List α :=
  (written ++ array.drop written.length).take array.length

/-- The loop `for (index = 0; index < count; ++index)` whose body reads
`array[index]` and logs `body index array[index]`.  Every read is recorded with
the size of the array; what the body does with an entry outside the array is
not modelled. -/
def read_loop {α : Type} (name : String) (array : List α) (count : Nat)
    (body : Nat → α → List Effect) : List Effect :=
  (List.range count).flatMap fun index =>
    .array_read name array.length index ::
      match array[index]? with
      | some item => body index item
      | none => []

/-! ## `kdrive_express_ip_tunnel_enumerate.c` -/

namespace IpTunnelEnumerate

def MAX_ITEMS : Nat := 50

/-- The function `enumerate_tunneling_devices`; `uninit` is the content of the
local array `items[MAX_ITEMS]` before the library call. -/
def enumerate_tunneling_devices {σ : Type} (w : World σ) (uninit : Nat → IpTunnDev)
    (ap : Int) : Run σ Unit := do
  logger .KDRIVE_LOGGER_INFORMATION "Enumerating KNX IP Tunneling Interfaces"
  logger .KDRIVE_LOGGER_INFORMATION "========================================"
  logger .KDRIVE_LOGGER_INFORMATION ""
  let r ← call w (.kdrive_ap_enum_ip_tunn ap MAX_ITEMS)
  let items := fill_array (declare_array MAX_ITEMS uninit) r.written
  let items_length := r.count
  if r.code = .KDRIVE_ERROR_NONE then do
    emit [.logger_ex .KDRIVE_LOGGER_INFORMATION "Found %d device(s)" [.d items_length]]
    emit (read_loop "items" items items_length fun index item =>
      [.logger .KDRIVE_LOGGER_INFORMATION "",
       .logger_ex .KDRIVE_LOGGER_INFORMATION "%d) Name: %s"
         [.d (index + 1 : Nat), .s (c_string item.dev_name)],
       .logger_ex .KDRIVE_LOGGER_INFORMATION "%s on %s"
         [.s (c_string item.ip_address), .s (c_string item.iface_address)],
       .logger_ex .KDRIVE_LOGGER_INFORMATION "Individual Address: %04X" [.x item.ind_addr],
       .logger_ex .KDRIVE_LOGGER_INFORMATION "Programming Mode: %s"
         [.s (some (c_literal (if item.prog_mode_enabled then "on" else "off")))]])
    logger .KDRIVE_LOGGER_INFORMATION ""
  else pure ()

end IpTunnelEnumerate

/-! ## `kdrive_express_tunnel_ind_addr.c` -/

namespace TunnelIndAddr

/-- The function `read_additional_individual_addresses`; `uninit` is the
content of the local array `addresses[10]` before the library call. -/
def read_additional_individual_addresses {σ : Type} (w : World σ) (uninit : Nat → Nat)
    (ap : Int) : Run σ Unit := do
  logger .KDRIVE_LOGGER_INFORMATION "Read all additional individual addresses"
  logger .KDRIVE_LOGGER_INFORMATION "========================================"
  let r ← call w (.kdrive_ap_get_additional_ind_addr ap 10)
  let addresses := fill_array (declare_array 10 uninit) r.written
  let addresses_len := r.count
  if r.code = .KDRIVE_ERROR_NONE then
    emit (read_loop "addresses" addresses addresses_len fun _ entry =>
      [.logger_ex .KDRIVE_LOGGER_INFORMATION "- 0x%04X" [.x entry]])
  else pure ()
  logger .KDRIVE_LOGGER_INFORMATION ""

end TunnelIndAddr

/-! ## `main` of `kdrive_express_usb.c` -/

namespace Usb

def MAX_USB_INTERFACES : Nat := 10

/-- The function `main` of `kdrive_express_usb.c`; `uninit` is the content of
the local array `iface_items[MAX_USB_INTERFACES]` before the enumeration.  The
value `kdrive_ap_enum_usb_ex` returns is not used.  The result is `none` when
`main` does not return (the endless loop after a failed `kdrive_ap_create`). -/
def main {σ : Type} (w : World σ) (uninit : Nat → UsbDev) : Run σ (Option Int) := do
  let address : Nat := 0x901
  let value : Nat := 1
  call w (.kdrive_logger_set_level .KDRIVE_LOGGER_INFORMATION)
  call w .kdrive_logger_console
  call w .kdrive_register_error_callback
  let ap ← call w .kdrive_ap_create
  if ap = w.KDRIVE_INVALID_DESCRIPTOR then do
    logger .KDRIVE_LOGGER_FATAL "Unable to create access port. This is a terminal failure"
    pure none
  else do
    call w (.kdrive_set_event_callback ap)
    let r ← call w (.kdrive_ap_enum_usb_ex MAX_USB_INTERFACES)
    let iface_items := fill_array (declare_array MAX_USB_INTERFACES uninit) r.written
    let iface_items_length := r.count
    emit [.logger_ex .KDRIVE_LOGGER_INFORMATION "Found %d KNX USB Interfaces"
      [.d iface_items_length]]
    emit (read_loop "iface_items" iface_items iface_items_length fun index iface =>
      [.logger_ex .KDRIVE_LOGGER_INFORMATION "Interface %d)" [.d index],
       .logger_ex .KDRIVE_LOGGER_INFORMATION "- indiviual address 0x%04X" [.x iface.ind_addr],
       .logger_ex .KDRIVE_LOGGER_INFORMATION "- media tytes 0x%04X" [.x iface.media_tytes],
       .logger_ex .KDRIVE_LOGGER_INFORMATION "- internal usb index %d"
         [.d iface.internal_usb_index],
       .logger_ex .KDRIVE_LOGGER_INFORMATION "- usb vendor id %d" [.d iface.usb_vendor_id],
       .logger_ex .KDRIVE_LOGGER_INFORMATION "- usb product id %d" [.d iface.usb_product_id],
       .logger .KDRIVE_LOGGER_INFORMATION ""])
    let opened ←
      if 0 < iface_items_length then do
        let e ← call w (.kdrive_ap_open_usb ap 0)
        pure (decide (e = .KDRIVE_ERROR_NONE))
      else pure false
    if opened = true then do
      call w (.kdrive_ap_packet_trace_connect ap)
      let _ ← call w (.kdrive_ap_group_write ap address [value] 1)
      call w (.kdrive_ap_register_telegram_callback ap)
      logger .KDRIVE_LOGGER_INFORMATION "Entering BusMonitor Mode"
      logger .KDRIVE_LOGGER_INFORMATION "Press [Enter] to exit the application ..."
      call w .getchar
      call w (.kdrive_ap_close ap)
    else pure ()
    call w (.kdrive_ap_release ap)
    pure (some 0)

end Usb

/-! ## `kdrive_express_services.c` -/

namespace Services

def SERIAL_NUMBER_LENGTH : Nat := 6
def MAX_IND_ADDR : Nat := 5
def MAX_ITEMS : Nat := 5

/-- The file-level variable `is_rf` of `kdrive_express_services.c` as shipped:
0 (twisted pair). -/
def is_rf : Bool := false

/-- The file-level variable `connection_oriented` as shipped: 1. -/
def connection_oriented : Bool := true

/-- The file-level variable `address`: the device the services talk to. -/
def address : Nat := 0x5102

/-- The function `open_access_port`.  The second operand of `||` is evaluated
only when the enumeration has found an interface. -/
def open_access_port {σ : Type} (w : World σ) : Run σ Int := do
  let ap ← call w .kdrive_ap_create
  if ap ≠ w.KDRIVE_INVALID_DESCRIPTOR then do
    let found ← call w (.kdrive_ap_enum_usb ap)
    let failed ←
      if found = 0 then pure true
      else do
        let e ← call w (.kdrive_ap_open_usb ap 0)
        pure (decide (e ≠ .KDRIVE_ERROR_NONE))
    if failed = true then do
      call w (.kdrive_ap_release ap)
      pure w.KDRIVE_INVALID_DESCRIPTOR
    else pure ap
  else pure ap

/-- The function `set_rf_domain_address`. -/
def set_rf_domain_address {σ : Type} (w : World σ) (ap : Int) : Run σ Unit := do
  let da : List Nat := [0x00, 0x00, 0x00, 0x00, 0x00, 0x00]
  let _ ← call w (.kdrive_ap_set_rf_domain_addr ap da)
  pure ()

/-- The function `prop_value_read`. -/
def prop_value_read {σ : Type} (w : World σ) (sp : Int) : Run σ Unit := do
  logger .KDRIVE_LOGGER_INFORMATION "Property Value Read"
  logger .KDRIVE_LOGGER_INFORMATION "==================="
  let r ← call w (.kdrive_sp_prop_value_read sp address 0 11 1 1 SERIAL_NUMBER_LENGTH)
  match r with
  | .ok data => emit [.logger_dump .KDRIVE_LOGGER_INFORMATION "Read Serial Number: " data]
  | .error _ => pure ()

/-- The function `prop_value_write`. -/
def prop_value_write {σ : Type} (w : World σ) (sp : Int) : Run σ Unit := do
  let data : Nat := 0
  logger .KDRIVE_LOGGER_INFORMATION "Property Value Write"
  logger .KDRIVE_LOGGER_INFORMATION "===================="
  let _ ← call w (.kdrive_sp_prop_value_write sp address 0 54 1 1 [data] 1)
  pure ()

/-- The function `switch_prog_mode`. -/
def switch_prog_mode {σ : Type} (w : World σ) (sp : Int) (enable : Bool) : Run σ Unit := do
  logger .KDRIVE_LOGGER_INFORMATION "Switch Prog Mode"
  logger .KDRIVE_LOGGER_INFORMATION "================"
  let _ ← call w (.kdrive_sp_switch_prog_mode sp address enable)
  pure ()

/-- The function `read_prog_mode`. -/
def read_prog_mode {σ : Type} (w : World σ) (sp : Int) : Run σ Unit := do
  logger .KDRIVE_LOGGER_INFORMATION "Read Prog Mode"
  logger .KDRIVE_LOGGER_INFORMATION "================"
  let r ← call w (.kdrive_sp_read_prog_mode sp address)
  match r with
  | .ok enabled =>
    emit [.logger_ex .KDRIVE_LOGGER_INFORMATION "Programming Mode: %s"
      [.s (some (c_literal (if enabled then "on" else "off")))]]
  | .error _ => pure ()

/-- The function `memory_read`. -/
def memory_read {σ : Type} (w : World σ) (sp : Int) : Run σ Unit := do
  logger .KDRIVE_LOGGER_INFORMATION "Memory Read"
  logger .KDRIVE_LOGGER_INFORMATION "==================="
  let r ← call w (.kdrive_sp_memory_read sp address 0x0060 1 1)
  match r with
  | .ok data => emit [.logger_dump .KDRIVE_LOGGER_INFORMATION "Read Prog mode: " data]
  | .error _ => pure ()

/-- The function `memory_write`. -/
def memory_write {σ : Type} (w : World σ) (sp : Int) : Run σ Unit := do
  let data : Nat := 0
  logger .KDRIVE_LOGGER_INFORMATION "Memory Write"
  logger .KDRIVE_LOGGER_INFORMATION "===================="
  let _ ← call w (.kdrive_sp_memory_write sp address 0x0060 [data] 1)
  pure ()

/-- The function `ind_addr_prog_mode_read`; `uninit` is the content of the
local array `data[MAX_IND_ADDR]` before the library call. -/
def ind_addr_prog_mode_read {σ : Type} (w : World σ) (uninit : Nat → Nat) (sp : Int) :
    Run σ Unit := do
  logger .KDRIVE_LOGGER_INFORMATION "Individual Address Prog Mode Read"
  logger .KDRIVE_LOGGER_INFORMATION "================================="
  let r ← call w (.kdrive_sp_ind_addr_prog_mode_read sp 500 MAX_IND_ADDR)
  let data := fill_array (declare_array MAX_IND_ADDR uninit) r.written
  let data_length := r.count
  if r.code = .KDRIVE_ERROR_NONE then do
    emit [.logger_ex .KDRIVE_LOGGER_INFORMATION "Read %d Individual Address(es):"
      [.d data_length]]
    emit (read_loop "data" data data_length fun _ entry =>
      [.logger_ex .KDRIVE_LOGGER_INFORMATION "%04X" [.x entry]])
  else pure ()

/-- The function `ind_addr_prog_mode_write`. -/
def ind_addr_prog_mode_write {σ : Type} (w : World σ) (uninit : Nat → Nat) (sp : Int) :
    Run σ Unit := do
  logger .KDRIVE_LOGGER_INFORMATION "Individual Address Prog Mode Write"
  logger .KDRIVE_LOGGER_INFORMATION "=================================="
  let _ ← call w (.kdrive_sp_ind_addr_prog_mode_write sp 0x05F1)
  ind_addr_prog_mode_read w uninit sp
  let _ ← call w (.kdrive_sp_ind_addr_prog_mode_write sp address)
  ind_addr_prog_mode_read w uninit sp

/-- The function `ind_addr_sn_read`. -/
def ind_addr_sn_read {σ : Type} (w : World σ) (sp : Int) : Run σ Unit := do
  let sn : List Nat := [0x00, 0xC5, 0x00, 0x00, 0x00, 0xFA]
  logger .KDRIVE_LOGGER_INFORMATION "Individual Address Serial Number Read"
  logger .KDRIVE_LOGGER_INFORMATION "====================================="
  let r ← call w (.kdrive_sp_ind_addr_sn_read sp sn)
  match r with
  | .ok ind_addr =>
    emit [.logger_ex .KDRIVE_LOGGER_INFORMATION "Read Individual Address: %d" [.d ind_addr]]
  | .error _ => pure ()

/-- The function `ind_addr_sn_write`. -/
def ind_addr_sn_write {σ : Type} (w : World σ) (sp : Int) : Run σ Unit := do
  let sn : List Nat := [0x00, 0xC5, 0x00, 0x00, 0x00, 0xFA]
  logger .KDRIVE_LOGGER_INFORMATION "Individual Address Serial Number Write"
  logger .KDRIVE_LOGGER_INFORMATION "======================================"
  let _ ← call w (.kdrive_sp_ind_addr_sn_write sp sn 0x05F1)
  ind_addr_sn_read w sp
  let _ ← call w (.kdrive_sp_ind_addr_sn_write sp sn address)
  ind_addr_sn_read w sp

/-- The function `domain_addr_prog_mode_read`; `uninit` is the content of the
local array `items[MAX_ITEMS]` before the library call. -/
def domain_addr_prog_mode_read {σ : Type} (w : World σ) (uninit : Nat → DomainAddrItem)
    (sp : Int) : Run σ Unit := do
  logger .KDRIVE_LOGGER_INFORMATION "Domain Address Prog Mode Read"
  logger .KDRIVE_LOGGER_INFORMATION "============================="
  let r ← call w (.kdrive_sp_domain_addr_prog_mode_read sp 500 MAX_ITEMS)
  let items := fill_array (declare_array MAX_ITEMS uninit) r.written
  let items_length := r.count
  if r.code = .KDRIVE_ERROR_NONE then do
    emit [.logger_ex .KDRIVE_LOGGER_INFORMATION "Read %d item(s):" [.d items_length]]
    emit (read_loop "items" items items_length fun _ item =>
      [.logger_ex .KDRIVE_LOGGER_INFORMATION "Individual Address : %04X" [.x item.ind_addr],
       .logger_dump .KDRIVE_LOGGER_INFORMATION "Serial Number :"
         (item.serial_number.take KDRIVE_SN_LEN),
       .logger_dump .KDRIVE_LOGGER_INFORMATION "Domain Address :"
         (item.domain_address.take KDRIVE_DA_LEN)])
  else pure ()

/-- The function `domain_addr_prog_mode_write`. -/
def domain_addr_prog_mode_write {σ : Type} (w : World σ) (uninit : Nat → DomainAddrItem)
    (sp : Int) : Run σ Unit := do
  let da1 : List Nat := [0xAA, 0xAA, 0xAA, 0xAA, 0xAA, 0xAA]
  let da2 : List Nat := [0x00, 0x00, 0x00, 0x00, 0x00, 0x00]
  logger .KDRIVE_LOGGER_INFORMATION "Domain Address Prog Mode Write"
  logger .KDRIVE_LOGGER_INFORMATION "=============================="
  let _ ← call w (.kdrive_sp_domain_addr_prog_mode_write sp da1)
  domain_addr_prog_mode_read w uninit sp
  let _ ← call w (.kdrive_sp_domain_addr_prog_mode_write sp da2)
  domain_addr_prog_mode_read w uninit sp

/-- The function `domain_addr_sn_read`.  On success the library has written
the individual address and the domain address; `da` starts as six zero
bytes. -/
def domain_addr_sn_read {σ : Type} (w : World σ) (sp : Int) : Run σ Unit := do
  let sn : List Nat := [0x00, 0xC5, 0x00, 0x00, 0x00, 0xFA]
  let da : List Nat := List.replicate KDRIVE_DA_LEN 0
  logger .KDRIVE_LOGGER_INFORMATION "Domain Address Serial Number Read"
  logger .KDRIVE_LOGGER_INFORMATION "================================="
  let r ← call w (.kdrive_sp_domain_addr_sn_read sp sn)
  match r with
  | .ok (ind_addr, written) =>
    emit [.logger_ex .KDRIVE_LOGGER_INFORMATION "Individual Address : %04X" [.x ind_addr],
      .logger_dump .KDRIVE_LOGGER_INFORMATION "Domain Address :"
        ((store da written).take KDRIVE_DA_LEN)]
  | .error _ => pure ()

/-- The function `domain_addr_sn_write`. -/
def domain_addr_sn_write {σ : Type} (w : World σ) (sp : Int) : Run σ Unit := do
  let sn : List Nat := [0x00, 0xC5, 0x00, 0x00, 0x00, 0xFA]
  let da1 : List Nat := [0xAA, 0xAA, 0xAA, 0xAA, 0xAA, 0xAA]
  let da2 : List Nat := [0x00, 0x00, 0x00, 0x00, 0x00, 0x00]
  logger .KDRIVE_LOGGER_INFORMATION "Domain Address Serial Number Write"
  logger .KDRIVE_LOGGER_INFORMATION "=================================="
  let _ ← call w (.kdrive_sp_domain_addr_sn_write sp sn da1)
  domain_addr_sn_read w sp
  let _ ← call w (.kdrive_sp_domain_addr_sn_write sp sn da2)
  domain_addr_sn_read w sp

/-- The part of `main` that follows the check of the service port: the
services in the order `main` runs them, and the release of both ports. -/
def run_services {σ : Type} (is_rf : Bool) (w : World σ) (uninit_data : Nat → Nat)
    (uninit_items : Nat → DomainAddrItem) (ap sp : Int) : Run σ Unit := do
  call w (.kdrive_sp_set_co sp connection_oriented)
  prop_value_read w sp
  prop_value_write w sp
  if is_rf = true then do
    domain_addr_sn_read w sp
    domain_addr_sn_write w sp
  else pure ()
  ind_addr_sn_read w sp
  ind_addr_sn_write w sp
  switch_prog_mode w sp true
  read_prog_mode w sp
  if is_rf = true then do
    domain_addr_prog_mode_read w uninit_items sp
    domain_addr_prog_mode_write w uninit_items sp
  else pure ()
  ind_addr_prog_mode_read w uninit_data sp
  ind_addr_prog_mode_write w uninit_data sp
  switch_prog_mode w sp false
  read_prog_mode w sp
  memory_read w sp
  memory_write w sp
  call w (.kdrive_sp_release sp)
  call w (.kdrive_ap_close ap)
  call w (.kdrive_ap_release ap)

/-- The function `main` of `kdrive_express_services.c`, for the value `is_rf`
of the file-level variable of that name.  `uninit_data` and `uninit_items` are
the contents of the local arrays of the two enumerating functions before the
library writes to them.  The result is `some 0` when `main` returns 0 and
`none` when it stays in one of its two endless loops. -/
def main {σ : Type} (is_rf : Bool) (w : World σ) (uninit_data : Nat → Nat)
    (uninit_items : Nat → DomainAddrItem) : Run σ (Option Int) := do
  call w (.kdrive_logger_set_level .KDRIVE_LOGGER_INFORMATION)
  call w .kdrive_logger_console
  call w .kdrive_register_error_callback
  let ap ← open_access_port w
  if ap = w.KDRIVE_INVALID_DESCRIPTOR then do
    logger .KDRIVE_LOGGER_FATAL "Unable to create access port. This is a terminal failure"
    pure none
  else do
    if is_rf = true then set_rf_domain_address w ap else pure ()
    let sp ← call w (.kdrive_sp_create ap)
    if sp = w.KDRIVE_INVALID_DESCRIPTOR then do
      logger .KDRIVE_LOGGER_FATAL "Unable to create service port. This is a terminal failure"
      pure none
    else do
      run_services is_rf w uninit_data uninit_items ap sp
      pure (some 0)

end Services

/-! ## Properties of traces -/

/-- The capacity a call declares for the array it lets the library fill; `none`
for a call that is not one of the five enumerations. -/
def LibCall.capacity : LibCall → Option Nat
  | .kdrive_ap_enum_usb_ex capacity => some capacity
  | .kdrive_ap_enum_ip_tunn _ capacity => some capacity
  | .kdrive_ap_get_additional_ind_addr _ capacity => some capacity
  | .kdrive_sp_ind_addr_prog_mode_read _ _ capacity => some capacity
  | .kdrive_sp_domain_addr_prog_mode_read _ _ capacity => some capacity
  | _ => none

/-- The number of entries an enumeration reports through its length
variable. -/
def LibCall.count : (c : LibCall) → c.Result → Option Nat
  | .kdrive_ap_enum_usb_ex _, r => some r.count
  | .kdrive_ap_enum_ip_tunn _ _, r => some r.count
  | .kdrive_ap_get_additional_ind_addr _ _, r => some r.count
  | .kdrive_sp_ind_addr_prog_mode_read _ _ _, r => some r.count
  | .kdrive_sp_domain_addr_prog_mode_read _ _ _, r => some r.count
  | _, _ => none

/-- The library never reports more entries than the capacity it was given. -/
def World.count_within_capacity {σ : Type} (w : World σ) : Prop :=
  ∀ (s : σ) (c : LibCall) (capacity count : Nat),
    c.capacity = some capacity → c.count (w.reply s c).1 = some count → count ≤ capacity

/-- In `trace`, every enumeration is called with the capacity `size`, and every
array read is a read of the array `name`, declared with `size` entries, at an
index inside it. -/
def array_respected (name : String) (size : Nat) (trace : List Effect) : Prop :=
  (∀ c, Effect.call c ∈ trace → ∀ capacity, c.capacity = some capacity → capacity = size) ∧
  ∀ array declared index, Effect.array_read array declared index ∈ trace →
    array = name ∧ declared = size ∧ index < size

/-- The service port a call addresses when it is one of the operations on
"devices which are in programming mode"; `none` for any other call. -/
def LibCall.prog_mode_operation : LibCall → Option Int
  | .kdrive_sp_ind_addr_prog_mode_read sp _ _ => some sp
  | .kdrive_sp_ind_addr_prog_mode_write sp _ => some sp
  | .kdrive_sp_domain_addr_prog_mode_read sp _ _ => some sp
  | .kdrive_sp_domain_addr_prog_mode_write sp _ => some sp
  | _ => none

/-- Reading a sequence of calls from the left, where `switched_on` is the
service port on which the last `kdrive_sp_switch_prog_mode` call so far has
turned programming mode on (`none` when that call turned it off, or there was
none yet): every operation on devices in programming mode is issued on that
service port while the mode is on, and at the end of the sequence the mode is
off, so a call that turns it off follows every such operation. -/
def prog_mode_bracketed : Option Int → List LibCall → Bool
  | switched_on, [] => switched_on.isNone
  | _, .kdrive_sp_switch_prog_mode sp _ true :: rest => prog_mode_bracketed (some sp) rest
  | _, .kdrive_sp_switch_prog_mode _ _ false :: rest => prog_mode_bracketed none rest
  | switched_on, c :: rest =>
    (c.prog_mode_operation.isNone || c.prog_mode_operation == switched_on) &&
      prog_mode_bracketed switched_on rest

/-- The `enable` arguments of the `kdrive_sp_switch_prog_mode` calls in a
sequence of calls, in order. -/
def prog_mode_switches : List LibCall → List Bool
  | [] => []
  | .kdrive_sp_switch_prog_mode _ _ enable :: rest => enable :: prog_mode_switches rest
  | _ :: rest => prog_mode_switches rest

/-- The sequence of calls `cs` switches programming mode on once and off once,
in this order and on one service port `sp`; the calls before the first and
after the second of the two neither switch programming mode nor operate on
devices in programming mode; the calls between the two do not switch it, they
operate on devices in programming mode only through `sp`, and among them are
`kdrive_sp_ind_addr_prog_mode_read`, both `kdrive_sp_ind_addr_prog_mode_write`
calls and, when `is_rf` is set, the three domain-address calls. -/
def brackets_prog_mode (is_rf : Bool) (cs : List LibCall) : Prop :=
  ∃ sp before inside after,
    cs = before ++ [.kdrive_sp_switch_prog_mode sp Services.address true] ++ inside
      ++ [.kdrive_sp_switch_prog_mode sp Services.address false] ++ after ∧
    prog_mode_switches before = [] ∧ prog_mode_switches inside = [] ∧
    prog_mode_switches after = [] ∧
    (∀ c ∈ before, c.prog_mode_operation = none) ∧
    (∀ c ∈ after, c.prog_mode_operation = none) ∧
    (∀ c ∈ inside, c.prog_mode_operation = none ∨ c.prog_mode_operation = some sp) ∧
    LibCall.kdrive_sp_ind_addr_prog_mode_read sp 500 Services.MAX_IND_ADDR ∈ inside ∧
    LibCall.kdrive_sp_ind_addr_prog_mode_write sp 0x05F1 ∈ inside ∧
    LibCall.kdrive_sp_ind_addr_prog_mode_write sp Services.address ∈ inside ∧
    (is_rf = true →
      LibCall.kdrive_sp_domain_addr_prog_mode_read sp 500 Services.MAX_ITEMS ∈ inside ∧
      LibCall.kdrive_sp_domain_addr_prog_mode_write sp [0xAA, 0xAA, 0xAA, 0xAA, 0xAA, 0xAA]
        ∈ inside ∧
      LibCall.kdrive_sp_domain_addr_prog_mode_write sp [0x00, 0x00, 0x00, 0x00, 0x00, 0x00]
        ∈ inside)

/-- The number of conversion specifications in a `printf` format, given by its
character codes: every `%` starts one, except that `%%` prints a percent
sign. -/
def conversions : List Nat → Nat
  | [] => 0
  | 37 :: 37 :: rest => conversions rest
  | 37 :: rest => conversions rest + 1
  | _ :: rest => conversions rest

/-- The arguments a call with a `printf` format shows: one for each conversion
specification, in order.  Arguments beyond the last conversion are evaluated
and otherwise ignored. -/
def shown (format : String) (args : List LogArg) : List LogArg :=
  args.take (conversions (c_literal format))

/-! ## Example libraries -/

/-- The answers of a library whose calls all fail with the code `e`: a
descriptor is still handed out (`0`), no interface is found, nothing is
received, and an enumeration writes no entry and leaves the length variable at
the capacity it held on entry. -/
def LibCall.failed (e : error_t) : (c : LibCall) → c.Result
  | .kdrive_logger_set_level _ => ()
  | .kdrive_logger_console => ()
  | .kdrive_register_error_callback => ()
  | .kdrive_set_event_callback _ => ()
  | .kdrive_ap_create => 0
  | .kdrive_ap_release _ => ()
  | .kdrive_ap_close _ => ()
  | .kdrive_ap_enum_usb _ => 0
  | .kdrive_ap_enum_usb_ex capacity => { code := e, written := [], count := capacity }
  | .kdrive_ap_open_usb _ _ => e
  | .kdrive_ap_packet_trace_connect _ => ()
  | .kdrive_ap_register_telegram_callback _ => ()
  | .kdrive_ap_set_rf_domain_addr _ _ => e
  | .kdrive_ap_group_write _ _ _ _ => e
  | .kdrive_ap_enable_queue _ _ => ()
  | .kdrive_ap_receive _ _ _ => []
  | .kdrive_ap_read_group_object _ _ _ _ => []
  | .kdrive_ap_get_serial_number _ => .error e
  | .kdrive_ap_enum_ip_tunn _ capacity => { code := e, written := [], count := capacity }
  | .kdrive_ap_get_additional_ind_addr _ capacity =>
    { code := e, written := [], count := capacity }
  | .kdrive_sp_create _ => 0
  | .kdrive_sp_release _ => ()
  | .kdrive_sp_set_co _ _ => ()
  | .kdrive_sp_prop_value_read _ _ _ _ _ _ _ => .error e
  | .kdrive_sp_prop_value_write _ _ _ _ _ _ _ _ => e
  | .kdrive_sp_switch_prog_mode _ _ _ => e
  | .kdrive_sp_read_prog_mode _ _ => .error e
  | .kdrive_sp_memory_read _ _ _ _ _ => .error e
  | .kdrive_sp_memory_write _ _ _ _ _ => e
  | .kdrive_sp_ind_addr_prog_mode_read _ _ capacity =>
    { code := e, written := [], count := capacity }
  | .kdrive_sp_ind_addr_prog_mode_write _ _ => e
  | .kdrive_sp_ind_addr_sn_read _ _ => .error e
  | .kdrive_sp_ind_addr_sn_write _ _ _ => e
  | .kdrive_sp_domain_addr_prog_mode_read _ _ capacity =>
    { code := e, written := [], count := capacity }
  | .kdrive_sp_domain_addr_prog_mode_write _ _ => e
  | .kdrive_sp_domain_addr_sn_read _ _ => .error e
  | .kdrive_sp_domain_addr_sn_write _ _ _ => e
  | .getchar => ()

/-- A world without a usable interface: descriptors are handed out, and every
call that can fail fails with `KDRIVE_TIMEOUT_ERROR` as in `LibCall.failed`.
The world has a single state. -/
def no_interface : World Unit where
  KDRIVE_INVALID_DESCRIPTOR := -1
  reply := fun s c => (c.failed .KDRIVE_TIMEOUT_ERROR, s)

/-- An entry of an array the library has not written to, in the examples. -/
def example_uninit_usb (index : Nat) : UsbDev :=
  { ind_addr := 0xCC00 + index, media_tytes := 0xCCCC, internal_usb_index := 0xCC,
    usb_vendor_id := 0xCCCC, usb_product_id := 0xCCCC }

/-- A world with one KNX USB interface and two devices in programming mode:
the enumeration of USB interfaces and of the individual addresses in
programming mode succeed, within the capacity they are given,
`kdrive_ap_open_usb` succeeds, and everything else answers as in
`no_interface`.  The world has a single state. -/
def one_interface : World Unit where
  KDRIVE_INVALID_DESCRIPTOR := -1
  reply := fun s c =>
    (match c with
      | .kdrive_ap_enum_usb _ => (1 : Nat)
      | .kdrive_ap_enum_usb_ex capacity =>
        { code := .KDRIVE_ERROR_NONE,
          written := [{ ind_addr := 0x1101, media_tytes := 0x0002, internal_usb_index := 0,
                        usb_vendor_id := 0x0E77, usb_product_id := 0x0104 }].take capacity,
          count := min 1 capacity }
      | .kdrive_ap_open_usb _ _ => error_t.KDRIVE_ERROR_NONE
      | .kdrive_sp_create _ => (1 : Int)
      | .kdrive_sp_ind_addr_prog_mode_read _ _ capacity =>
        { code := .KDRIVE_ERROR_NONE, written := [0x05F1, 0x5102].take capacity,
          count := min 2 capacity }
      | c => c.failed .KDRIVE_TIMEOUT_ERROR, s)

/-- The telegram functions of the library as they answer when
`kdrive_ap_read_group_object` hands back a group response that was sent to
`ADDR_DPT_2` and whose group data cannot be extracted. -/
def foreign_response : AccessPortLib where
  kdrive_ap_is_group_write := fun _ => false
  kdrive_ap_get_dest := fun _ => .ok ADDR_DPT_2
  kdrive_ap_get_group_data := fun _ _ => .error .MalformedTelegram
  kdrive_ap_get_message_code := fun _ => .ok KDRIVE_CEMI_L_DATA_IND
  kdrive_ap_is_group_response := fun _ => true
  kdrive_ap_get_serial_number := fun _ => .error .NotApplicable
  kdrive_ap_read_group_object := fun _ _ _ _ =>
    [0x29, 0x00, 0xBC, 0xE0, 0x11, 0x01, 0x09, 0x0A, 0x10, 0x00, 0x40]

/-- An entry of `items[]` in `enumerate_tunneling_devices` that the library
has not written to, in the examples. -/
def example_uninit_tunn (_index : Nat) : IpTunnDev :=
  { dev_name := [0xCC], ip_address := [0xCC], iface_address := [0xCC], ind_addr := 0xCCCC,
    prog_mode_enabled := true }

/-- An entry of `items[]` in `domain_addr_prog_mode_read` that the library has
not written to, in the examples. -/
def example_uninit_item (_index : Nat) : DomainAddrItem :=
  { ind_addr := 0xCCCC, serial_number := List.replicate KDRIVE_SN_LEN 0xCC,
    domain_address := List.replicate KDRIVE_DA_LEN 0xCC }

/-- An entry of an array of `uint16_t` that the library has not written to, in
the examples. -/
def example_uninit_addr (_index : Nat) : Nat := 0xCCCC

/-! ## Theorems -/

/-- C5: immediately before each of the 20 encode calls of `send_telegrams` the
variable `length` holds `KDRIVE_MAX_GROUP_VALUE_LEN`, the size of `buffer`,
whatever the library did on the earlier encode calls: the capacities the 20
encode calls are given are 20 times `KDRIVE_MAX_GROUP_VALUE_LEN`. -/
theorem send_telegrams_capacity_reset (lib : EncodeLib) (ap : Int)
    (uninit_buffer : List Nat) (uninit_length : Nat) :
    (send_telegrams lib ap uninit_buffer uninit_length).filterMap Event.encode_capacity
      = List.replicate 20 KDRIVE_MAX_GROUP_VALUE_LEN := by
  rfl

/-- C4: the 20 group writes of `send_telegrams` go, in this order, to
`ADDR_DPT_1` ... `ADDR_DPT_9`, `ADDR_DPT_10_LOCAL`, `ADDR_DPT_10_UTC`,
`ADDR_DPT_10`, `ADDR_DPT_11_LOCAL`, `ADDR_DPT_11_UTC`, `ADDR_DPT_11`,
`ADDR_DPT_12` ... `ADDR_DPT_16`; the trace is 20 pairs of an encode call given
the full capacity and a group write right after it, and the group write passes
the shared buffer with the byte count the encode call left in `length` (after a
successful encode the first `length` bytes of the buffer are the bytes it
produced). -/
theorem send_telegrams_writes_encoded_buffer (lib : EncodeLib) (ap : Int)
    (uninit_buffer : List Nat) (uninit_length : Nat) :
    (send_telegrams lib ap uninit_buffer uninit_length).filterMap Event.write_address
        = [ADDR_DPT_1, ADDR_DPT_2, ADDR_DPT_3, ADDR_DPT_4, ADDR_DPT_5, ADDR_DPT_6, ADDR_DPT_7,
           ADDR_DPT_8, ADDR_DPT_9, ADDR_DPT_10_LOCAL, ADDR_DPT_10_UTC, ADDR_DPT_10,
           ADDR_DPT_11_LOCAL, ADDR_DPT_11_UTC, ADDR_DPT_11, ADDR_DPT_12, ADDR_DPT_13,
           ADDR_DPT_14, ADDR_DPT_15, ADDR_DPT_16] ∧
    ∀ i : Fin 20, ∃ call result address buffer length,
      (send_telegrams lib ap uninit_buffer uninit_length)[2 * i.val]?
        = some (.encode call KDRIVE_MAX_GROUP_VALUE_LEN result) ∧
      (send_telegrams lib ap uninit_buffer uninit_length)[2 * i.val + 1]?
        = some (.group_write ap address buffer length) ∧
      length = out_param KDRIVE_MAX_GROUP_VALUE_LEN (result.map List.length) ∧
      ∀ bytes, result = .ok bytes → buffer.take length = bytes := by
  refine ⟨rfl, ?_⟩
  intro i
  fin_cases i <;>
    exact ⟨_, _, _, _, _, rfl, rfl, rfl, fun bytes h => by
      dsimp only at h ⊢
      rw [h]
      simp [out_param, Except.map, store]⟩

/-- C3: for each of the 20 pairs of an encode call `kdrive_dpt_encode_dptN*` and
the group write after it in `send_telegrams`, a group-write telegram whose
destination is the address written to, once destination and group data have
been extracted, makes `on_telegram_callback` take a non-default case of the
switch: it calls `kdrive_dpt_decode_dptN` with the same `N` on the group data
and logs one line after it. -/
theorem switch_decodes_what_was_sent (lib : EncodeLib) (ap : Int)
    (uninit_buffer : List Nat) (uninit_length : Nat)
    (tl : TelegramLib) (dpt : DecodeLib) (uninit_value telegram data : List Nat)
    (i : Fin 20) (call : EncodeCall) (capacity : Nat) (result : Except error_t (List Nat))
    (address : Nat) (buffer : List Nat) (length : Nat)
    (hencode : (send_telegrams lib ap uninit_buffer uninit_length)[2 * i.val]?
      = some (.encode call capacity result))
    (hwrite : (send_telegrams lib ap uninit_buffer uninit_length)[2 * i.val + 1]?
      = some (.group_write ap address buffer length))
    (hgroup : tl.kdrive_ap_is_group_write telegram = true)
    (hdest : tl.kdrive_ap_get_dest telegram = .ok address)
    (hdata : tl.kdrive_ap_get_group_data telegram KDRIVE_MAX_GROUP_VALUE_LEN = .ok data) :
    ∃ e format args, on_telegram_callback tl dpt uninit_value telegram
      = [.decode call.kind data e, .logger_ex .KDRIVE_LOGGER_INFORMATION format args] := by
  fin_cases i <;>
  · simp only [send_telegrams, send_telegrams_body, run, List.getElem?_cons_zero,
      List.getElem?_cons_succ, Option.some.injEq, Event.encode.injEq,
      Event.group_write.injEq] at hencode hwrite
    obtain ⟨rfl, -, -⟩ := hencode
    obtain ⟨-, rfl, -, -⟩ := hwrite
    simp [on_telegram_callback, on_telegram_switch, hgroup, hdest, hdata, EncodeCall.kind,
      ADDR_DPT_1, ADDR_DPT_2,
      ADDR_DPT_3, ADDR_DPT_4, ADDR_DPT_5, ADDR_DPT_6, ADDR_DPT_7, ADDR_DPT_8, ADDR_DPT_9,
      ADDR_DPT_10_LOCAL, ADDR_DPT_10_UTC, ADDR_DPT_10, ADDR_DPT_11_LOCAL, ADDR_DPT_11_UTC,
      ADDR_DPT_11, ADDR_DPT_12, ADDR_DPT_13, ADDR_DPT_14, ADDR_DPT_15, ADDR_DPT_16]

/-- The sample's DPT-9 value: `12.25f` is encoded as the two bytes `04 C9`. -/
theorem encode_dpt9_sample :
    kdrive_dpt_encode_dpt9 KDRIVE_MAX_GROUP_VALUE_LEN 12.25 = .ok [0x04, 0xC9] := by
  norm_num [kdrive_dpt_encode_dpt9, KDRIVE_MAX_GROUP_VALUE_LEN, dpt9_exponent,
    dpt9_mantissa_ok, round_nearest, to_unsigned]
  decide

/-- C2 fails on the code.  A group write to `ADDR_DPT_7` that carries one byte
makes `kdrive_dpt_decode_dpt7` report `InvalidBufferLength`, and
`on_telegram_callback` logs the value 0 all the same; with the clock at 1970
`kdrive_dpt_encode_dpt11_local` reports `OutOfRangeValue`, and `send_telegrams`
goes on to group-write the buffer, which still holds the bytes of the DPT-10
telegram before it, with the untouched length 14. -/
theorem codec_error_not_observed :
    on_telegram_callback (received_group_write ADDR_DPT_7 [0x12]) kdrive_dpt_decode
        (List.replicate 15 0) (group_write_frame ADDR_DPT_7 [0x12])
      = [.decode 7 [0x12] .InvalidBufferLength,
         .logger_ex .KDRIVE_LOGGER_INFORMATION "[2 byte unsigned] 0x%04x" [.x 0]] ∧
    (send_telegrams (kdrive_dpt_encode clock_1970) 0 (List.replicate 14 0) 0)[24]?
      = some (.encode .dpt11_local KDRIVE_MAX_GROUP_VALUE_LEN (.error .OutOfRangeValue)) ∧
    (send_telegrams (kdrive_dpt_encode clock_1970) 0 (List.replicate 14 0) 0)[25]?
      = some (.group_write 0 ADDR_DPT_11_LOCAL [43, 11, 11, 0, 0, 0, 0, 0, 0, 0, 0, 0, 0, 0]
          KDRIVE_MAX_GROUP_VALUE_LEN) := by
  refine ⟨by decide, ?_, ?_⟩
  · rfl
  · simp only [send_telegrams, send_telegrams_body, run, kdrive_dpt_encode,
      encode_dpt9_sample]
    decide

/-- The switch either runs one decode call and logs one line after it, or takes
the default branch, which makes no decode call. -/
theorem on_telegram_switch_shape (dpt : DecodeLib) (uninit_value : List Nat) (address : Nat)
    (data : List Nat) :
    (∃ kind e format args, on_telegram_switch dpt uninit_value address data
      = [.decode kind data e, .logger_ex .KDRIVE_LOGGER_INFORMATION format args]) ∨
    (∃ args, on_telegram_switch dpt uninit_value address data
      = [.logger_ex .KDRIVE_LOGGER_INFORMATION "A_GroupValue_Write: 0x%04x " args,
         .logger_dump .KDRIVE_LOGGER_INFORMATION "A_GroupValue_Write Data :" data]) := by
  unfold on_telegram_switch
  by_cases h : address = ADDR_DPT_1
  · rw [if_pos h]; exact Or.inl ⟨_, _, _, _, rfl⟩
  rw [if_neg h]; clear h
  by_cases h : address = ADDR_DPT_2
  · rw [if_pos h]; exact Or.inl ⟨_, _, _, _, rfl⟩
  rw [if_neg h]; clear h
  by_cases h : address = ADDR_DPT_3
  · rw [if_pos h]; exact Or.inl ⟨_, _, _, _, rfl⟩
  rw [if_neg h]; clear h
  by_cases h : address = ADDR_DPT_4
  · rw [if_pos h]; exact Or.inl ⟨_, _, _, _, rfl⟩
  rw [if_neg h]; clear h
  by_cases h : address = ADDR_DPT_5
  · rw [if_pos h]; exact Or.inl ⟨_, _, _, _, rfl⟩
  rw [if_neg h]; clear h
  by_cases h : address = ADDR_DPT_6
  · rw [if_pos h]; exact Or.inl ⟨_, _, _, _, rfl⟩
  rw [if_neg h]; clear h
  by_cases h : address = ADDR_DPT_7
  · rw [if_pos h]; exact Or.inl ⟨_, _, _, _, rfl⟩
  rw [if_neg h]; clear h
  by_cases h : address = ADDR_DPT_8
  · rw [if_pos h]; exact Or.inl ⟨_, _, _, _, rfl⟩
  rw [if_neg h]; clear h
  by_cases h : address = ADDR_DPT_9
  · rw [if_pos h]; exact Or.inl ⟨_, _, _, _, rfl⟩
  rw [if_neg h]; clear h
  by_cases h : address = ADDR_DPT_10_LOCAL ∨ address = ADDR_DPT_10_UTC ∨ address = ADDR_DPT_10
  · rw [if_pos h]; exact Or.inl ⟨_, _, _, _, rfl⟩
  rw [if_neg h]; clear h
  by_cases h : address = ADDR_DPT_11_LOCAL ∨ address = ADDR_DPT_11_UTC ∨ address = ADDR_DPT_11
  · rw [if_pos h]; exact Or.inl ⟨_, _, _, _, rfl⟩
  rw [if_neg h]; clear h
  by_cases h : address = ADDR_DPT_12
  · rw [if_pos h]; exact Or.inl ⟨_, _, _, _, rfl⟩
  rw [if_neg h]; clear h
  by_cases h : address = ADDR_DPT_13
  · rw [if_pos h]; exact Or.inl ⟨_, _, _, _, rfl⟩
  rw [if_neg h]; clear h
  by_cases h : address = ADDR_DPT_14
  · rw [if_pos h]; exact Or.inl ⟨_, _, _, _, rfl⟩
  rw [if_neg h]; clear h
  by_cases h : address = ADDR_DPT_15
  · rw [if_pos h]; exact Or.inl ⟨_, _, _, _, rfl⟩
  rw [if_neg h]; clear h
  by_cases h : address = ADDR_DPT_16
  · rw [if_pos h]; exact Or.inl ⟨_, _, _, _, rfl⟩
  rw [if_neg h]; clear h
  exact Or.inr ⟨_, rfl⟩

/-- C2 as amended: the sample does not inspect what the codec returns.  Whatever
the library does, each of the 20 encode calls of `send_telegrams` is followed
by a group write (with the length still at the full capacity when the encode
call failed), and a decode call in `on_telegram_callback` is followed by one
log line whatever error code it returned.  Errors of the telegram functions
are observed: when `kdrive_ap_get_dest` or `kdrive_ap_get_group_data` fails,
nothing is decoded or logged. -/
theorem codec_result_not_inspected :
    (∀ (lib : EncodeLib) (ap : Int) (uninit_buffer : List Nat) (uninit_length : Nat)
        (i : Fin 20), ∃ call result address buffer length,
      (send_telegrams lib ap uninit_buffer uninit_length)[2 * i.val]?
        = some (.encode call KDRIVE_MAX_GROUP_VALUE_LEN result) ∧
      (send_telegrams lib ap uninit_buffer uninit_length)[2 * i.val + 1]?
        = some (.group_write ap address buffer length) ∧
      ∀ e, result = .error e → length = KDRIVE_MAX_GROUP_VALUE_LEN) ∧
    (∀ (tl : TelegramLib) (dpt : DecodeLib) (uninit_value telegram : List Nat)
        (kind : Nat) (data : List Nat) (e : error_t),
      Event.decode kind data e ∈ on_telegram_callback tl dpt uninit_value telegram →
      ∃ format args, on_telegram_callback tl dpt uninit_value telegram
        = [.decode kind data e, .logger_ex .KDRIVE_LOGGER_INFORMATION format args]) ∧
    (∀ (tl : TelegramLib) (dpt : DecodeLib) (uninit_value telegram : List Nat),
      (∃ e, tl.kdrive_ap_get_dest telegram = .error e) ∨
      (∃ e, tl.kdrive_ap_get_group_data telegram KDRIVE_MAX_GROUP_VALUE_LEN = .error e) →
      on_telegram_callback tl dpt uninit_value telegram = []) := by
  refine ⟨?_, ?_, ?_⟩
  · intro lib ap uninit_buffer uninit_length i
    fin_cases i <;>
      exact ⟨_, _, _, _, _, rfl, rfl, fun e h => by
        dsimp only at h ⊢
        rw [h]
        rfl⟩
  · intro tl dpt uninit_value telegram kind data e h
    unfold on_telegram_callback at h ⊢
    cases hg : tl.kdrive_ap_is_group_write telegram with
    | false => simp [hg] at h
    | true =>
      cases hd : tl.kdrive_ap_get_dest telegram with
      | error _ => simp [hg, hd] at h
      | ok address =>
        cases hdata : tl.kdrive_ap_get_group_data telegram KDRIVE_MAX_GROUP_VALUE_LEN with
        | error _ => simp [hg, hd, hdata] at h
        | ok d =>
          simp only [hg, hd, hdata, if_true] at h ⊢
          rcases on_telegram_switch_shape dpt uninit_value address d with
            ⟨k, e', f, a, hs⟩ | ⟨a, hs⟩
          · rw [hs] at h ⊢
            simp at h
            obtain ⟨rfl, rfl, rfl⟩ := h
            exact ⟨f, a, rfl⟩
          · rw [hs] at h
            simp at h
  · intro tl dpt uninit_value telegram h
    unfold on_telegram_callback
    rcases h with ⟨e, h⟩ | ⟨e, h⟩
    · split
      · rw [h]
      · rfl
    · split
      · split
        · rfl
        · rw [h]
      · rfl

theorem c_string_set_zero (l : List Nat) (n : Nat) (h : n < l.length) :
    ∃ str, c_string (l.set n 0) = some str ∧ str.length ≤ n := by
  induction l generalizing n with
  | nil => simp at h
  | cons c rest ih =>
    cases n with
    | zero => exact ⟨[], by simp [c_string], by simp⟩
    | succ n =>
      simp only [List.set_cons_succ, c_string]
      by_cases hc : c = 0
      · exact ⟨[], by simp [hc], by simp⟩
      · obtain ⟨str, hstr, hlen⟩ := ih n (by simpa using h)
        exact ⟨c :: str, by simp [hc, hstr], by simp [hlen]⟩

/-- C6: in the `ADDR_DPT_16` case of `on_telegram_callback`, whatever
`kdrive_dpt_decode_dpt16` writes into the first `KDRIVE_DPT16_LENGTH` bytes of
`value` (and also when it fails and leaves the uninitialised array alone), the
string that is logged is read from inside the 15-byte array and has at most
`KDRIVE_DPT16_LENGTH` = 14 characters. -/
theorem dpt16_string_terminated (tl : TelegramLib) (dpt : DecodeLib)
    (uninit_value telegram data : List Nat)
    (huninit : uninit_value.length = KDRIVE_DPT16_LENGTH + 1)
    (hdecode : ∀ bytes, dpt.dpt16 data = .ok bytes → bytes.length = KDRIVE_DPT16_LENGTH)
    (hgroup : tl.kdrive_ap_is_group_write telegram = true)
    (hdest : tl.kdrive_ap_get_dest telegram = .ok ADDR_DPT_16)
    (hdata : tl.kdrive_ap_get_group_data telegram KDRIVE_MAX_GROUP_VALUE_LEN = .ok data) :
    ∃ e str, on_telegram_callback tl dpt uninit_value telegram
        = [.decode 16 data e,
           .logger_ex .KDRIVE_LOGGER_INFORMATION "[character string] %s" [.s (some str)]] ∧
      str.length ≤ KDRIVE_DPT16_LENGTH := by
  have hlen : KDRIVE_DPT16_LENGTH
      < (out_param uninit_value ((dpt.dpt16 data).map (store uninit_value))).length := by
    cases hr : dpt.dpt16 data with
    | error e => simp [out_param, Except.map, huninit]
    | ok bytes =>
      have := hdecode bytes hr
      simp [out_param, Except.map, store, huninit, this]
  obtain ⟨str, hstr, hle⟩ := c_string_set_zero _ _ hlen
  refine ⟨error_code (dpt.dpt16 data), str, ?_, hle⟩
  simp [on_telegram_callback, on_telegram_switch, hgroup, hdest, hdata, hstr,
      ADDR_DPT_1, ADDR_DPT_2,
      ADDR_DPT_3, ADDR_DPT_4, ADDR_DPT_5, ADDR_DPT_6, ADDR_DPT_7, ADDR_DPT_8, ADDR_DPT_9,
      ADDR_DPT_10_LOCAL, ADDR_DPT_10_UTC, ADDR_DPT_10, ADDR_DPT_11_LOCAL, ADDR_DPT_11_UTC,
      ADDR_DPT_11, ADDR_DPT_12, ADDR_DPT_13, ADDR_DPT_14, ADDR_DPT_15, ADDR_DPT_16]

/-- C9: for every kind `N` from 1 to 16, `kdrive_dpt_decode_dptN` on a buffer
shorter than the fixed payload size of the kind fails with
`InvalidBufferLength`, so yields no value. -/
theorem decode_short_buffer_fails (kind : Nat) (data : List Nat)
    (hlow : 1 ≤ kind) (hhigh : kind ≤ 16)
    (hshort : data.length < payload_size kind) :
    kdrive_dpt_decode.decode kind data = some (.error .InvalidBufferLength) := by
  interval_cases kind
  all_goals simp only [payload_size] at hshort
  all_goals
    first
    | (rcases data with _ | ⟨a, _ | ⟨b, _ | ⟨c, _ | ⟨d, rest⟩⟩⟩⟩ <;>
        first
        | rfl
        | exact absurd hshort (by simp only [List.length_cons]; omega))
    | (have hne : ¬ data.length = KDRIVE_DPT16_LENGTH := by
         simp only [KDRIVE_DPT16_LENGTH]; omega
       simp [DecodeLib.decode, kdrive_dpt_decode, kdrive_dpt_decode_dpt16, hne, Except.map])

/-- The two bytes `04 C9` decode to 12.25. -/
theorem decode_dpt9_sample : kdrive_dpt_decode_dpt9 [0x04, 0xC9] = .ok 12.25 := by
  norm_num [kdrive_dpt_decode_dpt9, to_signed]

/-- C10: encoding 12.25 as DPT 9 gives the two bytes `04 C9`, and decoding them
gives exactly 12.25; this is the encode call `send_telegrams` makes, and
`on_telegram_callback` logs 12.25 for these bytes at `ADDR_DPT_9`. -/
theorem dpt9_exact_12_25 :
    kdrive_dpt_encode_dpt9 KDRIVE_MAX_GROUP_VALUE_LEN 12.25 = .ok [0x04, 0xC9] ∧
    kdrive_dpt_decode_dpt9 [0x04, 0xC9] = .ok 12.25 ∧
    (send_telegrams (kdrive_dpt_encode clock_1970) 0 (List.replicate 14 0) 0)[16]?
      = some (.encode (.dpt9 12.25) KDRIVE_MAX_GROUP_VALUE_LEN (.ok [0x04, 0xC9])) ∧
    on_telegram_callback (received_group_write ADDR_DPT_9 [0x04, 0xC9]) kdrive_dpt_decode
        (List.replicate 15 0) (group_write_frame ADDR_DPT_9 [0x04, 0xC9])
      = [.decode 9 [0x04, 0xC9] .KDRIVE_ERROR_NONE,
         .logger_ex .KDRIVE_LOGGER_INFORMATION "[2 byte float] %f" [.f 12.25]] := by
  refine ⟨encode_dpt9_sample, decode_dpt9_sample, ?_, ?_⟩
  · simp only [send_telegrams, send_telegrams_body, run, kdrive_dpt_encode,
      encode_dpt9_sample]
    rfl
  · simp [on_telegram_callback, on_telegram_switch, received_group_write, kdrive_dpt_decode,
      decode_dpt9_sample, out_param, error_code, KDRIVE_MAX_GROUP_VALUE_LEN,
      ADDR_DPT_1, ADDR_DPT_2,
      ADDR_DPT_3, ADDR_DPT_4, ADDR_DPT_5, ADDR_DPT_6, ADDR_DPT_7, ADDR_DPT_8, ADDR_DPT_9]

/-! ### Two's complement and byte order -/

theorem to_signed_to_unsigned_8 (v : Int) (hlow : -128 ≤ v) (hhigh : v ≤ 127) :
    to_signed 8 (to_unsigned 8 v) = v := by
  simp only [to_signed, to_unsigned]
  norm_num
  split_ifs <;> omega

theorem to_signed_to_unsigned_12 (v : Int) (hlow : -2048 ≤ v) (hhigh : v ≤ 2047) :
    to_signed 12 (to_unsigned 12 v) = v := by
  simp only [to_signed, to_unsigned]
  norm_num
  split_ifs <;> omega

theorem to_signed_to_unsigned_16 (v : Int) (hlow : -32768 ≤ v) (hhigh : v ≤ 32767) :
    to_signed 16 (to_unsigned 16 v) = v := by
  simp only [to_signed, to_unsigned]
  norm_num
  split_ifs <;> omega

theorem to_signed_to_unsigned_32 (v : Int) (hlow : -2147483648 ≤ v) (hhigh : v ≤ 2147483647) :
    to_signed 32 (to_unsigned 32 v) = v := by
  simp only [to_signed, to_unsigned]
  norm_num
  split_ifs <;> omega

theorem to_unsigned_lt_12 (v : Int) : to_unsigned 12 v < 4096 := by
  simp only [to_unsigned]
  omega

theorem to_unsigned_lt_16 (v : Int) : to_unsigned 16 v < 65536 := by
  simp only [to_unsigned]
  omega

theorem to_unsigned_lt_32 (v : Int) : to_unsigned 32 v < 4294967296 := by
  simp only [to_unsigned]
  omega

theorem to_unsigned_to_signed_32 (u : Nat) (h : u < 4294967296) :
    to_unsigned 32 (to_signed 32 u) = u := by
  simp only [to_signed, to_unsigned]
  norm_num
  split_ifs <;> omega

theorem of_be16_be16 (u : Nat) (h : u < 65536) :
    of_be16 (u / 256 % 256) (u % 256) = u := by
  simp only [of_be16]
  omega

theorem of_be32_be32 (u : Nat) (h : u < 4294967296) :
    of_be32 (u / 16777216 % 256) (u / 65536 % 256) (u / 256 % 256) (u % 256) = u := by
  simp only [of_be32]
  omega

/-- Four big-endian bytes round-trip through DPT 13 for every signed 32-bit
value. -/
theorem decode_encode_dpt13 (x : Int) (hlow : -2147483648 ≤ x) (hhigh : x ≤ 2147483647) :
    kdrive_dpt_decode_dpt13 (be32 (to_unsigned 32 x)) = .ok x := by
  simp only [be32, kdrive_dpt_decode_dpt13]
  rw [of_be32_be32 _ (to_unsigned_lt_32 x), to_signed_to_unsigned_32 x hlow hhigh]

/-- C8: for every signed 32-bit value `x`, a group write to `ADDR_DPT_13` that
carries the DPT-13 encoding of `x` makes `on_telegram_callback` decode
successfully and log `x` itself under "[4 byte signed]", although the local it
decodes into is declared `uint32_t`. -/
theorem dpt13_logged_signed (x : Int) (hlow : -2147483648 ≤ x) (hhigh : x ≤ 2147483647)
    (tl : TelegramLib) (uninit_value telegram : List Nat)
    (hgroup : tl.kdrive_ap_is_group_write telegram = true)
    (hdest : tl.kdrive_ap_get_dest telegram = .ok ADDR_DPT_13) :
    ∃ bytes, kdrive_dpt_encode_dpt13 KDRIVE_MAX_GROUP_VALUE_LEN x = .ok bytes ∧
      (tl.kdrive_ap_get_group_data telegram KDRIVE_MAX_GROUP_VALUE_LEN = .ok bytes →
        on_telegram_callback tl kdrive_dpt_decode uninit_value telegram
          = [.decode 13 bytes .KDRIVE_ERROR_NONE,
             .logger_ex .KDRIVE_LOGGER_INFORMATION "[4 byte signed] %d" [.d x]]) := by
  refine ⟨be32 (to_unsigned 32 x), by simp [kdrive_dpt_encode_dpt13, KDRIVE_MAX_GROUP_VALUE_LEN],
    fun hdata => ?_⟩
  simp [on_telegram_callback, on_telegram_switch, hgroup, hdest, hdata, kdrive_dpt_decode,
    decode_encode_dpt13 x hlow hhigh, out_param, error_code, Except.map,
    to_signed_to_unsigned_32 x hlow hhigh, ADDR_DPT_1, ADDR_DPT_2,
    ADDR_DPT_3, ADDR_DPT_4, ADDR_DPT_5, ADDR_DPT_6, ADDR_DPT_7, ADDR_DPT_8, ADDR_DPT_9,
    ADDR_DPT_10_LOCAL, ADDR_DPT_10_UTC, ADDR_DPT_10, ADDR_DPT_11_LOCAL, ADDR_DPT_11_UTC,
    ADDR_DPT_11, ADDR_DPT_12, ADDR_DPT_13]

/-- C7 fails on the code.  The local and the UTC DPT-10 encode calls take only
the buffer and its capacity; given the same capacity they produce `2B 0B 0B`
when the clock shows Monday 11:11:11 and `2B 0B 0C` one second later. -/
theorem dpt10_clock_changes_bytes :
    kdrive_dpt_encode_dpt10_local (clock_2012 11) KDRIVE_MAX_GROUP_VALUE_LEN
      = .ok [0x2B, 11, 11] ∧
    kdrive_dpt_encode_dpt10_local (clock_2012 12) KDRIVE_MAX_GROUP_VALUE_LEN
      = .ok [0x2B, 11, 12] ∧
    kdrive_dpt_encode_dpt10_utc (clock_2012 11) KDRIVE_MAX_GROUP_VALUE_LEN
      = .ok [0x2B, 11, 11] ∧
    kdrive_dpt_encode_dpt10_utc (clock_2012 12) KDRIVE_MAX_GROUP_VALUE_LEN
      = .ok [0x2B, 11, 12] := by
  decide

/-- Within the ranges of DPT 10, two times have the same three bytes exactly
when they are the same time. -/
theorem encode_dpt10_eq_iff (capacity : Nat) (hcap : 3 ≤ capacity) (t u : BrokenDownTime)
    (ht : t.time_in_range) (hu : u.time_in_range) :
    kdrive_dpt_encode_dpt10 capacity t.weekday t.hour t.minute t.second
      = kdrive_dpt_encode_dpt10 capacity u.weekday u.hour u.minute u.second
    ↔ t.same_time u := by
  obtain ⟨h1, h2, h3, h4, h5, h6, h7, h8⟩ := ht
  obtain ⟨g1, g2, g3, g4, g5, g6, g7, g8⟩ := hu
  have hc : ¬ capacity < 3 := by omega
  have ht' : ¬ (t.weekday < 0 ∨ 7 < t.weekday ∨ t.hour < 0 ∨ 23 < t.hour ∨ t.minute < 0 ∨
      59 < t.minute ∨ t.second < 0 ∨ 59 < t.second) := by omega
  have hu' : ¬ (u.weekday < 0 ∨ 7 < u.weekday ∨ u.hour < 0 ∨ 23 < u.hour ∨ u.minute < 0 ∨
      59 < u.minute ∨ u.second < 0 ∨ 59 < u.second) := by omega
  simp only [kdrive_dpt_encode_dpt10, if_neg hc, if_neg ht', if_neg hu',
    BrokenDownTime.same_time, Except.ok.injEq, List.cons.injEq, and_true]
  constructor
  · rintro ⟨a, b, c⟩
    omega
  · rintro ⟨a, b, c, d⟩
    rw [a, b, c, d]
    exact ⟨rfl, rfl, rfl⟩

/-- C7 as amended: the local (and the UTC) DPT-10 encode call is given no time
by its caller; the bytes it produces are determined by the reading of the
machine's clock.  Two calls with the same arguments produce the same bytes
exactly when the clock shows the same weekday, hour, minute and second at
both. -/
theorem dpt10_clock_determines_bytes (c1 c2 : Clock) (capacity : Nat) (hcap : 3 ≤ capacity)
    (hlocal1 : c1.localtime.time_in_range) (hlocal2 : c2.localtime.time_in_range)
    (hutc1 : c1.utc.time_in_range) (hutc2 : c2.utc.time_in_range) :
    (kdrive_dpt_encode_dpt10_local c1 capacity = kdrive_dpt_encode_dpt10_local c2 capacity
      ↔ c1.localtime.same_time c2.localtime) ∧
    (kdrive_dpt_encode_dpt10_utc c1 capacity = kdrive_dpt_encode_dpt10_utc c2 capacity
      ↔ c1.utc.same_time c2.utc) :=
  ⟨encode_dpt10_eq_iff capacity hcap _ _ hlocal1 hlocal2,
   encode_dpt10_eq_iff capacity hcap _ _ hutc1 hutc2⟩

/-! ### DPT 9 -/

theorem round_nearest_intCast (k : Int) : round_nearest (k : ℚ) = k := by
  unfold round_nearest
  rw [Int.floor_eq_iff]
  constructor <;> linarith

theorem dpt9_mantissa_ok_iff (m : Int) : dpt9_mantissa_ok m = true ↔ -2048 ≤ m ∧ m ≤ 2047 := by
  simp [dpt9_mantissa_ok]

/-- Hundredths `m * 2 ^ e`, divided by a smaller power of two, are whole. -/
theorem dpt9_scaled (m : Int) (e e' : Nat) (h : e' ≤ e) :
    ((m : ℚ) * 2 ^ e) / 2 ^ e' = ((m * 2 ^ (e - e') : Int) : ℚ) := by
  obtain ⟨d, rfl⟩ := Nat.exists_eq_add_of_le h
  have h2 : (2 : ℚ) ^ e' ≠ 0 := by positivity
  rw [Nat.add_sub_cancel_left, pow_add]
  push_cast
  field_simp
  ring

/-- The search for the exponent succeeds no later than at any exponent that
represents the value exactly. -/
theorem dpt9_exponent_spec (m : Int) (e : Nat) (hlow : -2048 ≤ m) (hhigh : m ≤ 2047) :
    ∀ (fuel start : Nat), start ≤ e → e < start + fuel →
      ∃ e', dpt9_exponent ((m : ℚ) * 2 ^ e) fuel start = some e' ∧ start ≤ e' ∧ e' ≤ e ∧
        dpt9_mantissa_ok (round_nearest ((m : ℚ) * 2 ^ e / 2 ^ e')) = true := by
  intro fuel
  induction fuel with
  | zero => intro start h1 h2; omega
  | succ fuel ih =>
    intro start h1 h2
    unfold dpt9_exponent
    by_cases hok : dpt9_mantissa_ok (round_nearest ((m : ℚ) * 2 ^ e / 2 ^ start)) = true
    · rw [if_pos hok]
      exact ⟨start, rfl, le_refl _, h1, hok⟩
    · rw [if_neg hok]
      have hne : start ≠ e := by
        rintro rfl
        apply hok
        rw [dpt9_scaled m start start (le_refl _), round_nearest_intCast,
          dpt9_mantissa_ok_iff]
        simp [hlow, hhigh]
      obtain ⟨e', h3, h4, h5, h6⟩ := ih (start + 1) (by omega) (by omega)
      exact ⟨e', h3, by omega, h5, h6⟩

/-- Decoding the two bytes built from a mantissa and an exponent. -/
theorem decode_dpt9_bits (m : Int) (e : Nat) (hlow : -2048 ≤ m) (hhigh : m ≤ 2047)
    (he : e ≤ 15) :
    kdrive_dpt_decode_dpt9
        [to_unsigned 12 m / 2048 * 128 + e * 8 + to_unsigned 12 m % 2048 / 256,
         to_unsigned 12 m % 256]
      = .ok ((m : ℚ) * 2 ^ e / 100) := by
  have hM := to_unsigned_lt_12 m
  have h1 : (to_unsigned 12 m / 2048 * 128 + e * 8 + to_unsigned 12 m % 2048 / 256) / 8 % 16
      = e := by omega
  have h2 : (to_unsigned 12 m / 2048 * 128 + e * 8 + to_unsigned 12 m % 2048 / 256) / 128 % 2
        * 2048
      + (to_unsigned 12 m / 2048 * 128 + e * 8 + to_unsigned 12 m % 2048 / 256) % 8 * 256
      + to_unsigned 12 m % 256 % 256 = to_unsigned 12 m := by omega
  simp only [kdrive_dpt_decode_dpt9]
  rw [h1, h2, to_signed_to_unsigned_12 m hlow hhigh]

/-- DPT 9 round trip on the values the KNX floating form represents exactly. -/
theorem decode_encode_dpt9 (capacity : Nat) (hcap : 2 ≤ capacity) (value : ℚ) (m : Int) (e : Nat)
    (hlow : -2048 ≤ m) (hhigh : m ≤ 2047) (he : e ≤ 15) (hv : value = (m : ℚ) * 2 ^ e / 100) :
    ∃ b0 b1, kdrive_dpt_encode_dpt9 capacity value = .ok [b0, b1] ∧
      kdrive_dpt_decode_dpt9 [b0, b1] = .ok value := by
  have hc : value * 100 = (m : ℚ) * 2 ^ e := by
    rw [hv]
    field_simp
  obtain ⟨e', hfind, -, hle, hok⟩ := dpt9_exponent_spec m e hlow hhigh 16 0 (by omega) (by omega)
  rw [dpt9_scaled m e e' hle, round_nearest_intCast, dpt9_mantissa_ok_iff] at hok
  have hcap' : ¬ capacity < 2 := by omega
  refine ⟨to_unsigned 12 (m * 2 ^ (e - e')) / 2048 * 128 + e' * 8
      + to_unsigned 12 (m * 2 ^ (e - e')) % 2048 / 256,
    to_unsigned 12 (m * 2 ^ (e - e')) % 256, ?_, ?_⟩
  · simp only [kdrive_dpt_encode_dpt9, if_neg hcap', hc, hfind]
    rw [dpt9_scaled m e e' hle, round_nearest_intCast]
  · rw [decode_dpt9_bits _ e' hok.1 hok.2 (by omega), hv, ← dpt9_scaled m e e' hle]
    have h2 : (2 : ℚ) ^ e' ≠ 0 := by positivity
    field_simp

/-! ### DPT 16 -/

theorem map_mod_256 (str : List Nat) (h : ∀ c ∈ str, 0 < c ∧ c ≤ 255) :
    str.map (· % 256) = str := by
  induction str with
  | nil => rfl
  | cons c rest ih =>
    have hc := h c (List.mem_cons_self c rest)
    have hrest : ∀ d ∈ rest, 0 < d ∧ d ≤ 255 := fun d hd => h d (List.mem_cons_of_mem c hd)
    simp only [List.map_cons, ih hrest]
    congr 1
    omega

theorem c_string_append_zero (str rest : List Nat) (h : ∀ c ∈ str, 0 < c ∧ c ≤ 255) :
    c_string (str ++ 0 :: rest) = some str := by
  induction str with
  | nil => simp [c_string]
  | cons c tail ih =>
    have hc := h c (List.mem_cons_self c tail)
    have htail : ∀ d ∈ tail, 0 < d ∧ d ≤ 255 := fun d hd => h d (List.mem_cons_of_mem c hd)
    have hne : c ≠ 0 := by omega
    simp [c_string, hne, ih htail]

/-- DPT 16 round trip: the 14 bytes are the string padded with NUL, and the
string is read back from them once a NUL is put behind them. -/
theorem decode_encode_dpt16 (capacity : Nat) (hcap : KDRIVE_DPT16_LENGTH ≤ capacity)
    (str : List Nat) (hlen : str.length ≤ KDRIVE_DPT16_LENGTH)
    (hchars : ∀ c ∈ str, 0 < c ∧ c ≤ 255) :
    kdrive_dpt_encode_dpt16 capacity str
      = .ok (str ++ List.replicate (KDRIVE_DPT16_LENGTH - str.length) 0) ∧
    kdrive_dpt_decode_dpt16 (str ++ List.replicate (KDRIVE_DPT16_LENGTH - str.length) 0)
      = .ok (str ++ List.replicate (KDRIVE_DPT16_LENGTH - str.length) 0) ∧
    c_string ((str ++ List.replicate (KDRIVE_DPT16_LENGTH - str.length) 0) ++ [0])
      = some str := by
  have h1 : ¬ capacity < KDRIVE_DPT16_LENGTH := by omega
  have h2 : ¬ KDRIVE_DPT16_LENGTH < str.length := by omega
  have h3 : (str ++ List.replicate (KDRIVE_DPT16_LENGTH - str.length) 0).length
      = KDRIVE_DPT16_LENGTH := by
    simp only [List.length_append, List.length_replicate]
    omega
  refine ⟨?_, ?_, ?_⟩
  · simp only [kdrive_dpt_encode_dpt16, if_neg h1, if_neg h2, map_mod_256 str hchars]
  · simp only [kdrive_dpt_decode_dpt16, if_pos h3, List.map_append, map_mod_256 str hchars,
      List.map_replicate, Nat.zero_mod]
  · have h4 : List.replicate (KDRIVE_DPT16_LENGTH - str.length) 0 ++ [0]
        = 0 :: List.replicate (KDRIVE_DPT16_LENGTH - str.length) 0 := by
      rw [← List.replicate_succ, List.replicate_succ']
    rw [List.append_assoc, h4]
    exact c_string_append_zero str _ hchars

/-! ### DPT 10, 11 and 15 -/

theorem decode_encode_dpt10 (capacity : Nat) (hcap : 3 ≤ capacity) (day hour minute second : Int)
    (h : 0 ≤ day ∧ day ≤ 7 ∧ 0 ≤ hour ∧ hour ≤ 23 ∧ 0 ≤ minute ∧ minute ≤ 59 ∧
      0 ≤ second ∧ second ≤ 59) :
    ∃ bytes, kdrive_dpt_encode_dpt10 capacity day hour minute second = .ok bytes ∧
      bytes.length = 3 ∧ kdrive_dpt_decode_dpt10 bytes = .ok (day, hour, minute, second) := by
  have hc : ¬ capacity < 3 := by omega
  have hr : ¬ (day < 0 ∨ 7 < day ∨ hour < 0 ∨ 23 < hour ∨ minute < 0 ∨ 59 < minute ∨
      second < 0 ∨ 59 < second) := by omega
  refine ⟨[day.toNat * 32 + hour.toNat, minute.toNat, second.toNat],
    by simp only [kdrive_dpt_encode_dpt10, if_neg hc, if_neg hr], rfl, ?_⟩
  simp only [kdrive_dpt_decode_dpt10, Except.ok.injEq, Prod.mk.injEq]
  refine ⟨?_, ?_, ?_, ?_⟩ <;> omega

theorem decode_encode_dpt11 (capacity : Nat) (hcap : 3 ≤ capacity) (year month day : Int)
    (h : 1990 ≤ year ∧ year ≤ 2089 ∧ 1 ≤ month ∧ month ≤ 12 ∧ 1 ≤ day ∧ day ≤ 31) :
    ∃ bytes, kdrive_dpt_encode_dpt11 capacity year month day = .ok bytes ∧
      bytes.length = 3 ∧ kdrive_dpt_decode_dpt11 bytes = .ok (year, month, day) := by
  have hc : ¬ capacity < 3 := by omega
  have hr : ¬ (year < 1990 ∨ 2089 < year ∨ month < 1 ∨ 12 < month ∨ day < 1 ∨ 31 < day) := by
    omega
  have hv : ¬ (day.toNat % 32 < 1 ∨ month.toNat % 16 < 1 ∨ 12 < month.toNat % 16) := by omega
  refine ⟨[day.toNat, month.toNat, (year % 100).toNat],
    by simp only [kdrive_dpt_encode_dpt11, if_neg hc, if_neg hr], rfl, ?_⟩
  simp only [kdrive_dpt_decode_dpt11, if_neg hv, Except.ok.injEq, Prod.mk.injEq]
  refine ⟨?_, ?_, ?_⟩
  · split_ifs <;> omega
  · omega
  · omega

theorem decode_encode_dpt15 (capacity : Nat) (hcap : 4 ≤ capacity) (a : EntranceAccess)
    (h : 0 ≤ a.accessCode ∧ a.accessCode ≤ 16777215 ∧ 0 ≤ a.index ∧ a.index ≤ 15) :
    ∃ bytes, kdrive_dpt_encode_dpt15 capacity a = .ok bytes ∧ bytes.length = 4 ∧
      kdrive_dpt_decode_dpt15 bytes = .ok a := by
  have hc : ¬ capacity < 4 := by omega
  have hr : ¬ (a.accessCode < 0 ∨ 16777215 < a.accessCode ∨ a.index < 0 ∨ 15 < a.index) := by
    omega
  refine ⟨[a.accessCode.toNat / 65536 % 256, a.accessCode.toNat / 256 % 256,
      a.accessCode.toNat % 256,
      bit a.error * 128 + bit a.permission * 64 + bit a.direction * 32 +
        bit a.encrypted * 16 + a.index.toNat],
    by simp only [kdrive_dpt_encode_dpt15, if_neg hc, if_neg hr], rfl, ?_⟩
  obtain ⟨code, e, p, d, c, index⟩ := a
  simp only at h
  simp only [kdrive_dpt_decode_dpt15, Except.ok.injEq, EntranceAccess.mk.injEq]
  cases e <;> cases p <;> cases d <;> cases c <;>
    simp only [bit, if_true, if_false, Bool.false_eq_true, beq_iff_eq, beq_eq_false_iff_ne,
      ne_eq] <;>
    refine ⟨?_, ?_, ?_, ?_, ?_, ?_⟩ <;> omega

/-- C1 as amended: for every encode call whose value is in the valid range of
its kind `N` (for DPT 9: a value the KNX floating form represents exactly),
`kdrive_dpt_encode_dptN` produces a payload of the size of the kind and
`kdrive_dpt_decode_dptN` on that payload yields the value again.  A DPT-16
string comes back as the 14-character field padded with NUL, from which the
string itself is read once a terminator is put behind it. -/
theorem codec_round_trip (clock : Clock) (call : EncodeCall) (capacity : Nat)
    (hcap : payload_size call.kind ≤ capacity) (hrange : call.in_range clock) :
    ∃ bytes, kdrive_dpt_encode clock call capacity = .ok bytes ∧
      bytes.length = payload_size call.kind ∧
      kdrive_dpt_decode.decode call.kind bytes = some (.ok (call.value clock)) ∧
      ∀ str, call = .dpt16 str → c_string (bytes ++ [0]) = some str := by
  cases call with
  | dpt1 value =>
    have hc : ¬ capacity < 1 := by simp only [EncodeCall.kind, payload_size] at hcap; omega
    refine ⟨[bit value], ?_, rfl, ?_, by simp⟩
    · simp only [kdrive_dpt_encode, kdrive_dpt_encode_dpt1, if_neg hc]
    · cases value <;> rfl
  | dpt2 control value =>
    have hc : ¬ capacity < 1 := by simp only [EncodeCall.kind, payload_size] at hcap; omega
    refine ⟨[2 * bit control + bit value], ?_, rfl, ?_, by simp⟩
    · simp only [kdrive_dpt_encode, kdrive_dpt_encode_dpt2, if_neg hc]
    · cases control <;> cases value <;> rfl
  | dpt3 control value =>
    have hc : ¬ capacity < 1 := by simp only [EncodeCall.kind, payload_size] at hcap; omega
    have hv : ¬ 7 < value := by simp only [EncodeCall.in_range] at hrange; omega
    refine ⟨[8 * bit control + value], ?_, rfl, ?_, by simp⟩
    · simp only [kdrive_dpt_encode, kdrive_dpt_encode_dpt3, if_neg hc, if_neg hv]
    · cases control <;>
        simp [DecodeLib.decode, kdrive_dpt_decode, kdrive_dpt_decode_dpt3, Except.map, bit,
          EncodeCall.value, EncodeCall.kind] <;> omega
  | dpt4 character =>
    have hc : ¬ capacity < 1 := by simp only [EncodeCall.kind, payload_size] at hcap; omega
    have hv : character ≤ 255 := hrange
    refine ⟨[character % 256], ?_, rfl, ?_, by simp⟩
    · simp only [kdrive_dpt_encode, kdrive_dpt_encode_dpt4, if_neg hc]
    · simp [DecodeLib.decode, kdrive_dpt_decode, kdrive_dpt_decode_dpt4, Except.map,
        EncodeCall.value, EncodeCall.kind]
      omega
  | dpt5 value =>
    have hc : ¬ capacity < 1 := by simp only [EncodeCall.kind, payload_size] at hcap; omega
    have hv : value ≤ 255 := hrange
    refine ⟨[value % 256], ?_, rfl, ?_, by simp⟩
    · simp only [kdrive_dpt_encode, kdrive_dpt_encode_dpt5, if_neg hc]
    · simp [DecodeLib.decode, kdrive_dpt_decode, kdrive_dpt_decode_dpt5, Except.map,
        EncodeCall.value, EncodeCall.kind]
      omega
  | dpt6 value =>
    have hc : ¬ capacity < 1 := by simp only [EncodeCall.kind, payload_size] at hcap; omega
    have hv : -128 ≤ value ∧ value ≤ 127 := hrange
    refine ⟨[to_unsigned 8 value], ?_, rfl, ?_, by simp⟩
    · simp only [kdrive_dpt_encode, kdrive_dpt_encode_dpt6, if_neg hc]
    · simp [DecodeLib.decode, kdrive_dpt_decode, kdrive_dpt_decode_dpt6, Except.map,
        EncodeCall.value, EncodeCall.kind, to_signed_to_unsigned_8 value hv.1 hv.2]
  | dpt7 value =>
    have hc : ¬ capacity < 2 := by simp only [EncodeCall.kind, payload_size] at hcap; omega
    have hv : value ≤ 65535 := hrange
    refine ⟨be16 value, ?_, rfl, ?_, by simp⟩
    · simp only [kdrive_dpt_encode, kdrive_dpt_encode_dpt7, if_neg hc]
    · simp [DecodeLib.decode, kdrive_dpt_decode, kdrive_dpt_decode_dpt7, Except.map, be16,
        EncodeCall.value, EncodeCall.kind, of_be16_be16 value (by omega)]
  | dpt8 value =>
    have hc : ¬ capacity < 2 := by simp only [EncodeCall.kind, payload_size] at hcap; omega
    have hv : -32768 ≤ value ∧ value ≤ 32767 := hrange
    refine ⟨be16 (to_unsigned 16 value), ?_, rfl, ?_, by simp⟩
    · simp only [kdrive_dpt_encode, kdrive_dpt_encode_dpt8, if_neg hc]
    · simp [DecodeLib.decode, kdrive_dpt_decode, kdrive_dpt_decode_dpt8, Except.map, be16,
        EncodeCall.value, EncodeCall.kind, of_be16_be16 _ (to_unsigned_lt_16 value),
        to_signed_to_unsigned_16 value hv.1 hv.2]
  | dpt9 value =>
    have hc : 2 ≤ capacity := by simp only [EncodeCall.kind, payload_size] at hcap; omega
    obtain ⟨m, e, hlow, hhigh, he, hv⟩ := hrange
    obtain ⟨b0, b1, henc, hdec⟩ := decode_encode_dpt9 capacity hc value m e hlow hhigh he hv
    refine ⟨[b0, b1], ?_, rfl, ?_, by simp⟩
    · simp only [kdrive_dpt_encode, henc]
    · simp [DecodeLib.decode, kdrive_dpt_decode, hdec, Except.map, EncodeCall.value,
        EncodeCall.kind]
  | dpt10_local =>
    have hc : 3 ≤ capacity := by simp only [EncodeCall.kind, payload_size] at hcap; omega
    obtain ⟨bytes, henc, hlen, hdec⟩ := decode_encode_dpt10 capacity hc _ _ _ _ hrange
    refine ⟨bytes, ?_, hlen, ?_, by simp⟩
    · simp only [kdrive_dpt_encode, kdrive_dpt_encode_dpt10_local, henc]
    · simp [DecodeLib.decode, kdrive_dpt_decode, hdec, Except.map, EncodeCall.value,
        EncodeCall.kind]
  | dpt10_utc =>
    have hc : 3 ≤ capacity := by simp only [EncodeCall.kind, payload_size] at hcap; omega
    obtain ⟨bytes, henc, hlen, hdec⟩ := decode_encode_dpt10 capacity hc _ _ _ _ hrange
    refine ⟨bytes, ?_, hlen, ?_, by simp⟩
    · simp only [kdrive_dpt_encode, kdrive_dpt_encode_dpt10_utc, henc]
    · simp [DecodeLib.decode, kdrive_dpt_decode, hdec, Except.map, EncodeCall.value,
        EncodeCall.kind]
  | dpt10 day hour minute second =>
    have hc : 3 ≤ capacity := by simp only [EncodeCall.kind, payload_size] at hcap; omega
    obtain ⟨bytes, henc, hlen, hdec⟩ := decode_encode_dpt10 capacity hc day hour minute second hrange
    refine ⟨bytes, ?_, hlen, ?_, by simp⟩
    · simp only [kdrive_dpt_encode, henc]
    · simp [DecodeLib.decode, kdrive_dpt_decode, hdec, Except.map, EncodeCall.value,
        EncodeCall.kind]
  | dpt11_local =>
    have hc : 3 ≤ capacity := by simp only [EncodeCall.kind, payload_size] at hcap; omega
    obtain ⟨bytes, henc, hlen, hdec⟩ := decode_encode_dpt11 capacity hc _ _ _ hrange
    refine ⟨bytes, ?_, hlen, ?_, by simp⟩
    · simp only [kdrive_dpt_encode, kdrive_dpt_encode_dpt11_local, henc]
    · simp [DecodeLib.decode, kdrive_dpt_decode, hdec, Except.map, EncodeCall.value,
        EncodeCall.kind]
  | dpt11_utc =>
    have hc : 3 ≤ capacity := by simp only [EncodeCall.kind, payload_size] at hcap; omega
    obtain ⟨bytes, henc, hlen, hdec⟩ := decode_encode_dpt11 capacity hc _ _ _ hrange
    refine ⟨bytes, ?_, hlen, ?_, by simp⟩
    · simp only [kdrive_dpt_encode, kdrive_dpt_encode_dpt11_utc, henc]
    · simp [DecodeLib.decode, kdrive_dpt_decode, hdec, Except.map, EncodeCall.value,
        EncodeCall.kind]
  | dpt11 year month day =>
    have hc : 3 ≤ capacity := by simp only [EncodeCall.kind, payload_size] at hcap; omega
    obtain ⟨bytes, henc, hlen, hdec⟩ := decode_encode_dpt11 capacity hc year month day hrange
    refine ⟨bytes, ?_, hlen, ?_, by simp⟩
    · simp only [kdrive_dpt_encode, henc]
    · simp [DecodeLib.decode, kdrive_dpt_decode, hdec, Except.map, EncodeCall.value,
        EncodeCall.kind]
  | dpt12 value =>
    have hc : ¬ capacity < 4 := by simp only [EncodeCall.kind, payload_size] at hcap; omega
    have hv : value ≤ 4294967295 := hrange
    refine ⟨be32 value, ?_, rfl, ?_, by simp⟩
    · simp only [kdrive_dpt_encode, kdrive_dpt_encode_dpt12, if_neg hc]
    · simp [DecodeLib.decode, kdrive_dpt_decode, kdrive_dpt_decode_dpt12, Except.map, be32,
        EncodeCall.value, EncodeCall.kind, of_be32_be32 value (by omega)]
  | dpt13 value =>
    have hc : ¬ capacity < 4 := by simp only [EncodeCall.kind, payload_size] at hcap; omega
    have hv : -2147483648 ≤ value ∧ value ≤ 2147483647 := hrange
    refine ⟨be32 (to_unsigned 32 value), ?_, rfl, ?_, by simp⟩
    · simp only [kdrive_dpt_encode, kdrive_dpt_encode_dpt13, if_neg hc]
    · simp [DecodeLib.decode, kdrive_dpt_decode, decode_encode_dpt13 value hv.1 hv.2,
        Except.map, EncodeCall.value, EncodeCall.kind]
  | dpt14 value_bits =>
    have hc : ¬ capacity < 4 := by simp only [EncodeCall.kind, payload_size] at hcap; omega
    have hv : value_bits ≤ 4294967295 := hrange
    refine ⟨be32 value_bits, ?_, rfl, ?_, by simp⟩
    · simp only [kdrive_dpt_encode, kdrive_dpt_encode_dpt14, if_neg hc]
    · simp [DecodeLib.decode, kdrive_dpt_decode, kdrive_dpt_decode_dpt14, Except.map, be32,
        EncodeCall.value, EncodeCall.kind, of_be32_be32 value_bits (by omega)]
  | dpt15 accessCode error permission direction encrypted index =>
    have hc : 4 ≤ capacity := by simp only [EncodeCall.kind, payload_size] at hcap; omega
    obtain ⟨bytes, henc, hlen, hdec⟩ := decode_encode_dpt15 capacity hc
      { accessCode := accessCode, error := error, permission := permission,
        direction := direction, encrypted := encrypted, index := index } hrange
    refine ⟨bytes, ?_, hlen, ?_, by simp⟩
    · simp only [kdrive_dpt_encode, henc]
    · simp [DecodeLib.decode, kdrive_dpt_decode, hdec, Except.map, EncodeCall.value,
        EncodeCall.kind]
  | dpt16 str =>
    have hc : KDRIVE_DPT16_LENGTH ≤ capacity := by
      simp only [EncodeCall.kind, payload_size, KDRIVE_DPT16_LENGTH] at hcap ⊢; omega
    obtain ⟨henc, hdec, hstr⟩ := decode_encode_dpt16 capacity hc str hrange.1 hrange.2
    refine ⟨str ++ List.replicate (KDRIVE_DPT16_LENGTH - str.length) 0, ?_, ?_, ?_, ?_⟩
    · simp only [kdrive_dpt_encode, henc]
    · have := hrange.1
      simp only [List.length_append, List.length_replicate, EncodeCall.kind, payload_size,
        KDRIVE_DPT16_LENGTH] at this ⊢
      omega
    · simp [DecodeLib.decode, kdrive_dpt_decode, hdec, Except.map, EncodeCall.value,
        EncodeCall.kind]
    · intro str' h
      cases h
      exact hstr

/-- C1 fails on the code's codec as the specification describes it.  The value
0.125 lies in the valid range of DPT 9, is encoded as `00 0D` (mantissa 13,
exponent 0), and these two bytes decode to 0.13, not to 0.125. -/
theorem dpt9_round_trip_not_exact :
    (-671088.64 ≤ (0.125 : ℚ) ∧ (0.125 : ℚ) ≤ 670760.96) ∧
    kdrive_dpt_encode_dpt9 KDRIVE_MAX_GROUP_VALUE_LEN 0.125 = .ok [0x00, 0x0D] ∧
    kdrive_dpt_decode_dpt9 [0x00, 0x0D] = .ok 0.13 ∧
    kdrive_dpt_decode_dpt9 [0x00, 0x0D] ≠ .ok 0.125 := by
  refine ⟨by norm_num, ?_, ?_, ?_⟩
  · norm_num [kdrive_dpt_encode_dpt9, KDRIVE_MAX_GROUP_VALUE_LEN, dpt9_exponent,
      dpt9_mantissa_ok, round_nearest, to_unsigned]
    decide
  · norm_num [kdrive_dpt_decode_dpt9, to_signed]
  · norm_num [kdrive_dpt_decode_dpt9, to_signed]

/-! ### The theorems at concrete inputs -/

/-- The round trip of C1 at the sample's DPT-9 value 12.25 = 0.01 × 1225 × 2^0. -/
theorem codec_round_trip_witness :
    (payload_size (EncodeCall.dpt9 12.25).kind ≤ KDRIVE_MAX_GROUP_VALUE_LEN ∧
      (EncodeCall.dpt9 12.25).in_range clock_1970) ∧
    ∃ bytes, kdrive_dpt_encode clock_1970 (.dpt9 12.25) KDRIVE_MAX_GROUP_VALUE_LEN = .ok bytes ∧
      bytes.length = payload_size (EncodeCall.dpt9 12.25).kind ∧
      kdrive_dpt_decode.decode (EncodeCall.dpt9 12.25).kind bytes
        = some (.ok ((EncodeCall.dpt9 12.25).value clock_1970)) ∧
      ∀ str, EncodeCall.dpt9 12.25 = .dpt16 str → c_string (bytes ++ [0]) = some str :=
  have hcap : payload_size (EncodeCall.dpt9 12.25).kind ≤ KDRIVE_MAX_GROUP_VALUE_LEN := by
    decide
  have hrange : (EncodeCall.dpt9 12.25).in_range clock_1970 :=
    ⟨1225, 0, by decide, by decide, by decide, by norm_num⟩
  ⟨⟨hcap, hrange⟩,
    codec_round_trip clock_1970 (.dpt9 12.25) KDRIVE_MAX_GROUP_VALUE_LEN hcap hrange⟩

/-- The claim C3 at the first pair of `send_telegrams`: DPT 1 at `ADDR_DPT_1`. -/
theorem switch_decodes_what_was_sent_witness :
    ((send_telegrams (kdrive_dpt_encode clock_1970) 0 (List.replicate 14 0) 0)[2 * 0]?
        = some (.encode (.dpt1 true) KDRIVE_MAX_GROUP_VALUE_LEN (.ok [1])) ∧
      (send_telegrams (kdrive_dpt_encode clock_1970) 0 (List.replicate 14 0) 0)[2 * 0 + 1]?
        = some (.group_write 0 ADDR_DPT_1 [1, 0, 0, 0, 0, 0, 0, 0, 0, 0, 0, 0, 0, 0] 1) ∧
      (received_group_write ADDR_DPT_1 [1]).kdrive_ap_is_group_write
        (group_write_frame ADDR_DPT_1 [1]) = true ∧
      (received_group_write ADDR_DPT_1 [1]).kdrive_ap_get_dest
        (group_write_frame ADDR_DPT_1 [1]) = .ok ADDR_DPT_1 ∧
      (received_group_write ADDR_DPT_1 [1]).kdrive_ap_get_group_data
        (group_write_frame ADDR_DPT_1 [1])
        KDRIVE_MAX_GROUP_VALUE_LEN = .ok [1]) ∧
    ∃ e format args,
      on_telegram_callback (received_group_write ADDR_DPT_1 [1]) kdrive_dpt_decode
          (List.replicate 15 0) (group_write_frame ADDR_DPT_1 [1])
        = [.decode (EncodeCall.dpt1 true).kind [1] e,
           .logger_ex .KDRIVE_LOGGER_INFORMATION format args] :=
  ⟨⟨rfl, rfl, rfl, rfl, rfl⟩,
    switch_decodes_what_was_sent (kdrive_dpt_encode clock_1970) 0 (List.replicate 14 0) 0
      (received_group_write ADDR_DPT_1 [1]) kdrive_dpt_decode (List.replicate 15 0)
      (group_write_frame ADDR_DPT_1 [1]) [1] 0
      (.dpt1 true) KDRIVE_MAX_GROUP_VALUE_LEN (.ok [1]) ADDR_DPT_1
      [1, 0, 0, 0, 0, 0, 0, 0, 0, 0, 0, 0, 0, 0] 1 rfl rfl rfl rfl rfl⟩

/-- The claim C6 when the sample's own string arrives and the local array
`value` is full of non-zero garbage before the decode call. -/
theorem dpt16_string_terminated_witness :
    ((List.replicate 15 0xAA).length = KDRIVE_DPT16_LENGTH + 1 ∧
      (∀ bytes, kdrive_dpt_decode.dpt16 sample_string = .ok bytes →
        bytes.length = KDRIVE_DPT16_LENGTH) ∧
      (received_group_write ADDR_DPT_16 sample_string).kdrive_ap_is_group_write
        (group_write_frame ADDR_DPT_16 sample_string) = true ∧
      (received_group_write ADDR_DPT_16 sample_string).kdrive_ap_get_dest
        (group_write_frame ADDR_DPT_16 sample_string) = .ok ADDR_DPT_16 ∧
      (received_group_write ADDR_DPT_16 sample_string).kdrive_ap_get_group_data
        (group_write_frame ADDR_DPT_16 sample_string) KDRIVE_MAX_GROUP_VALUE_LEN
        = .ok sample_string) ∧
    ∃ e str,
      on_telegram_callback (received_group_write ADDR_DPT_16 sample_string)
          kdrive_dpt_decode (List.replicate 15 0xAA)
          (group_write_frame ADDR_DPT_16 sample_string)
        = [.decode 16 sample_string e,
           .logger_ex .KDRIVE_LOGGER_INFORMATION "[character string] %s" [.s (some str)]] ∧
      str.length ≤ KDRIVE_DPT16_LENGTH :=
  have hdecode : ∀ bytes, kdrive_dpt_decode.dpt16 sample_string = .ok bytes →
      bytes.length = KDRIVE_DPT16_LENGTH := by
    intro bytes h
    have h2 : kdrive_dpt_decode.dpt16 sample_string = .ok sample_string := by decide
    rw [h2] at h
    cases h
    decide
  ⟨⟨rfl, hdecode, rfl, rfl, by decide⟩,
    dpt16_string_terminated (received_group_write ADDR_DPT_16 sample_string)
      kdrive_dpt_decode (List.replicate 15 0xAA) (group_write_frame ADDR_DPT_16 sample_string)
      sample_string rfl hdecode rfl rfl (by decide)⟩

/-- The amended claim C7 at two clock readings one second apart. -/
theorem dpt10_clock_determines_bytes_witness :
    (3 ≤ KDRIVE_MAX_GROUP_VALUE_LEN ∧
      (clock_2012 11).localtime.time_in_range ∧ (clock_2012 12).localtime.time_in_range ∧
      (clock_2012 11).utc.time_in_range ∧ (clock_2012 12).utc.time_in_range) ∧
    (kdrive_dpt_encode_dpt10_local (clock_2012 11) KDRIVE_MAX_GROUP_VALUE_LEN
        = kdrive_dpt_encode_dpt10_local (clock_2012 12) KDRIVE_MAX_GROUP_VALUE_LEN
      ↔ (clock_2012 11).localtime.same_time (clock_2012 12).localtime) ∧
    (kdrive_dpt_encode_dpt10_utc (clock_2012 11) KDRIVE_MAX_GROUP_VALUE_LEN
        = kdrive_dpt_encode_dpt10_utc (clock_2012 12) KDRIVE_MAX_GROUP_VALUE_LEN
      ↔ (clock_2012 11).utc.same_time (clock_2012 12).utc) :=
  ⟨⟨by decide, by decide, by decide, by decide, by decide⟩,
    dpt10_clock_determines_bytes (clock_2012 11) (clock_2012 12) KDRIVE_MAX_GROUP_VALUE_LEN
      (by decide) (by decide) (by decide) (by decide) (by decide)⟩

/-- The claim C8 at the value the sample sends, -30000, whose DPT-13 payload is
`FF FF 8A D0`. -/
theorem dpt13_logged_signed_witness :
    ((-2147483648 : Int) ≤ -30000 ∧ (-30000 : Int) ≤ 2147483647 ∧
      (received_group_write ADDR_DPT_13 [0xFF, 0xFF, 0x8A, 0xD0]).kdrive_ap_is_group_write
        (group_write_frame ADDR_DPT_13 [0xFF, 0xFF, 0x8A, 0xD0]) = true ∧
      (received_group_write ADDR_DPT_13 [0xFF, 0xFF, 0x8A, 0xD0]).kdrive_ap_get_dest
        (group_write_frame ADDR_DPT_13 [0xFF, 0xFF, 0x8A, 0xD0]) = .ok ADDR_DPT_13) ∧
    ∃ bytes, kdrive_dpt_encode_dpt13 KDRIVE_MAX_GROUP_VALUE_LEN (-30000) = .ok bytes ∧
      ((received_group_write ADDR_DPT_13 [0xFF, 0xFF, 0x8A, 0xD0]).kdrive_ap_get_group_data
          (group_write_frame ADDR_DPT_13 [0xFF, 0xFF, 0x8A, 0xD0])
          KDRIVE_MAX_GROUP_VALUE_LEN = .ok bytes →
        on_telegram_callback (received_group_write ADDR_DPT_13 [0xFF, 0xFF, 0x8A, 0xD0])
            kdrive_dpt_decode (List.replicate 15 0)
            (group_write_frame ADDR_DPT_13 [0xFF, 0xFF, 0x8A, 0xD0])
          = [.decode 13 bytes .KDRIVE_ERROR_NONE,
             .logger_ex .KDRIVE_LOGGER_INFORMATION "[4 byte signed] %d" [.d (-30000)]]) :=
  ⟨⟨by decide, by decide, rfl, rfl⟩,
    dpt13_logged_signed (-30000) (by decide) (by decide)
      (received_group_write ADDR_DPT_13 [0xFF, 0xFF, 0x8A, 0xD0]) (List.replicate 15 0)
      (group_write_frame ADDR_DPT_13 [0xFF, 0xFF, 0x8A, 0xD0]) rfl rfl⟩

/-- The claim C9 for DPT 7 on a one-byte buffer. -/
theorem decode_short_buffer_fails_witness :
    (1 ≤ 7 ∧ 7 ≤ 16 ∧ [0x12].length < payload_size 7) ∧
    kdrive_dpt_decode.decode 7 [0x12] = some (.error .InvalidBufferLength) :=
  ⟨⟨by decide, by decide, by decide⟩,
    decode_short_buffer_fails 7 [0x12] (by decide) (by decide) (by decide)⟩

/-! ## The samples' literal values on the wire -/

/-- The first bytes of the buffer after a write are the bytes written. -/
theorem take_store (dst src : List Nat) : (store dst src).take src.length = src := by
  simp [store]

/-- C11: `kdrive_dpt_encode_dpt7` with `0xAFFE` writes exactly the bytes
`AF FE` and `kdrive_dpt_encode_dpt8` with -1024 writes exactly `FC 00`, each
reporting the length 2; these are the calls `send_telegrams` makes, and the
group writes after them pass the two bytes with the length 2. -/
theorem dpt7_dpt8_big_endian (clock : Clock) (ap : Int) (uninit_buffer : List Nat)
    (uninit_length : Nat) :
    kdrive_dpt_encode_dpt7 KDRIVE_MAX_GROUP_VALUE_LEN 0xAFFE = .ok [0xAF, 0xFE] ∧
    kdrive_dpt_encode_dpt8 KDRIVE_MAX_GROUP_VALUE_LEN (-1024) = .ok [0xFC, 0x00] ∧
    (send_telegrams (kdrive_dpt_encode clock) ap uninit_buffer uninit_length)[12]?
      = some (.encode (.dpt7 0xAFFE) KDRIVE_MAX_GROUP_VALUE_LEN (.ok [0xAF, 0xFE])) ∧
    (∃ buffer, (send_telegrams (kdrive_dpt_encode clock) ap uninit_buffer uninit_length)[13]?
        = some (.group_write ap ADDR_DPT_7 buffer 2) ∧ buffer.take 2 = [0xAF, 0xFE]) ∧
    (send_telegrams (kdrive_dpt_encode clock) ap uninit_buffer uninit_length)[14]?
      = some (.encode (.dpt8 (-1024)) KDRIVE_MAX_GROUP_VALUE_LEN (.ok [0xFC, 0x00])) ∧
    (∃ buffer, (send_telegrams (kdrive_dpt_encode clock) ap uninit_buffer uninit_length)[15]?
        = some (.group_write ap ADDR_DPT_8 buffer 2) ∧ buffer.take 2 = [0xFC, 0x00]) := by
  refine ⟨by decide, by decide, rfl, ⟨_, rfl, ?_⟩, rfl, ⟨_, rfl, ?_⟩⟩
  · exact take_store _ [0xAF, 0xFE]
  · exact take_store _ [0xFC, 0x00]

/-- C12: encoding the string "Weinzierl Eng " as DPT 16 yields exactly 14
bytes, the ASCII codes of its 14 characters, with no terminating NUL among
them; the reported length 14 does not exceed `KDRIVE_MAX_GROUP_VALUE_LEN`.
This is the call `send_telegrams` makes, and the group write after it passes
these 14 bytes. -/
theorem dpt16_weinzierl_eng (clock : Clock) (ap : Int) (uninit_buffer : List Nat)
    (uninit_length : Nat) :
    kdrive_dpt_encode_dpt16 KDRIVE_MAX_GROUP_VALUE_LEN (c_literal "Weinzierl Eng ")
      = .ok [0x57, 0x65, 0x69, 0x6E, 0x7A, 0x69, 0x65, 0x72, 0x6C, 0x20, 0x45, 0x6E, 0x67, 0x20] ∧
    [0x57, 0x65, 0x69, 0x6E, 0x7A, 0x69, 0x65, 0x72, 0x6C, 0x20, 0x45, 0x6E, 0x67, 0x20].length
      = 14 ∧
    14 ≤ KDRIVE_MAX_GROUP_VALUE_LEN ∧
    0 ∉ [0x57, 0x65, 0x69, 0x6E, 0x7A, 0x69, 0x65, 0x72, 0x6C, 0x20, 0x45, 0x6E, 0x67, 0x20] ∧
    (send_telegrams (kdrive_dpt_encode clock) ap uninit_buffer uninit_length)[38]?
      = some (.encode (.dpt16 (c_literal "Weinzierl Eng ")) KDRIVE_MAX_GROUP_VALUE_LEN
          (.ok [0x57, 0x65, 0x69, 0x6E, 0x7A, 0x69, 0x65, 0x72, 0x6C, 0x20, 0x45, 0x6E, 0x67,
            0x20])) ∧
    (∃ buffer, (send_telegrams (kdrive_dpt_encode clock) ap uninit_buffer uninit_length)[39]?
        = some (.group_write ap ADDR_DPT_16 buffer 14) ∧
      buffer.take 14
        = [0x57, 0x65, 0x69, 0x6E, 0x7A, 0x69, 0x65, 0x72, 0x6C, 0x20, 0x45, 0x6E, 0x67,
            0x20]) := by
  refine ⟨by decide, rfl, by decide, by decide, rfl, ⟨_, rfl, ?_⟩⟩
  exact take_store _
    [0x57, 0x65, 0x69, 0x6E, 0x7A, 0x69, 0x65, 0x72, 0x6C, 0x20, 0x45, 0x6E, 0x67, 0x20]

/-! ## The telegram callbacks -/

/-- C13: in the datapoint sample `on_telegram_callback` produces log output for
a telegram if and only if `kdrive_ap_is_group_write` holds, `kdrive_ap_get_dest`
succeeds and `kdrive_ap_get_group_data` succeeds, and does nothing at all
otherwise.  The library `lib` reports any message code for the telegram
(`L_Data.con` as well as `L_Data.ind`): the callback never asks for it. -/
theorem dpt_callback_logs_iff_group_write (lib : AccessPortLib) (dpt : DecodeLib)
    (uninit_value telegram : List Nat) :
    ((∃ e ∈ on_telegram_callback lib.toTelegramLib dpt uninit_value telegram,
        e.is_log = true) ↔
      (lib.kdrive_ap_is_group_write telegram = true ∧
        (∃ address, lib.kdrive_ap_get_dest telegram = .ok address) ∧
        ∃ data, lib.kdrive_ap_get_group_data telegram KDRIVE_MAX_GROUP_VALUE_LEN
          = .ok data)) ∧
    (¬ (lib.kdrive_ap_is_group_write telegram = true ∧
        (∃ address, lib.kdrive_ap_get_dest telegram = .ok address) ∧
        ∃ data, lib.kdrive_ap_get_group_data telegram KDRIVE_MAX_GROUP_VALUE_LEN
          = .ok data) →
      on_telegram_callback lib.toTelegramLib dpt uninit_value telegram = []) := by
  unfold on_telegram_callback
  cases hg : lib.kdrive_ap_is_group_write telegram with
  | false => simp
  | true =>
    cases hd : lib.kdrive_ap_get_dest telegram with
    | error _ => simp
    | ok address =>
      cases hdata : lib.kdrive_ap_get_group_data telegram KDRIVE_MAX_GROUP_VALUE_LEN with
      | error _ => simp
      | ok data =>
        simp only [if_true, true_and, Except.ok.injEq, exists_eq', and_self, iff_true,
          not_true_eq_false, false_implies, and_true]
        rcases on_telegram_switch_shape dpt uninit_value address data with
          ⟨k, e, f, a, hs⟩ | ⟨a, hs⟩
        · rw [hs]
          exact ⟨_, List.mem_cons_of_mem _ (List.mem_singleton.mpr rfl), rfl⟩
        · rw [hs]
          exact ⟨_, List.mem_cons_self _ _, rfl⟩

/-- The message code read into a local that starts at 0 is `L_Data.ind` exactly
when the library yields that code. -/
theorem message_code_ind_iff (r : Except error_t Nat) :
    out_param 0 r = KDRIVE_CEMI_L_DATA_IND ↔ r = .ok KDRIVE_CEMI_L_DATA_IND := by
  cases r with
  | error e => simp [out_param, KDRIVE_CEMI_L_DATA_IND]
  | ok v => simp [out_param]

/-- C14: in the IP sample (`on_telegram`) and in the USB sample
(`on_telegram_callback`, for either value of `is_rf`) the callback logs the
`A_GroupValue_Write` line with `address` and dumps `data` if and only if the
message code of the telegram is `KDRIVE_CEMI_L_DATA_IND`, the telegram is a
group write, `kdrive_ap_get_dest` yields `address` and
`kdrive_ap_get_group_data` yields `data`. -/
theorem group_value_write_logged_iff (lib : AccessPortLib) (is_rf : Bool)
    (sn telegram : List Nat) (address : Nat) (data : List Nat) :
    ((Effect.logger_ex .KDRIVE_LOGGER_INFORMATION "A_GroupValue_Write: 0x%04x " [.x address]
          ∈ Ip.on_telegram lib telegram ∧
        Effect.logger_dump .KDRIVE_LOGGER_INFORMATION "A_GroupValue_Write Data :" data
          ∈ Ip.on_telegram lib telegram) ↔
      (lib.kdrive_ap_get_message_code telegram = .ok KDRIVE_CEMI_L_DATA_IND ∧
        lib.kdrive_ap_is_group_write telegram = true ∧
        lib.kdrive_ap_get_dest telegram = .ok address ∧
        lib.kdrive_ap_get_group_data telegram KDRIVE_MAX_GROUP_VALUE_LEN = .ok data)) ∧
    ((Effect.logger_ex .KDRIVE_LOGGER_INFORMATION "A_GroupValue_Write: 0x%04x " [.x address]
          ∈ Usb.on_telegram_callback is_rf lib sn telegram ∧
        Effect.logger_dump .KDRIVE_LOGGER_INFORMATION "A_GroupValue_Write Data :" data
          ∈ Usb.on_telegram_callback is_rf lib sn telegram) ↔
      (lib.kdrive_ap_get_message_code telegram = .ok KDRIVE_CEMI_L_DATA_IND ∧
        lib.kdrive_ap_is_group_write telegram = true ∧
        lib.kdrive_ap_get_dest telegram = .ok address ∧
        lib.kdrive_ap_get_group_data telegram KDRIVE_MAX_GROUP_VALUE_LEN = .ok data)) := by
  constructor
  · unfold Ip.on_telegram
    by_cases hm : out_param 0 (lib.kdrive_ap_get_message_code telegram) = KDRIVE_CEMI_L_DATA_IND
    · have hm' := (message_code_ind_iff _).mp hm
      cases hg : lib.kdrive_ap_is_group_write telegram with
      | false => simp [hm]
      | true =>
        cases hd : lib.kdrive_ap_get_dest telegram with
        | error _ => simp [hm]
        | ok a =>
          cases hdata : lib.kdrive_ap_get_group_data telegram KDRIVE_MAX_GROUP_VALUE_LEN with
          | error _ => simp [hm]
          | ok d => simp [hm', out_param, eq_comm]
    · have hm' : ¬ lib.kdrive_ap_get_message_code telegram = .ok KDRIVE_CEMI_L_DATA_IND :=
        fun h => hm ((message_code_ind_iff _).mpr h)
      simp [hm, hm']
  · unfold Usb.on_telegram_callback
    by_cases hm : out_param 0 (lib.kdrive_ap_get_message_code telegram) = KDRIVE_CEMI_L_DATA_IND
    · have hm' := (message_code_ind_iff _).mp hm
      cases hg : lib.kdrive_ap_is_group_write telegram with
      | false =>
        cases is_rf <;> cases lib.kdrive_ap_get_serial_number telegram <;> simp [hm]
      | true =>
        cases hd : lib.kdrive_ap_get_dest telegram with
        | error _ =>
          cases is_rf <;> cases lib.kdrive_ap_get_serial_number telegram <;> simp [hm]
        | ok a =>
          cases hdata : lib.kdrive_ap_get_group_data telegram KDRIVE_MAX_GROUP_VALUE_LEN with
          | error _ =>
            cases is_rf <;> cases lib.kdrive_ap_get_serial_number telegram <;> simp [hm]
          | ok d =>
            cases is_rf <;> cases lib.kdrive_ap_get_serial_number telegram <;>
              simp [hm', out_param, eq_comm]
    · have hm' : ¬ lib.kdrive_ap_get_message_code telegram = .ok KDRIVE_CEMI_L_DATA_IND :=
        fun h => hm ((message_code_ind_iff _).mpr h)
      simp [hm, hm']

/-- C15: in the USB sample `kdrive_ap_get_serial_number` is called only for a
telegram whose message code is `L_Data.ind` and only when `is_rf` is set; a
serial number is logged only when that call succeeds; and with `is_rf` as
shipped (0) no execution of `on_telegram_callback` makes the call. -/
theorem serial_number_only_for_rf (lib : AccessPortLib) (is_rf : Bool)
    (sn telegram : List Nat) :
    (Effect.call (.kdrive_ap_get_serial_number telegram) ∈ Usb.on_telegram_callback is_rf lib sn telegram →
      lib.kdrive_ap_get_message_code telegram = .ok KDRIVE_CEMI_L_DATA_IND ∧ is_rf = true) ∧
    (∀ dumped, Effect.logger_dump .KDRIVE_LOGGER_INFORMATION "Serial Number :" dumped
        ∈ Usb.on_telegram_callback is_rf lib sn telegram →
      Effect.call (.kdrive_ap_get_serial_number telegram) ∈ Usb.on_telegram_callback is_rf lib sn telegram ∧
      ∃ written, lib.kdrive_ap_get_serial_number telegram = .ok written ∧
        dumped = (store sn written).take KDRIVE_SN_LEN) ∧
    (∀ t, Effect.call (.kdrive_ap_get_serial_number t) ∉ Usb.on_telegram_callback Usb.is_rf lib sn telegram) := by
  refine ⟨?_, ?_, ?_⟩
  · unfold Usb.on_telegram_callback
    by_cases hm : out_param 0 (lib.kdrive_ap_get_message_code telegram) = KDRIVE_CEMI_L_DATA_IND
    · have hm' := (message_code_ind_iff _).mp hm
      cases is_rf
      · cases lib.kdrive_ap_is_group_write telegram <;>
          cases lib.kdrive_ap_get_dest telegram <;>
          cases lib.kdrive_ap_get_group_data telegram KDRIVE_MAX_GROUP_VALUE_LEN <;>
          simp [hm]
      · intro _
        exact ⟨hm', rfl⟩
    · simp [hm]
  · intro dumped
    unfold Usb.on_telegram_callback
    by_cases hm : out_param 0 (lib.kdrive_ap_get_message_code telegram) = KDRIVE_CEMI_L_DATA_IND
    · cases is_rf <;>
        cases lib.kdrive_ap_is_group_write telegram <;>
        cases lib.kdrive_ap_get_dest telegram <;>
        cases lib.kdrive_ap_get_group_data telegram KDRIVE_MAX_GROUP_VALUE_LEN <;>
        cases lib.kdrive_ap_get_serial_number telegram <;>
        simp [hm]
    · simp [hm]
  · intro t
    unfold Usb.on_telegram_callback
    by_cases hm : out_param 0 (lib.kdrive_ap_get_message_code telegram) = KDRIVE_CEMI_L_DATA_IND
    · cases lib.kdrive_ap_is_group_write telegram <;>
        cases lib.kdrive_ap_get_dest telegram <;>
        cases lib.kdrive_ap_get_group_data telegram KDRIVE_MAX_GROUP_VALUE_LEN <;>
        simp [hm, Usb.is_rf]
    · simp [hm]

/-- C16: `read_group_object` makes the library call once and then reports
exactly one outcome.  It logs the `A_GroupValue_Response` address and data if
and only if the returned telegram length is positive, the telegram is a group
response, and destination and group-data extraction both succeed; in every
other case it prints the timeout message and logs nothing. -/
theorem read_group_object_one_outcome (lib : AccessPortLib) (ap : Int) (address : Nat) :
    (∀ dest data,
      Ip.read_group_object lib ap address
        = [.call (.kdrive_ap_read_group_object ap address MAX_BUFFER_SIZE 1000),
           .logger_ex .KDRIVE_LOGGER_INFORMATION "A_GroupValue_Response: 0x%04x " [.x dest],
           .logger_dump .KDRIVE_LOGGER_INFORMATION "A_GroupValue_Response Data :" data] ↔
      (0 < (lib.kdrive_ap_read_group_object ap address MAX_BUFFER_SIZE 1000).length ∧
        lib.kdrive_ap_is_group_response
          (lib.kdrive_ap_read_group_object ap address MAX_BUFFER_SIZE 1000) = true ∧
        lib.kdrive_ap_get_dest
          (lib.kdrive_ap_read_group_object ap address MAX_BUFFER_SIZE 1000) = .ok dest ∧
        lib.kdrive_ap_get_group_data
          (lib.kdrive_ap_read_group_object ap address MAX_BUFFER_SIZE 1000)
          KDRIVE_MAX_GROUP_VALUE_LEN = .ok data)) ∧
    ((∃ dest data,
        Ip.read_group_object lib ap address
          = [.call (.kdrive_ap_read_group_object ap address MAX_BUFFER_SIZE 1000),
             .logger_ex .KDRIVE_LOGGER_INFORMATION "A_GroupValue_Response: 0x%04x " [.x dest],
             .logger_dump .KDRIVE_LOGGER_INFORMATION "A_GroupValue_Response Data :" data]) ∨
      ∃ shown,
        Ip.read_group_object lib ap address
          = [.call (.kdrive_ap_read_group_object ap address MAX_BUFFER_SIZE 1000),
             .printf "A_GroupValue_Response: 0x%04x - timeout" [.x shown]]) := by
  unfold Ip.read_group_object
  by_cases hlen : 0 < (lib.kdrive_ap_read_group_object ap address MAX_BUFFER_SIZE 1000).length
  · cases hr : lib.kdrive_ap_is_group_response
        (lib.kdrive_ap_read_group_object ap address MAX_BUFFER_SIZE 1000) with
    | false => simp [hlen, hr]
    | true =>
      simp only [hlen, hr, and_self, if_true]
      cases hd : lib.kdrive_ap_get_dest
          (lib.kdrive_ap_read_group_object ap address MAX_BUFFER_SIZE 1000) with
      | error _ => simp
      | ok a =>
        cases hdata : lib.kdrive_ap_get_group_data
            (lib.kdrive_ap_read_group_object ap address MAX_BUFFER_SIZE 1000)
            KDRIVE_MAX_GROUP_VALUE_LEN with
        | error _ => simp
        | ok d => simp [eq_comm]
  · simp [hlen]

/-! ## The receive queue -/

/-- The loop of `send_group_value_write` started at the `k`-th receive call,
when the first empty result from there on is the `n`-th: it logs the `n`
telegrams before it in order and ends with the receive call that yields
nothing. -/
theorem receive_loop_spec (ap : Int) (recv : Nat → List Nat) :
    ∀ (n fuel k : Nat), (∀ j, j < n → recv (k + j) ≠ []) → recv (k + n) = [] → n < fuel →
      Ip.receive_loop ap recv fuel k
        = some ((List.range n).flatMap (fun j =>
            [Effect.call (.kdrive_ap_receive ap MAX_BUFFER_SIZE TELEGRAM_TIMEOUT),
             Effect.logger_dump .KDRIVE_LOGGER_INFORMATION "Received telegram from queue :"
               (recv (k + j))])
          ++ [Effect.call (.kdrive_ap_receive ap MAX_BUFFER_SIZE TELEGRAM_TIMEOUT)]) := by
  intro n
  induction n with
  | zero =>
    intro fuel k _ hzero hfuel
    obtain ⟨fuel, rfl⟩ : ∃ f, fuel = f + 1 := ⟨fuel - 1, by omega⟩
    simp only [Nat.add_zero] at hzero
    simp [Ip.receive_loop, hzero]
  | succ n ih =>
    intro fuel k hpos hzero hfuel
    obtain ⟨fuel, rfl⟩ : ∃ f, fuel = f + 1 := ⟨fuel - 1, by omega⟩
    have h0 : recv k ≠ [] := by simpa using hpos 0 (by omega)
    have h0' : (recv k).length ≠ 0 := by
      intro h
      exact h0 (List.length_eq_zero.mp h)
    have hrec := ih fuel (k + 1)
      (fun j hj => by simpa [Nat.add_assoc, Nat.add_comm 1 j] using hpos (j + 1) (by omega))
      (by simpa [Nat.add_assoc, Nat.add_comm 1 n] using hzero) (by omega)
    simp only [Ip.receive_loop, if_pos h0', hrec, Option.map_some']
    simp [List.range_succ_eq_map, List.flatMap_map, Nat.add_assoc, Nat.add_comm 1,
      Function.comp_def]

/-- C17: for every sequence of `kdrive_ap_receive` results whose first empty
one is at position `n`, `send_group_value_write` returns (any fuel above `n`
is enough) after one 1-byte group write, enabling the queue, `n + 1` receive
calls of which the first `n` are each followed by the log of the telegram just
received, in arrival order, and disabling the queue. -/
theorem send_group_value_write_trace (recv : Nat → List Nat) (n fuel : Nat) (ap : Int)
    (address value : Nat) (hpos : ∀ k, k < n → recv k ≠ []) (hzero : recv n = [])
    (hfuel : n < fuel) :
    Ip.send_group_value_write recv fuel ap address value
      = some ([Effect.call (.kdrive_ap_group_write ap address [value] 1),
           Effect.call (.kdrive_ap_enable_queue ap true)]
          ++ (List.range n).flatMap (fun k =>
            [Effect.call (.kdrive_ap_receive ap MAX_BUFFER_SIZE TELEGRAM_TIMEOUT),
             Effect.logger_dump .KDRIVE_LOGGER_INFORMATION "Received telegram from queue :"
               (recv k)])
          ++ [Effect.call (.kdrive_ap_receive ap MAX_BUFFER_SIZE TELEGRAM_TIMEOUT),
              Effect.call (.kdrive_ap_enable_queue ap false)]) := by
  have h := receive_loop_spec ap recv n fuel 0 (by simpa using hpos) (by simpa using hzero) hfuel
  simp only [Nat.zero_add] at h
  simp [Ip.send_group_value_write, h]

/-! ## The error callback -/

/-- C18 fails on the code.  Called with `KDRIVE_TIMEOUT_ERROR`, `error_callback`
logs nothing, although the library has the message "Timeout" for that code. -/
theorem error_callback_silent_on_timeout :
    example_error_message .KDRIVE_TIMEOUT_ERROR ERROR_MESSAGE_LEN = c_literal "Timeout" ++ [0] ∧
    error_callback example_error_message (List.replicate ERROR_MESSAGE_LEN 0)
      .KDRIVE_TIMEOUT_ERROR = [] := by
  decide

/-- C18 as amended: for every error code other than `KDRIVE_TIMEOUT_ERROR` that
`error_callback` is called with, it logs the message the library writes for
that code (`message`, written with its terminating NUL); called with
`KDRIVE_TIMEOUT_ERROR` it logs nothing. -/
theorem error_callback_logs_message (kdrive_get_error_message : error_t → Nat → List Nat)
    (error_message : List Nat) (e : error_t) (message : List Nat)
    (hcode : e ≠ .KDRIVE_TIMEOUT_ERROR)
    (hchars : ∀ c ∈ message, 0 < c ∧ c ≤ 255)
    (hwritten : kdrive_get_error_message e ERROR_MESSAGE_LEN = message ++ [0]) :
    error_callback kdrive_get_error_message error_message e
      = [.logger_ex .KDRIVE_LOGGER_ERROR "kdrive error: %s" [.s (some message)]] ∧
    error_callback kdrive_get_error_message error_message .KDRIVE_TIMEOUT_ERROR = [] := by
  constructor
  · have h : c_string (store error_message (message ++ [0])) = some message := by
      simp only [store, List.append_assoc, List.singleton_append]
      exact c_string_append_zero message _ hchars
    simp [error_callback, hcode, hwritten, h]
  · simp [error_callback]

/-! ## Traces of sample code -/

theorem trace_bind {σ α β : Type} (x : Run σ α) (f : α → Run σ β) (s : σ) :
    ((x >>= f) s).trace = (x s).trace ++ (f (x s).value (x s).state).trace := rfl

theorem trace_pure {σ α : Type} (a : α) (s : σ) : ((pure a : Run σ α) s).trace = [] := rfl

theorem trace_emit {σ : Type} (effects : List Effect) (s : σ) :
    ((emit effects : Run σ Unit) s).trace = effects := rfl

theorem trace_logger {σ : Type} (level : LoggerLevel) (text : String) (s : σ) :
    ((logger level text : Run σ Unit) s).trace = [.logger level text] := rfl

theorem trace_call {σ : Type} (w : World σ) (c : LibCall) (s : σ) :
    (call w c s).trace = [.call c] := rfl

theorem value_call {σ : Type} (w : World σ) (c : LibCall) (s : σ) :
    (call w c s).value = (w.reply s c).1 := rfl

theorem value_pure {σ α : Type} (a : α) (s : σ) : ((pure a : Run σ α) s).value = a := rfl

theorem value_bind {σ α β : Type} (x : Run σ α) (f : α → Run σ β) (s : σ) :
    ((x >>= f) s).value = (f (x s).value (x s).state).value := rfl

theorem value_ite {σ α : Type} (c : Prop) [Decidable c] (x y : Run σ α) (s : σ) :
    ((if c then x else y) s).value = if c then (x s).value else (y s).value := by
  split_ifs <;> rfl

theorem state_logger {σ : Type} (level : LoggerLevel) (text : String) (s : σ) :
    ((logger level text : Run σ Unit) s).state = s := rfl

theorem state_emit {σ : Type} (effects : List Effect) (s : σ) :
    ((emit effects : Run σ Unit) s).state = s := rfl

theorem trace_ite {σ α : Type} (c : Prop) [Decidable c] (x y : Run σ α) (s : σ) :
    ((if c then x else y) s).trace = if c then (x s).trace else (y s).trace := by
  split_ifs <;> rfl

/-- The array keeps its declared size when the library writes to it. -/
theorem length_fill_array {α : Type} (size : Nat) (uninit : Nat → α) (written : List α) :
    (fill_array (declare_array size uninit) written).length = size := by
  simp [fill_array, declare_array]
  omega

/-- A read recorded by a loop over an array is a read of that array, with its
size, at an index below the loop bound, when the loop body records no reads of
its own. -/
theorem mem_read_loop {α : Type} (name : String) (array : List α) (count : Nat)
    (body : Nat → α → List Effect) (n : String) (size index : Nat)
    (hbody : ∀ i item, Effect.array_read n size index ∉ body i item)
    (h : Effect.array_read n size index ∈ read_loop name array count body) :
    n = name ∧ size = array.length ∧ index < count := by
  unfold read_loop at h
  obtain ⟨i, hi, hmem⟩ := List.mem_flatMap.mp h
  rw [List.mem_cons] at hmem
  rcases hmem with heq | hmem
  · injection heq with h1 h2 h3
    exact ⟨h1, h2, h3 ▸ List.mem_range.mp hi⟩
  · cases harr : array[i]? with
    | none => simp [harr] at hmem
    | some item =>
      simp only [harr] at hmem
      exact absurd hmem (hbody i item)

/-- A loop over an array makes no library call when its body makes none. -/
theorem call_not_mem_read_loop {α : Type} (name : String) (array : List α) (count : Nat)
    (body : Nat → α → List Effect) (c : LibCall)
    (hbody : ∀ i item, Effect.call c ∉ body i item) :
    Effect.call c ∉ read_loop name array count body := by
  intro h
  unfold read_loop at h
  obtain ⟨i, _, hmem⟩ := List.mem_flatMap.mp h
  rw [List.mem_cons] at hmem
  rcases hmem with heq | hmem
  · cases heq
  · cases harr : array[i]? with
    | none => simp [harr] at hmem
    | some item =>
      simp only [harr] at hmem
      exact absurd hmem (hbody i item)

/-- The arrays of `enumerate_tunneling_devices`. -/
theorem tunneling_array_respected {σ : Type} (w : World σ) (hcount : w.count_within_capacity)
    (s : σ) (ap : Int) (uninit : Nat → IpTunnDev) :
    array_respected "items" 50
      (IpTunnelEnumerate.enumerate_tunneling_devices w uninit ap s).trace := by
  have hc := hcount s (.kdrive_ap_enum_ip_tunn ap IpTunnelEnumerate.MAX_ITEMS) _ _ rfl rfl
  unfold IpTunnelEnumerate.enumerate_tunneling_devices
  simp only [trace_bind, trace_logger, trace_call, state_logger, value_call, trace_ite,
    trace_emit, trace_pure]
  constructor
  · intro c hmem capacity hcap
    split_ifs at hmem <;>
      simp only [List.mem_append, List.mem_cons, List.mem_singleton,
        List.not_mem_nil, or_false, Effect.call.injEq, reduceCtorEq, false_or] at hmem
    · rcases hmem with rfl | hmem
      · simpa [LibCall.capacity, IpTunnelEnumerate.MAX_ITEMS] using hcap.symm
      · exact absurd hmem (call_not_mem_read_loop _ _ _ _ _ (by simp))
    · subst hmem
      simpa [LibCall.capacity, IpTunnelEnumerate.MAX_ITEMS] using hcap.symm
  · intro array declared index hmem
    split_ifs at hmem <;>
      simp only [List.mem_append, List.mem_cons, List.mem_singleton,
        List.not_mem_nil, or_false, reduceCtorEq, false_or] at hmem
    obtain ⟨h1, h2, h3⟩ := mem_read_loop _ _ _ _ _ _ _ (by simp) hmem
    rw [length_fill_array] at h2
    exact ⟨h1, h2, lt_of_lt_of_le h3 hc⟩

/-- The array of `read_additional_individual_addresses`. -/
theorem additional_array_respected {σ : Type} (w : World σ) (hcount : w.count_within_capacity)
    (s : σ) (ap : Int) (uninit : Nat → Nat) :
    array_respected "addresses" 10
      (TunnelIndAddr.read_additional_individual_addresses w uninit ap s).trace := by
  have hc := hcount s (.kdrive_ap_get_additional_ind_addr ap 10) _ _ rfl rfl
  unfold TunnelIndAddr.read_additional_individual_addresses
  simp only [trace_bind, trace_logger, trace_call, state_logger, value_call, trace_ite,
    trace_emit, trace_pure]
  constructor
  · intro c hmem capacity hcap
    split_ifs at hmem <;>
      simp only [List.mem_append, List.mem_cons, List.mem_singleton,
        List.not_mem_nil, or_false, Effect.call.injEq, reduceCtorEq, false_or] at hmem
    · rcases hmem with rfl | hmem
      · simpa [LibCall.capacity] using hcap.symm
      · exact absurd hmem (call_not_mem_read_loop _ _ _ _ _ (by simp))
    · subst hmem
      simpa [LibCall.capacity] using hcap.symm
  · intro array declared index hmem
    split_ifs at hmem <;>
      simp only [List.mem_append, List.mem_cons, List.mem_singleton,
        List.not_mem_nil, or_false, reduceCtorEq, false_or] at hmem
    obtain ⟨h1, h2, h3⟩ := mem_read_loop _ _ _ _ _ _ _ (by simp) hmem
    rw [length_fill_array] at h2
    exact ⟨h1, h2, by omega⟩

/-- The array of `ind_addr_prog_mode_read`. -/
theorem ind_addr_array_respected {σ : Type} (w : World σ) (hcount : w.count_within_capacity)
    (s : σ) (sp : Int) (uninit : Nat → Nat) :
    array_respected "data" 5 (Services.ind_addr_prog_mode_read w uninit sp s).trace := by
  have hc := hcount s (.kdrive_sp_ind_addr_prog_mode_read sp 500 Services.MAX_IND_ADDR) _ _
    rfl rfl
  unfold Services.ind_addr_prog_mode_read
  simp only [trace_bind, trace_logger, trace_call, state_logger, value_call, trace_ite,
    trace_emit, trace_pure]
  constructor
  · intro c hmem capacity hcap
    split_ifs at hmem <;>
      simp only [List.mem_append, List.mem_cons, List.mem_singleton,
        List.not_mem_nil, or_false, Effect.call.injEq, reduceCtorEq, false_or] at hmem
    · rcases hmem with rfl | hmem
      · simpa [LibCall.capacity, Services.MAX_IND_ADDR] using hcap.symm
      · exact absurd hmem (call_not_mem_read_loop _ _ _ _ _ (by simp))
    · subst hmem
      simpa [LibCall.capacity, Services.MAX_IND_ADDR] using hcap.symm
  · intro array declared index hmem
    split_ifs at hmem <;>
      simp only [List.mem_append, List.mem_cons, List.mem_singleton,
        List.not_mem_nil, or_false, reduceCtorEq, false_or] at hmem
    obtain ⟨h1, h2, h3⟩ := mem_read_loop _ _ _ _ _ _ _ (by simp) hmem
    rw [length_fill_array] at h2
    exact ⟨h1, h2, lt_of_lt_of_le h3 hc⟩

/-- The array of `domain_addr_prog_mode_read`. -/
theorem domain_addr_array_respected {σ : Type} (w : World σ)
    (hcount : w.count_within_capacity) (s : σ) (sp : Int) (uninit : Nat → DomainAddrItem) :
    array_respected "items" 5 (Services.domain_addr_prog_mode_read w uninit sp s).trace := by
  have hc := hcount s (.kdrive_sp_domain_addr_prog_mode_read sp 500 Services.MAX_ITEMS) _ _
    rfl rfl
  unfold Services.domain_addr_prog_mode_read
  simp only [trace_bind, trace_logger, trace_call, state_logger, value_call, trace_ite,
    trace_emit, trace_pure]
  constructor
  · intro c hmem capacity hcap
    split_ifs at hmem <;>
      simp only [List.mem_append, List.mem_cons, List.mem_singleton,
        List.not_mem_nil, or_false, Effect.call.injEq, reduceCtorEq, false_or] at hmem
    · rcases hmem with rfl | hmem
      · simpa [LibCall.capacity, Services.MAX_ITEMS] using hcap.symm
      · exact absurd hmem (call_not_mem_read_loop _ _ _ _ _ (by simp))
    · subst hmem
      simpa [LibCall.capacity, Services.MAX_ITEMS] using hcap.symm
  · intro array declared index hmem
    split_ifs at hmem <;>
      simp only [List.mem_append, List.mem_cons, List.mem_singleton,
        List.not_mem_nil, or_false, reduceCtorEq, false_or] at hmem
    obtain ⟨h1, h2, h3⟩ := mem_read_loop _ _ _ _ _ _ _ (by simp) hmem
    rw [length_fill_array] at h2
    exact ⟨h1, h2, lt_of_lt_of_le h3 hc⟩

/-- The array of `main` in `kdrive_express_usb.c`. -/
theorem usb_array_respected {σ : Type} (w : World σ) (hcount : w.count_within_capacity)
    (s : σ) (uninit : Nat → UsbDev) :
    array_respected "iface_items" 10 (Usb.main w uninit s).trace := by
  have hc := fun s => hcount s (.kdrive_ap_enum_usb_ex Usb.MAX_USB_INTERFACES) _ _ rfl rfl
  unfold Usb.main
  simp only [trace_bind, trace_logger, trace_call, state_logger, value_call, trace_ite,
    trace_emit, trace_pure, state_emit]
  constructor
  · split_ifs <;>
      simp only [List.mem_append, List.mem_cons, List.mem_singleton, List.not_mem_nil,
        or_false, false_or, Effect.call.injEq, reduceCtorEq, forall_eq_or_imp, forall_eq,
        or_imp, forall_and] <;>
      simp [LibCall.capacity, Usb.MAX_USB_INTERFACES, call_not_mem_read_loop]
  · intro array declared index hmem
    split_ifs at hmem <;>
      simp only [List.mem_append, List.mem_cons, List.mem_singleton,
        List.not_mem_nil, or_false, reduceCtorEq, false_or] at hmem
    all_goals
      obtain ⟨h1, h2, h3⟩ := mem_read_loop _ _ _ _ _ _ _ (by simp) hmem
      rw [length_fill_array] at h2
      exact ⟨h1, h2, lt_of_lt_of_le h3 (hc _)⟩

/-! ## The library calls of sample code -/

theorem calls_bind {σ α β : Type} (x : Run σ α) (f : α → Run σ β) (s : σ) :
    calls (x >>= f) s = calls x s ++ calls (f (x s).value) (x s).state := by
  simp [calls, trace_bind]

theorem calls_pure {σ α : Type} (a : α) (s : σ) : calls (pure a : Run σ α) s = [] := rfl

theorem calls_call {σ : Type} (w : World σ) (c : LibCall) (s : σ) :
    calls (call w c) s = [c] := rfl

theorem calls_logger {σ : Type} (level : LoggerLevel) (text : String) (s : σ) :
    calls (logger level text : Run σ Unit) s = [] := rfl

theorem calls_emit {σ : Type} (effects : List Effect) (s : σ) :
    calls (emit effects : Run σ Unit) s = effects.filterMap Effect.lib_call := rfl

theorem calls_ite {σ α : Type} (c : Prop) [Decidable c] (x y : Run σ α) (s : σ) :
    calls (if c then x else y) s = if c then calls x s else calls y s := by
  split_ifs <;> rfl

/-- A loop over an array makes no library call when its body makes none. -/
theorem lib_calls_read_loop {α : Type} (name : String) (array : List α) (count : Nat)
    (body : Nat → α → List Effect)
    (hbody : ∀ i item, (body i item).filterMap Effect.lib_call = []) :
    (read_loop name array count body).filterMap Effect.lib_call = [] := by
  rw [List.filterMap_eq_nil_iff]
  intro e he
  unfold read_loop at he
  obtain ⟨i, _, hmem⟩ := List.mem_flatMap.mp he
  rw [List.mem_cons] at hmem
  rcases hmem with rfl | hmem
  · rfl
  · cases harr : array[i]? with
    | none => simp [harr] at hmem
    | some item =>
      simp only [harr] at hmem
      exact (List.filterMap_eq_nil_iff.mp (hbody i item)) e hmem

theorem calls_set_rf_domain_address {σ : Type} (w : World σ) (ap : Int) (s : σ) :
    calls (Services.set_rf_domain_address w ap) s
      = [.kdrive_ap_set_rf_domain_addr ap [0x00, 0x00, 0x00, 0x00, 0x00, 0x00]] := by
  simp [Services.set_rf_domain_address, calls_bind, calls_call, calls_pure]

theorem calls_prop_value_read {σ : Type} (w : World σ) (sp : Int) (s : σ) :
    calls (Services.prop_value_read w sp) s
      = [.kdrive_sp_prop_value_read sp Services.address 0 11 1 1
          Services.SERIAL_NUMBER_LENGTH] := by
  unfold Services.prop_value_read
  simp only [calls_bind, calls_call, calls_logger, state_logger, List.nil_append]
  generalize (call w _ s).value = r
  cases r <;> simp [calls_emit, calls_pure, Effect.lib_call]

theorem calls_prop_value_write {σ : Type} (w : World σ) (sp : Int) (s : σ) :
    calls (Services.prop_value_write w sp) s
      = [.kdrive_sp_prop_value_write sp Services.address 0 54 1 1 [0] 1] := by
  simp [Services.prop_value_write, calls_bind, calls_call, calls_pure, calls_logger]

theorem calls_switch_prog_mode {σ : Type} (w : World σ) (sp : Int) (enable : Bool) (s : σ) :
    calls (Services.switch_prog_mode w sp enable) s
      = [.kdrive_sp_switch_prog_mode sp Services.address enable] := by
  simp [Services.switch_prog_mode, calls_bind, calls_call, calls_pure, calls_logger]

theorem calls_read_prog_mode {σ : Type} (w : World σ) (sp : Int) (s : σ) :
    calls (Services.read_prog_mode w sp) s
      = [.kdrive_sp_read_prog_mode sp Services.address] := by
  unfold Services.read_prog_mode
  simp only [calls_bind, calls_call, calls_logger, state_logger, List.nil_append]
  generalize (call w _ s).value = r
  cases r <;> simp [calls_emit, calls_pure, Effect.lib_call]

theorem calls_memory_read {σ : Type} (w : World σ) (sp : Int) (s : σ) :
    calls (Services.memory_read w sp) s
      = [.kdrive_sp_memory_read sp Services.address 0x0060 1 1] := by
  unfold Services.memory_read
  simp only [calls_bind, calls_call, calls_logger, state_logger, List.nil_append]
  generalize (call w _ s).value = r
  cases r <;> simp [calls_emit, calls_pure, Effect.lib_call]

theorem calls_memory_write {σ : Type} (w : World σ) (sp : Int) (s : σ) :
    calls (Services.memory_write w sp) s
      = [.kdrive_sp_memory_write sp Services.address 0x0060 [0] 1] := by
  simp [Services.memory_write, calls_bind, calls_call, calls_pure, calls_logger]

theorem calls_ind_addr_prog_mode_read {σ : Type} (w : World σ) (uninit : Nat → Nat)
    (sp : Int) (s : σ) :
    calls (Services.ind_addr_prog_mode_read w uninit sp) s
      = [.kdrive_sp_ind_addr_prog_mode_read sp 500 Services.MAX_IND_ADDR] := by
  unfold Services.ind_addr_prog_mode_read
  simp only [calls_bind, calls_call, calls_logger, state_logger, List.nil_append, calls_ite,
    calls_emit, calls_pure]
  split_ifs <;> simp [Effect.lib_call, lib_calls_read_loop]

theorem calls_ind_addr_prog_mode_write {σ : Type} (w : World σ) (uninit : Nat → Nat)
    (sp : Int) (s : σ) :
    calls (Services.ind_addr_prog_mode_write w uninit sp) s
      = [.kdrive_sp_ind_addr_prog_mode_write sp 0x05F1,
         .kdrive_sp_ind_addr_prog_mode_read sp 500 Services.MAX_IND_ADDR,
         .kdrive_sp_ind_addr_prog_mode_write sp Services.address,
         .kdrive_sp_ind_addr_prog_mode_read sp 500 Services.MAX_IND_ADDR] := by
  simp [Services.ind_addr_prog_mode_write, calls_bind, calls_call, calls_logger,
    calls_ind_addr_prog_mode_read]

theorem calls_ind_addr_sn_read {σ : Type} (w : World σ) (sp : Int) (s : σ) :
    calls (Services.ind_addr_sn_read w sp) s
      = [.kdrive_sp_ind_addr_sn_read sp [0x00, 0xC5, 0x00, 0x00, 0x00, 0xFA]] := by
  unfold Services.ind_addr_sn_read
  simp only [calls_bind, calls_call, calls_logger, state_logger, List.nil_append]
  generalize (call w _ s).value = r
  cases r <;> simp [calls_emit, calls_pure, Effect.lib_call]

theorem calls_ind_addr_sn_write {σ : Type} (w : World σ) (sp : Int) (s : σ) :
    calls (Services.ind_addr_sn_write w sp) s
      = [.kdrive_sp_ind_addr_sn_write sp [0x00, 0xC5, 0x00, 0x00, 0x00, 0xFA] 0x05F1,
         .kdrive_sp_ind_addr_sn_read sp [0x00, 0xC5, 0x00, 0x00, 0x00, 0xFA],
         .kdrive_sp_ind_addr_sn_write sp [0x00, 0xC5, 0x00, 0x00, 0x00, 0xFA] Services.address,
         .kdrive_sp_ind_addr_sn_read sp [0x00, 0xC5, 0x00, 0x00, 0x00, 0xFA]] := by
  simp [Services.ind_addr_sn_write, calls_bind, calls_call, calls_logger,
    calls_ind_addr_sn_read]

theorem calls_domain_addr_prog_mode_read {σ : Type} (w : World σ)
    (uninit : Nat → DomainAddrItem) (sp : Int) (s : σ) :
    calls (Services.domain_addr_prog_mode_read w uninit sp) s
      = [.kdrive_sp_domain_addr_prog_mode_read sp 500 Services.MAX_ITEMS] := by
  unfold Services.domain_addr_prog_mode_read
  simp only [calls_bind, calls_call, calls_logger, state_logger, List.nil_append, calls_ite,
    calls_emit, calls_pure]
  split_ifs <;> simp [Effect.lib_call, lib_calls_read_loop]

theorem calls_domain_addr_prog_mode_write {σ : Type} (w : World σ)
    (uninit : Nat → DomainAddrItem) (sp : Int) (s : σ) :
    calls (Services.domain_addr_prog_mode_write w uninit sp) s
      = [.kdrive_sp_domain_addr_prog_mode_write sp [0xAA, 0xAA, 0xAA, 0xAA, 0xAA, 0xAA],
         .kdrive_sp_domain_addr_prog_mode_read sp 500 Services.MAX_ITEMS,
         .kdrive_sp_domain_addr_prog_mode_write sp [0x00, 0x00, 0x00, 0x00, 0x00, 0x00],
         .kdrive_sp_domain_addr_prog_mode_read sp 500 Services.MAX_ITEMS] := by
  simp [Services.domain_addr_prog_mode_write, calls_bind, calls_call, calls_logger,
    calls_domain_addr_prog_mode_read]

theorem calls_domain_addr_sn_read {σ : Type} (w : World σ) (sp : Int) (s : σ) :
    calls (Services.domain_addr_sn_read w sp) s
      = [.kdrive_sp_domain_addr_sn_read sp [0x00, 0xC5, 0x00, 0x00, 0x00, 0xFA]] := by
  unfold Services.domain_addr_sn_read
  simp only [calls_bind, calls_call, calls_logger, state_logger, List.nil_append]
  generalize (call w _ s).value = r
  cases r <;> simp [calls_emit, calls_pure, Effect.lib_call]

theorem calls_domain_addr_sn_write {σ : Type} (w : World σ) (sp : Int) (s : σ) :
    calls (Services.domain_addr_sn_write w sp) s
      = [.kdrive_sp_domain_addr_sn_write sp [0x00, 0xC5, 0x00, 0x00, 0x00, 0xFA]
           [0xAA, 0xAA, 0xAA, 0xAA, 0xAA, 0xAA],
         .kdrive_sp_domain_addr_sn_read sp [0x00, 0xC5, 0x00, 0x00, 0x00, 0xFA],
         .kdrive_sp_domain_addr_sn_write sp [0x00, 0xC5, 0x00, 0x00, 0x00, 0xFA]
           [0x00, 0x00, 0x00, 0x00, 0x00, 0x00],
         .kdrive_sp_domain_addr_sn_read sp [0x00, 0xC5, 0x00, 0x00, 0x00, 0xFA]] := by
  simp [Services.domain_addr_sn_write, calls_bind, calls_call, calls_logger,
    calls_domain_addr_sn_read]

/-- The library calls of the services that `main` runs once both ports are
open, in order: the calls before programming mode is switched on, the switch,
the operations on devices in programming mode, the switch back, and the rest. -/
theorem calls_run_services {σ : Type} (is_rf : Bool) (w : World σ) (uninit_data : Nat → Nat)
    (uninit_items : Nat → DomainAddrItem) (ap sp : Int) (s : σ) :
    calls (Services.run_services is_rf w uninit_data uninit_items ap sp) s
      = ([.kdrive_sp_set_co sp Services.connection_oriented,
          .kdrive_sp_prop_value_read sp Services.address 0 11 1 1 Services.SERIAL_NUMBER_LENGTH,
          .kdrive_sp_prop_value_write sp Services.address 0 54 1 1 [0] 1]
        ++ (if is_rf = true then
            [.kdrive_sp_domain_addr_sn_read sp [0x00, 0xC5, 0x00, 0x00, 0x00, 0xFA],
             .kdrive_sp_domain_addr_sn_write sp [0x00, 0xC5, 0x00, 0x00, 0x00, 0xFA]
               [0xAA, 0xAA, 0xAA, 0xAA, 0xAA, 0xAA],
             .kdrive_sp_domain_addr_sn_read sp [0x00, 0xC5, 0x00, 0x00, 0x00, 0xFA],
             .kdrive_sp_domain_addr_sn_write sp [0x00, 0xC5, 0x00, 0x00, 0x00, 0xFA]
               [0x00, 0x00, 0x00, 0x00, 0x00, 0x00],
             .kdrive_sp_domain_addr_sn_read sp [0x00, 0xC5, 0x00, 0x00, 0x00, 0xFA]]
          else [])
        ++ [.kdrive_sp_ind_addr_sn_read sp [0x00, 0xC5, 0x00, 0x00, 0x00, 0xFA],
          .kdrive_sp_ind_addr_sn_write sp [0x00, 0xC5, 0x00, 0x00, 0x00, 0xFA] 0x05F1,
          .kdrive_sp_ind_addr_sn_read sp [0x00, 0xC5, 0x00, 0x00, 0x00, 0xFA],
          .kdrive_sp_ind_addr_sn_write sp [0x00, 0xC5, 0x00, 0x00, 0x00, 0xFA] Services.address,
          .kdrive_sp_ind_addr_sn_read sp [0x00, 0xC5, 0x00, 0x00, 0x00, 0xFA]])
        ++ [.kdrive_sp_switch_prog_mode sp Services.address true]
        ++ ([.kdrive_sp_read_prog_mode sp Services.address]
          ++ (if is_rf = true then
              [.kdrive_sp_domain_addr_prog_mode_read sp 500 Services.MAX_ITEMS,
               .kdrive_sp_domain_addr_prog_mode_write sp [0xAA, 0xAA, 0xAA, 0xAA, 0xAA, 0xAA],
               .kdrive_sp_domain_addr_prog_mode_read sp 500 Services.MAX_ITEMS,
               .kdrive_sp_domain_addr_prog_mode_write sp [0x00, 0x00, 0x00, 0x00, 0x00, 0x00],
               .kdrive_sp_domain_addr_prog_mode_read sp 500 Services.MAX_ITEMS]
            else [])
          ++ [.kdrive_sp_ind_addr_prog_mode_read sp 500 Services.MAX_IND_ADDR,
            .kdrive_sp_ind_addr_prog_mode_write sp 0x05F1,
            .kdrive_sp_ind_addr_prog_mode_read sp 500 Services.MAX_IND_ADDR,
            .kdrive_sp_ind_addr_prog_mode_write sp Services.address,
            .kdrive_sp_ind_addr_prog_mode_read sp 500 Services.MAX_IND_ADDR])
        ++ [.kdrive_sp_switch_prog_mode sp Services.address false]
        ++ [.kdrive_sp_read_prog_mode sp Services.address,
          .kdrive_sp_memory_read sp Services.address 0x0060 1 1,
          .kdrive_sp_memory_write sp Services.address 0x0060 [0] 1,
          .kdrive_sp_release sp,
          .kdrive_ap_close ap,
          .kdrive_ap_release ap] := by
  unfold Services.run_services
  simp only [calls_bind, calls_call, calls_ite, calls_pure, calls_prop_value_read,
    calls_prop_value_write, calls_domain_addr_sn_read, calls_domain_addr_sn_write,
    calls_ind_addr_sn_read, calls_ind_addr_sn_write, calls_switch_prog_mode,
    calls_read_prog_mode, calls_domain_addr_prog_mode_read, calls_domain_addr_prog_mode_write,
    calls_ind_addr_prog_mode_read, calls_ind_addr_prog_mode_write, calls_memory_read,
    calls_memory_write]
  cases is_rf <;> simp <;> rfl

/-- The library calls of `open_access_port` are one of four sequences, none of
which contains a call on a service port. -/
theorem calls_open_access_port {σ : Type} (w : World σ) (s : σ) :
    ∃ ap,
      calls (Services.open_access_port w) s = [.kdrive_ap_create] ∨
      calls (Services.open_access_port w) s
        = [.kdrive_ap_create, .kdrive_ap_enum_usb ap, .kdrive_ap_release ap] ∨
      calls (Services.open_access_port w) s
        = [.kdrive_ap_create, .kdrive_ap_enum_usb ap, .kdrive_ap_open_usb ap 0,
           .kdrive_ap_release ap] ∨
      calls (Services.open_access_port w) s
        = [.kdrive_ap_create, .kdrive_ap_enum_usb ap, .kdrive_ap_open_usb ap 0] := by
  refine ⟨(w.reply s .kdrive_ap_create).1, ?_⟩
  unfold Services.open_access_port
  simp only [calls_bind, calls_call, calls_ite, calls_pure, value_call]
  by_cases hap : (w.reply s .kdrive_ap_create).1 = w.KDRIVE_INVALID_DESCRIPTOR
  · simp [hap]
  · simp only [hap, ne_eq, not_false_eq_true, if_true, value_pure]
    split_ifs <;> simp_all

/-- The switches of programming mode in a sequence of calls, part by part. -/
theorem prog_mode_switches_append (a b : List LibCall) :
    prog_mode_switches (a ++ b) = prog_mode_switches a ++ prog_mode_switches b := by
  induction a with
  | nil => rfl
  | cons c rest ih => cases c <;> simp [prog_mode_switches, ih]

/-- A call that does not switch programming mode, and that operates on devices
in programming mode only on the service port the mode is switched on for,
leaves the reading of a sequence of calls where it was. -/
theorem prog_mode_bracketed_cons (switched_on : Option Int) (c : LibCall)
    (rest : List LibCall) (hswitch : prog_mode_switches [c] = [])
    (hop : c.prog_mode_operation = none ∨ c.prog_mode_operation = switched_on) :
    prog_mode_bracketed switched_on (c :: rest) = prog_mode_bracketed switched_on rest := by
  cases c
  case kdrive_sp_switch_prog_mode => simp [prog_mode_switches] at hswitch
  case kdrive_sp_ind_addr_prog_mode_read =>
    simp only [LibCall.prog_mode_operation, reduceCtorEq, false_or] at hop
    simp [prog_mode_bracketed, LibCall.prog_mode_operation, hop]
  case kdrive_sp_ind_addr_prog_mode_write =>
    simp only [LibCall.prog_mode_operation, reduceCtorEq, false_or] at hop
    simp [prog_mode_bracketed, LibCall.prog_mode_operation, hop]
  case kdrive_sp_domain_addr_prog_mode_read =>
    simp only [LibCall.prog_mode_operation, reduceCtorEq, false_or] at hop
    simp [prog_mode_bracketed, LibCall.prog_mode_operation, hop]
  case kdrive_sp_domain_addr_prog_mode_write =>
    simp only [LibCall.prog_mode_operation, reduceCtorEq, false_or] at hop
    simp [prog_mode_bracketed, LibCall.prog_mode_operation, hop]
  all_goals rfl

/-- Calls that do not switch programming mode, and that operate on devices in
programming mode only on the service port the mode is switched on for, leave
the reading of a sequence of calls where it was. -/
theorem prog_mode_bracketed_append (switched_on : Option Int) (a b : List LibCall)
    (hswitch : prog_mode_switches a = [])
    (hop : ∀ c ∈ a, c.prog_mode_operation = none ∨ c.prog_mode_operation = switched_on) :
    prog_mode_bracketed switched_on (a ++ b) = prog_mode_bracketed switched_on b := by
  induction a with
  | nil => rfl
  | cons c rest ih =>
    have hsplit := prog_mode_switches_append [c] rest
    rw [List.singleton_append, hswitch] at hsplit
    have hboth := List.append_eq_nil.mp hsplit.symm
    rw [List.cons_append, prog_mode_bracketed_cons _ _ _ hboth.1
      (hop c (List.mem_cons_self _ _))]
    exact ih hboth.2 (fun c hc => hop c (List.mem_cons_of_mem _ hc))

/-- The calls of `open_access_port` neither switch programming mode nor
operate on devices in programming mode. -/
theorem open_access_port_neutral {σ : Type} (w : World σ) (s : σ) :
    prog_mode_switches (calls (Services.open_access_port w) s) = [] ∧
    ∀ c ∈ calls (Services.open_access_port w) s, c.prog_mode_operation = none := by
  obtain ⟨ap, h | h | h | h⟩ := calls_open_access_port w s <;> rw [h] <;>
    simp [prog_mode_switches, LibCall.prog_mode_operation]

/-- The services that `main` runs: programming mode is switched on once and
off once, in this order, and the operations on devices in programming mode lie
between the two calls. -/
theorem run_services_bracket {σ : Type} (is_rf : Bool) (w : World σ) (uninit_data : Nat → Nat)
    (uninit_items : Nat → DomainAddrItem) (ap sp : Int) (s : σ) :
    brackets_prog_mode is_rf
      (calls (Services.run_services is_rf w uninit_data uninit_items ap sp) s) := by
  refine ⟨sp, _, _, _, calls_run_services is_rf w uninit_data uninit_items ap sp s, ?_⟩
  cases is_rf <;> simp [prog_mode_switches, LibCall.prog_mode_operation]

/-- Calls that neither switch programming mode nor need it may come first. -/
theorem brackets_prog_mode_prepend (is_rf : Bool) (pre cs : List LibCall)
    (hswitch : prog_mode_switches pre = [])
    (hop : ∀ c ∈ pre, c.prog_mode_operation = none)
    (h : brackets_prog_mode is_rf cs) : brackets_prog_mode is_rf (pre ++ cs) := by
  obtain ⟨sp, before, inside, after, hcs, h1, h2, h3, h4, hrest⟩ := h
  refine ⟨sp, pre ++ before, inside, after, ?_, ?_, h2, h3, ?_, hrest⟩
  · simp [hcs]
  · rw [prog_mode_switches_append, hswitch, h1]
    rfl
  · intro c hc
    rcases List.mem_append.mp hc with hc | hc
    · exact hop c hc
    · exact h4 c hc

/-- A sequence of calls that neither switch programming mode nor need it
passes the reading `prog_mode_bracketed`. -/
theorem prog_mode_bracketed_neutral (cs : List LibCall) (hswitch : prog_mode_switches cs = [])
    (hop : ∀ c ∈ cs, c.prog_mode_operation = none) :
    prog_mode_bracketed none cs = true := by
  have h := prog_mode_bracketed_append none cs [] hswitch (fun c hc => Or.inl (hop c hc))
  rw [List.append_nil] at h
  rw [h]
  rfl

/-- A sequence of calls of the shape `brackets_prog_mode` passes the reading
`prog_mode_bracketed`, and its switches are on, then off. -/
theorem brackets_prog_mode_bracketed (is_rf : Bool) (cs : List LibCall)
    (h : brackets_prog_mode is_rf cs) :
    prog_mode_bracketed none cs = true ∧ prog_mode_switches cs = [true, false] := by
  obtain ⟨sp, before, inside, after, hcs, h1, h2, h3, h4, h5, h6, _⟩ := h
  subst hcs
  constructor
  · simp only [List.append_assoc, List.singleton_append]
    rw [prog_mode_bracketed_append none before _ h1 (fun c hc => Or.inl (h4 c hc))]
    change prog_mode_bracketed (some sp) (inside ++ _) = true
    rw [prog_mode_bracketed_append (some sp) inside _ h2 h6]
    exact prog_mode_bracketed_neutral after h3 h5
  · simp [prog_mode_switches_append, h1, h2, h3, prog_mode_switches]

/-- The end of `main`: after calls `pre` that neither switch programming mode
nor need it, `main` either stays in its endless loop or runs the services
`body` and returns 0. -/
theorem main_prog_mode (is_rf : Bool) (pre body : List LibCall) (hung : Prop)
    [Decidable hung] (hswitch : prog_mode_switches pre = [])
    (hop : ∀ c ∈ pre, c.prog_mode_operation = none)
    (hbody : brackets_prog_mode is_rf body) :
    prog_mode_bracketed none (pre ++ if hung then [] else body) = true ∧
    ((if hung then none else some (0 : Int)) = some 0 ∨
      (if hung then none else some (0 : Int)) = none) ∧
    ((if hung then none else some (0 : Int)) = some 0 →
      prog_mode_switches (pre ++ if hung then [] else body) = [true, false] ∧
      brackets_prog_mode is_rf (pre ++ if hung then [] else body)) ∧
    ((if hung then none else some (0 : Int)) = none →
      prog_mode_switches (pre ++ if hung then [] else body) = [] ∧
      ∀ c ∈ pre ++ if hung then [] else body, c.prog_mode_operation = none) := by
  by_cases h : hung
  · simp only [h, if_true, List.append_nil]
    exact ⟨prog_mode_bracketed_neutral _ hswitch hop, by simp, by simp,
      fun _ => ⟨hswitch, hop⟩⟩
  · simp only [h, if_false]
    have hall := brackets_prog_mode_prepend is_rf pre body hswitch hop hbody
    have hboth := brackets_prog_mode_bracketed is_rf _ hall
    exact ⟨hboth.1, by simp, fun _ => ⟨hboth.2, hall⟩, by simp⟩

/-- C20: in `main` of the services sample, for either value of `is_rf` and
whatever the library answers, every operation on devices in programming mode
is issued while programming mode is switched on, on the service port it was
switched on for, and a call that switches it off follows.  When `main` returns
(it returns 0), its calls are: calls that neither switch programming mode nor
need it, `kdrive_sp_switch_prog_mode(sp, address, 1)`, calls among which are
`ind_addr_prog_mode_read`, both `ind_addr_prog_mode_write` calls and, when
`is_rf` is set, the domain-address operations, and no switch,
`kdrive_sp_switch_prog_mode(sp, address, 0)`, and again calls that neither
switch programming mode nor need it: the last switch turns programming mode
off.  When `main` does not return, it has made no such call at all. -/
theorem prog_mode_operations_bracketed {σ : Type} (is_rf : Bool) (w : World σ)
    (uninit_data : Nat → Nat) (uninit_items : Nat → DomainAddrItem) (s : σ) :
    prog_mode_bracketed none (calls (Services.main is_rf w uninit_data uninit_items) s)
      = true ∧
    ((Services.main is_rf w uninit_data uninit_items s).value = some 0 ∨
      (Services.main is_rf w uninit_data uninit_items s).value = none) ∧
    ((Services.main is_rf w uninit_data uninit_items s).value = some 0 →
      prog_mode_switches (calls (Services.main is_rf w uninit_data uninit_items) s)
        = [true, false] ∧
      brackets_prog_mode is_rf (calls (Services.main is_rf w uninit_data uninit_items) s)) ∧
    ((Services.main is_rf w uninit_data uninit_items s).value = none →
      prog_mode_switches (calls (Services.main is_rf w uninit_data uninit_items) s) = [] ∧
      ∀ c ∈ calls (Services.main is_rf w uninit_data uninit_items) s,
        c.prog_mode_operation = none) := by
  unfold Services.main
  simp only [calls_bind, calls_call, calls_ite, calls_pure, calls_logger, value_bind,
    value_ite, value_pure, calls_set_rf_domain_address, List.append_nil, List.nil_append]
  have hopen := open_access_port_neutral w
    (call w .kdrive_register_error_callback
      (call w .kdrive_logger_console
        (call w (.kdrive_logger_set_level .KDRIVE_LOGGER_INFORMATION) s).state).state).state
  revert hopen
  generalize (Services.open_access_port w _).value = ap
  generalize (Services.open_access_port w _).state = s1
  generalize calls (Services.open_access_port w) _ = opening
  rintro ⟨hopen_switch, hopen_op⟩
  by_cases hap : ap = w.KDRIVE_INVALID_DESCRIPTOR
  · simp only [hap, if_true, List.append_nil]
    have hswitch : prog_mode_switches
        ([LibCall.kdrive_logger_set_level .KDRIVE_LOGGER_INFORMATION] ++
          ([LibCall.kdrive_logger_console] ++
            ([LibCall.kdrive_register_error_callback] ++ opening))) = [] := by
      simp [prog_mode_switches, hopen_switch]
    have hop : ∀ c ∈ [LibCall.kdrive_logger_set_level .KDRIVE_LOGGER_INFORMATION] ++
          ([LibCall.kdrive_logger_console] ++
            ([LibCall.kdrive_register_error_callback] ++ opening)),
        c.prog_mode_operation = none := by
      simpa [LibCall.prog_mode_operation] using hopen_op
    exact ⟨prog_mode_bracketed_neutral _ hswitch hop, by simp, by simp,
      fun _ => ⟨hswitch, hop⟩⟩
  · simp only [hap, if_false]
    cases is_rf
    · simp only [Bool.false_eq_true, if_false, List.nil_append, ← List.append_assoc]
      refine main_prog_mode false _ _ _ ?_ ?_ (run_services_bracket _ _ _ _ _ _ _)
      · simp [prog_mode_switches_append, prog_mode_switches, hopen_switch]
      · intro c hc
        simp only [List.mem_append, List.mem_singleton, or_assoc] at hc
        rcases hc with rfl | rfl | rfl | hc | rfl
        all_goals first | rfl | exact hopen_op _ hc
    · simp only [if_true, ← List.append_assoc]
      refine main_prog_mode true _ _ _ ?_ ?_ (run_services_bracket _ _ _ _ _ _ _)
      · simp [prog_mode_switches_append, prog_mode_switches, hopen_switch]
      · intro c hc
        simp only [List.mem_append, List.mem_singleton, or_assoc] at hc
        rcases hc with rfl | rfl | rfl | hc | rfl | rfl
        all_goals first | rfl | exact hopen_op _ hc

/-! ## Arrays filled by the library -/

/-- In the example world every enumeration reports a count within the
capacity it was given. -/
theorem one_interface_count_within_capacity : one_interface.count_within_capacity := by
  intro s c capacity count hcap hcount
  cases c
  case kdrive_ap_enum_usb_ex cap =>
    have h1 : some cap = some capacity := hcap
    have h2 : some (min 1 cap) = some count := hcount
    cases h1
    cases h2
    exact Nat.min_le_right _ _
  case kdrive_sp_ind_addr_prog_mode_read sp timeout cap =>
    have h1 : some cap = some capacity := hcap
    have h2 : some (min 2 cap) = some count := hcount
    cases h1
    cases h2
    exact Nat.min_le_right _ _
  case kdrive_ap_enum_ip_tunn ap cap =>
    have h1 : some cap = some capacity := hcap
    have h2 : some cap = some count := hcount
    cases h1
    cases h2
    exact Nat.le_refl _
  case kdrive_ap_get_additional_ind_addr ap cap =>
    have h1 : some cap = some capacity := hcap
    have h2 : some cap = some count := hcount
    cases h1
    cases h2
    exact Nat.le_refl _
  case kdrive_sp_domain_addr_prog_mode_read sp timeout cap =>
    have h1 : some cap = some capacity := hcap
    have h2 : some cap = some count := hcount
    cases h1
    cases h2
    exact Nat.le_refl _
  all_goals exact absurd hcap (fun h => Option.noConfusion h)

/-- C19: wherever a sample lets the library fill an array (tunneling devices,
`MAX_ITEMS` = 50; USB interfaces, `MAX_USB_INTERFACES` = 10; individual
addresses in programming mode, `MAX_IND_ADDR` = 5; domain addresses in
programming mode, `MAX_ITEMS` = 5; additional individual addresses, 10), the
capacity passed to the library is the declared size of the array, and when the
library never reports a count above the capacity it was given, every read of
the following loop is a read of that array at an index inside it. -/
theorem enumeration_buffer_sizes_respected {σ : Type} (w : World σ) (s : σ) (ap sp : Int)
    (uninit_tunn : Nat → IpTunnDev) (uninit_usb : Nat → UsbDev) (uninit_addr : Nat → Nat)
    (uninit_items : Nat → DomainAddrItem) (hcount : w.count_within_capacity) :
    (IpTunnelEnumerate.MAX_ITEMS = 50 ∧ Usb.MAX_USB_INTERFACES = 10 ∧
      Services.MAX_IND_ADDR = 5 ∧ Services.MAX_ITEMS = 5) ∧
    array_respected "items" IpTunnelEnumerate.MAX_ITEMS
      (IpTunnelEnumerate.enumerate_tunneling_devices w uninit_tunn ap s).trace ∧
    array_respected "iface_items" Usb.MAX_USB_INTERFACES (Usb.main w uninit_usb s).trace ∧
    array_respected "data" Services.MAX_IND_ADDR
      (Services.ind_addr_prog_mode_read w uninit_addr sp s).trace ∧
    array_respected "items" Services.MAX_ITEMS
      (Services.domain_addr_prog_mode_read w uninit_items sp s).trace ∧
    array_respected "addresses" 10
      (TunnelIndAddr.read_additional_individual_addresses w uninit_addr ap s).trace :=
  ⟨⟨rfl, rfl, rfl, rfl⟩, tunneling_array_respected w hcount s ap uninit_tunn,
    usb_array_respected w hcount s uninit_usb, ind_addr_array_respected w hcount s sp uninit_addr,
    domain_addr_array_respected w hcount s sp uninit_items,
    additional_array_respected w hcount s ap uninit_addr⟩

/-- The claim C19 in the example world with one USB interface. -/
theorem enumeration_buffer_sizes_respected_witness :
    one_interface.count_within_capacity ∧
    array_respected "items" IpTunnelEnumerate.MAX_ITEMS
      (IpTunnelEnumerate.enumerate_tunneling_devices one_interface example_uninit_tunn 0
        ()).trace ∧
    array_respected "iface_items" Usb.MAX_USB_INTERFACES
      (Usb.main one_interface example_uninit_usb ()).trace ∧
    array_respected "data" Services.MAX_IND_ADDR
      (Services.ind_addr_prog_mode_read one_interface example_uninit_addr 1 ()).trace ∧
    array_respected "items" Services.MAX_ITEMS
      (Services.domain_addr_prog_mode_read one_interface example_uninit_item 1 ()).trace ∧
    array_respected "addresses" 10
      (TunnelIndAddr.read_additional_individual_addresses one_interface example_uninit_addr 0
        ()).trace :=
  ⟨one_interface_count_within_capacity,
    (enumeration_buffer_sizes_respected one_interface () 0 1 example_uninit_tunn
      example_uninit_usb example_uninit_addr example_uninit_item
      one_interface_count_within_capacity).2⟩

/-- The claim C17 when two telegrams arrive before the bus falls idle. -/
theorem send_group_value_write_trace_witness :
    Ip.send_group_value_write example_receive 3 1 ADDR_DPT_1 1
      = some ([Effect.call (.kdrive_ap_group_write 1 ADDR_DPT_1 [1] 1),
           Effect.call (.kdrive_ap_enable_queue 1 true)]
          ++ (List.range 2).flatMap (fun k =>
            [Effect.call (.kdrive_ap_receive 1 MAX_BUFFER_SIZE TELEGRAM_TIMEOUT),
             Effect.logger_dump .KDRIVE_LOGGER_INFORMATION "Received telegram from queue :"
               (example_receive k)])
          ++ [Effect.call (.kdrive_ap_receive 1 MAX_BUFFER_SIZE TELEGRAM_TIMEOUT),
              Effect.call (.kdrive_ap_enable_queue 1 false)]) :=
  send_group_value_write_trace example_receive 2 3 1 ADDR_DPT_1 1 (by decide) (by decide)
    (by decide)

/-- The claim C18 as amended, for `InvalidBufferLength` and a library whose
message for it is "Error". -/
theorem error_callback_logs_message_witness :
    error_callback example_error_message (List.replicate ERROR_MESSAGE_LEN 0)
        .InvalidBufferLength
      = [.logger_ex .KDRIVE_LOGGER_ERROR "kdrive error: %s" [.s (some (c_literal "Error"))]] ∧
    error_callback example_error_message (List.replicate ERROR_MESSAGE_LEN 0)
      .KDRIVE_TIMEOUT_ERROR = [] :=
  error_callback_logs_message example_error_message (List.replicate ERROR_MESSAGE_LEN 0)
    .InvalidBufferLength (c_literal "Error") (by decide) (by decide) (by decide)

/-- C21 holds for the enumerations that test the returned code and fails for
`main` of `kdrive_express_usb.c`.  When their library call does not return
`KDRIVE_ERROR_NONE`, `enumerate_tunneling_devices`, `ind_addr_prog_mode_read`,
`domain_addr_prog_mode_read` and `read_additional_individual_addresses` read
and log no array entry.  `main` of the USB sample does not look at what
`kdrive_ap_enum_usb_ex` returns: when the call fails with
`KDRIVE_TIMEOUT_ERROR` and leaves the length variable at 10, `main` logs
"Found 10 KNX USB Interfaces" and reads and logs all ten entries of the array,
none of which the library has written. -/
theorem usb_enumeration_result_ignored :
    (∀ (σ : Type) (w : World σ) (s : σ) (ap : Int) (uninit : Nat → IpTunnDev),
      (w.reply s (.kdrive_ap_enum_ip_tunn ap IpTunnelEnumerate.MAX_ITEMS)).1.code
          ≠ .KDRIVE_ERROR_NONE →
        (IpTunnelEnumerate.enumerate_tunneling_devices w uninit ap s).trace
          = [.logger .KDRIVE_LOGGER_INFORMATION "Enumerating KNX IP Tunneling Interfaces",
             .logger .KDRIVE_LOGGER_INFORMATION "========================================",
             .logger .KDRIVE_LOGGER_INFORMATION "",
             .call (.kdrive_ap_enum_ip_tunn ap IpTunnelEnumerate.MAX_ITEMS)]) ∧
    (∀ (σ : Type) (w : World σ) (s : σ) (sp : Int) (uninit : Nat → Nat),
      (w.reply s (.kdrive_sp_ind_addr_prog_mode_read sp 500 Services.MAX_IND_ADDR)).1.code
          ≠ .KDRIVE_ERROR_NONE →
        (Services.ind_addr_prog_mode_read w uninit sp s).trace
          = [.logger .KDRIVE_LOGGER_INFORMATION "Individual Address Prog Mode Read",
             .logger .KDRIVE_LOGGER_INFORMATION "=================================",
             .call (.kdrive_sp_ind_addr_prog_mode_read sp 500 Services.MAX_IND_ADDR)]) ∧
    (∀ (σ : Type) (w : World σ) (s : σ) (sp : Int) (uninit : Nat → DomainAddrItem),
      (w.reply s (.kdrive_sp_domain_addr_prog_mode_read sp 500 Services.MAX_ITEMS)).1.code
          ≠ .KDRIVE_ERROR_NONE →
        (Services.domain_addr_prog_mode_read w uninit sp s).trace
          = [.logger .KDRIVE_LOGGER_INFORMATION "Domain Address Prog Mode Read",
             .logger .KDRIVE_LOGGER_INFORMATION "=============================",
             .call (.kdrive_sp_domain_addr_prog_mode_read sp 500 Services.MAX_ITEMS)]) ∧
    (∀ (σ : Type) (w : World σ) (s : σ) (ap : Int) (uninit : Nat → Nat),
      (w.reply s (.kdrive_ap_get_additional_ind_addr ap 10)).1.code ≠ .KDRIVE_ERROR_NONE →
        (TunnelIndAddr.read_additional_individual_addresses w uninit ap s).trace
          = [.logger .KDRIVE_LOGGER_INFORMATION "Read all additional individual addresses",
             .logger .KDRIVE_LOGGER_INFORMATION "========================================",
             .call (.kdrive_ap_get_additional_ind_addr ap 10),
             .logger .KDRIVE_LOGGER_INFORMATION ""]) ∧
    (no_interface.reply () (.kdrive_ap_enum_usb_ex Usb.MAX_USB_INTERFACES)).1
      = { code := .KDRIVE_TIMEOUT_ERROR, written := [], count := 10 } ∧
    Effect.call (.kdrive_ap_enum_usb_ex Usb.MAX_USB_INTERFACES)
      ∈ (Usb.main no_interface example_uninit_usb ()).trace ∧
    Effect.logger_ex .KDRIVE_LOGGER_INFORMATION "Found %d KNX USB Interfaces" [.d 10]
      ∈ (Usb.main no_interface example_uninit_usb ()).trace ∧
    (∀ index, index < 10 →
      Effect.array_read "iface_items" 10 index
          ∈ (Usb.main no_interface example_uninit_usb ()).trace ∧
      Effect.logger_ex .KDRIVE_LOGGER_INFORMATION "- indiviual address 0x%04X"
          [.x (example_uninit_usb index).ind_addr]
        ∈ (Usb.main no_interface example_uninit_usb ()).trace) := by
  refine ⟨?_, ?_, ?_, ?_, rfl, by decide, by decide, by decide⟩
  · intro σ w s ap uninit h
    unfold IpTunnelEnumerate.enumerate_tunneling_devices
    simp only [trace_bind, trace_logger, trace_call, state_logger, value_call, trace_ite,
      trace_emit, trace_pure, if_neg h]
    rfl
  · intro σ w s sp uninit h
    unfold Services.ind_addr_prog_mode_read
    simp only [trace_bind, trace_logger, trace_call, state_logger, value_call, trace_ite,
      trace_emit, trace_pure, if_neg h]
    rfl
  · intro σ w s sp uninit h
    unfold Services.domain_addr_prog_mode_read
    simp only [trace_bind, trace_logger, trace_call, state_logger, value_call, trace_ite,
      trace_emit, trace_pure, if_neg h]
    rfl
  · intro σ w s ap uninit h
    unfold TunnelIndAddr.read_additional_individual_addresses
    simp only [trace_bind, trace_logger, trace_call, state_logger, value_call, trace_ite,
      trace_emit, trace_pure, if_neg h]
    rfl

/-- C22 fails on the code.  `read_group_object` passes its own parameter
`address` to `kdrive_ap_get_dest` as the variable to write the destination to.
Asked to read `ADDR_DPT_1`, with a response telegram whose destination is
`ADDR_DPT_2` and whose group data cannot be extracted, it takes the timeout
branch and prints `ADDR_DPT_2`. -/
theorem read_group_object_prints_destination :
    foreign_response.kdrive_ap_get_dest
        (foreign_response.kdrive_ap_read_group_object 1 ADDR_DPT_1 MAX_BUFFER_SIZE 1000)
      = .ok ADDR_DPT_2 ∧
    ADDR_DPT_2 ≠ ADDR_DPT_1 ∧
    Ip.read_group_object foreign_response 1 ADDR_DPT_1
      = [.call (.kdrive_ap_read_group_object 1 ADDR_DPT_1 MAX_BUFFER_SIZE 1000),
         .printf "A_GroupValue_Response: 0x%04x - timeout" [.x ADDR_DPT_2]] := by
  decide

/-- The format of the DPT-15 log line has five conversions. -/
theorem conversions_entrance_access :
    conversions (c_literal "[entrance access] %d %d %d %d %d") = 5 := by
  decide

/-- C23 fails on the code.  The DPT-15 branch of `on_telegram_callback` decodes
six fields and passes all six to `kdrive_logger_ex`, but its format
"[entrance access] %d %d %d %d %d" has five conversions: whatever the decode
call yields, the line shows `accessCode`, `error`, `permission`, `direction`
and `encrypted`, and `index` is not shown.  For the payload `00 04 D2 6A` that
`send_telegrams` sends to `ADDR_DPT_15` (access code 1234, index 10) the line
shows 1234 0 1 1 0. -/
theorem dpt15_index_not_shown :
    (∀ (dpt : DecodeLib) (uninit_value data : List Nat),
      ∃ accessCode error permission direction encrypted index,
        on_telegram_switch dpt uninit_value ADDR_DPT_15 data
          = [.decode 15 data (error_code (dpt.dpt15 data)),
             .logger_ex .KDRIVE_LOGGER_INFORMATION "[entrance access] %d %d %d %d %d"
               [accessCode, error, permission, direction, encrypted, index]] ∧
        shown "[entrance access] %d %d %d %d %d"
            [accessCode, error, permission, direction, encrypted, index]
          = [accessCode, error, permission, direction, encrypted]) ∧
    kdrive_dpt_encode_dpt15 KDRIVE_MAX_GROUP_VALUE_LEN
        { accessCode := 1234, error := false, permission := true, direction := true,
          encrypted := false, index := 10 }
      = .ok [0x00, 0x04, 0xD2, 0x6A] ∧
    on_telegram_switch kdrive_dpt_decode [] ADDR_DPT_15 [0x00, 0x04, 0xD2, 0x6A]
      = [.decode 15 [0x00, 0x04, 0xD2, 0x6A] .KDRIVE_ERROR_NONE,
         .logger_ex .KDRIVE_LOGGER_INFORMATION "[entrance access] %d %d %d %d %d"
           [.d 1234, .d 0, .d 1, .d 1, .d 0, .d 10]] ∧
    shown "[entrance access] %d %d %d %d %d" [.d 1234, .d 0, .d 1, .d 1, .d 0, .d 10]
      = [.d 1234, .d 0, .d 1, .d 1, .d 0] := by
  refine ⟨?_, by decide, by decide, by decide⟩
  intro dpt uninit_value data
  refine ⟨.d (out_param
      { accessCode := 0, error := false, permission := false, direction := false,
        encrypted := false, index := 0 } (dpt.dpt15 data)).accessCode,
    .d (bit (out_param
      { accessCode := 0, error := false, permission := false, direction := false,
        encrypted := false, index := 0 } (dpt.dpt15 data)).error),
    .d (bit (out_param
      { accessCode := 0, error := false, permission := false, direction := false,
        encrypted := false, index := 0 } (dpt.dpt15 data)).permission),
    .d (bit (out_param
      { accessCode := 0, error := false, permission := false, direction := false,
        encrypted := false, index := 0 } (dpt.dpt15 data)).direction),
    .d (bit (out_param
      { accessCode := 0, error := false, permission := false, direction := false,
        encrypted := false, index := 0 } (dpt.dpt15 data)).encrypted),
    .d (out_param
      { accessCode := 0, error := false, permission := false, direction := false,
        encrypted := false, index := 0 } (dpt.dpt15 data)).index, ?_, ?_⟩
  · simp [on_telegram_switch, ADDR_DPT_1, ADDR_DPT_2,
      ADDR_DPT_3, ADDR_DPT_4, ADDR_DPT_5, ADDR_DPT_6, ADDR_DPT_7, ADDR_DPT_8, ADDR_DPT_9,
      ADDR_DPT_10_LOCAL, ADDR_DPT_10_UTC, ADDR_DPT_10, ADDR_DPT_11_LOCAL, ADDR_DPT_11_UTC,
      ADDR_DPT_11, ADDR_DPT_12, ADDR_DPT_13, ADDR_DPT_14, ADDR_DPT_15]
  · unfold shown
    rw [conversions_entrance_access]
    rfl

end KBerry
